import Mathlib

/-!
# Tryze AR product viewer: the application controller and its UI components

A shallow embedding of `frontend/src/app.js` (class `TryzeApp`),
`frontend/src/ui/menu.js` (class `MenuComponent`),
`frontend/src/ui/productOverlay.js` (class `ProductOverlay`) and the parts of
`frontend/src/three-setup.js` and `frontend/src/ar.js` that call back into the
controller.

Conventions of the embedding
* A method `C.m(args)` becomes `C.m : World → args → Outcome` (or `World → World`
  when no statement of the method can throw). A thrown exception keeps every
  mutation made before the throw, as in JavaScript.
* The document is a record of the elements the code looks up; an element that
  `getElementById` / `querySelector` does not find is `none`.
* `setTimeout` appends to a timer queue; `fireNext` runs the callback of the
  pending timer that is due first.
* Inline style writes, `console.log` and the analytics stubs have no reader in
  the code and are left out, and so are the timers whose callback only resets
  an inline style or removes a decoration node.
-/

namespace Tryze

/-! ## Values -/

/-- The product record literal of `loadProducts` (app.js 193-242). -/
structure Product where
  id : Int
  name : String
  description : String
  price : ℚ
  category : String
  material : String
  dimensions : String
  rating : ℚ
  model : String
  thumbnail : String
deriving DecidableEq

/-- The JavaScript values that reach `selectProduct`, `currentProduct` and
`selectedProductId`: a product object, a number (an id), `null`, `undefined`. -/
inductive Value where
  | undefined
  | null
  | num (n : Int)
  | product (p : Product)
deriving DecidableEq

/-- JavaScript truthiness (`if (v)`, `v && ...`). -/
def Value.truthy : Value → Bool
  | .undefined => false
  | .null => false
  | .num n => n != 0
  | .product _ => true

/-- The read `v.id`: `none` is the TypeError of reading a property of
`null` / `undefined`; a number has no own `id`, so the read is `undefined`. -/
def Value.getId : Value → Option Value
  | .undefined => none
  | .null => none
  | .num _ => some .undefined
  | .product p => some (.num p.id)

/-- The numbers held by `loadingProgress`: finite ones (exact rationals stand for
the doubles), `Infinity` and `NaN`. -/
inductive JSNumber where
  | fin (q : ℚ)
  | inf
  | nan
deriving DecidableEq

/-- The call `Math.max(a, b)` on two arguments: `NaN` if either is `NaN`, else the larger. -/
def JSNumber.max : JSNumber → JSNumber → JSNumber
  | .nan, _ => .nan
  | _, .nan => .nan
  | .inf, _ => .inf
  | _, .inf => .inf
  | .fin a, .fin b => .fin (Max.max a b)

/-- The quotient `a / b` of two non-negative integers as JavaScript computes it:
`x / 0` is `Infinity` for `x > 0` and `NaN` for `x = 0`. -/
def JSNumber.divNat (a b : Nat) : JSNumber :=
  if b = 0 then (if a = 0 then .nan else .inf) else .fin ((a : ℚ) / (b : ℚ))

/-- The product `x * k` for a positive finite constant `k`. -/
def JSNumber.scale (x : JSNumber) (k : ℚ) : JSNumber :=
  match x with
  | .fin q => .fin (q * k)
  | .inf => .inf
  | .nan => .nan

/-- What an exception is an instance of. -/
inductive JSError where
  | typeError
  | referenceError
  | syntaxError
deriving DecidableEq

/-! ## The document and the browser environment -/

/-- The `#statusMessage` element: its `hidden` class and whether
`addMarkerFoundEffects` has painted it green. -/
structure StatusElement where
  hidden : Bool
  green : Bool
deriving DecidableEq

/-- The `a-box` child of `#product-entity`, by its attributes. -/
structure BoxElement where
  color : String
  rotation : String
  position : String
  scale : String
deriving DecidableEq

/-- The `#product-entity` element: the `value` attribute of its `a-text` child
and its `a-box` child, each `none` when the child is missing. -/
structure EntityElement where
  text : Option String
  box : Option BoxElement
deriving DecidableEq

/-- What `addProductDetails` writes into `.product-extra-details`. -/
structure DetailsBlock where
  category : String
  material : String
  dimensions : String
  rating : ℚ
deriving DecidableEq

/-- The `#productOverlay` element: its `hidden` class, whether it has the
`.overlay-content` and `.product-details` descendants, the image source and
alt text inside `.product-image` (`none`: no such container), the content of
`.product-extra-details` (`none`: no such container) and how many
`.loading-details` nodes it holds. -/
structure OverlayElement where
  hidden : Bool
  hasContent : Bool
  hasDetails : Bool
  image : Option (String × String)
  extra : Option DetailsBlock
  loadingNodes : Nat
deriving DecidableEq

/-- One `.product-item` of `#productList`: `dataset.productId` (parsed) and the
`active` class. -/
structure ListItem where
  productId : Int
  active : Bool
deriving DecidableEq

/-- The elements and globals the code looks up. -/
structure Document where
  /-- Whether `typeof AFRAME !== 'undefined'` -/
  aframe : Bool
  /-- Whether the global `THREE` is defined -/
  three : Bool
  arScene : Bool
  markerA : Bool
  /-- Element `#helpModal`, by its `hidden` class -/
  helpModal : Option Bool
  /-- Element `#loadingScreen`, by its `hidden` class -/
  loadingScreen : Option Bool
  /-- Element `#progressBar`, by the number written into `style.width`; `none` inside:
  never written -/
  progressBar : Option (Option JSNumber)
  statusMessage : Option StatusElement
  /-- Element `#statusText`, by its `textContent` -/
  statusText : Option String
  productEntity : Option EntityElement
  /-- The first `canvas`, by whether its `toDataURL` throws -/
  canvas : Option Bool
  overlay : Option OverlayElement
  productTitle : Option String
  productDescription : Option String
  productPrice : Option String
  /-- Element `#menu`, by its `aria-expanded` attribute -/
  menu : Option (Option Bool)
  /-- Element `#menuToggle`, by its `innerHTML` -/
  menuToggle : Option String
  /-- Element `#menuContent`, by its `collapsed` class -/
  menuContent : Option Bool
  productList : Option (List ListItem)
  /-- Whether `window.MenuComponent` is defined (menu.js was loaded) -/
  menuClass : Bool
  /-- Whether `window.ProductOverlay` is defined -/
  overlayClass : Bool
  /-- Whether `window.ARController` is defined -/
  arControllerClass : Bool
  /-- Whether `window.ThreeSetup` is defined -/
  threeSetupClass : Bool
deriving DecidableEq

/-- The text under the key `tryze-menu-state`, by what `JSON.parse` makes of it. -/
inductive StoredText where
  /-- Not JSON: `JSON.parse` throws a SyntaxError -/
  | malformed
  /-- The text `null` -/
  | jsonNull
  /-- An object with these property values (`none` / `undefined`: no such key) -/
  | record (isOpen : Option Bool) (selectedProductId : Value)
deriving DecidableEq

/-! ## Component state -/

/-- The fields of `MenuComponent` (menu.js 3-13); the four element references
are the document's. -/
structure MenuComponent where
  isOpen : Bool
  products : List Product
  selectedProductId : Value
deriving DecidableEq

/-- The fields of `ProductOverlay` (productOverlay.js 3-18). -/
structure ProductOverlay where
  isVisible : Bool
  currentProduct : Value
deriving DecidableEq

/-- The fields of `TryzeApp` (app.js 3-19). `arController` and `threeSetup`
hold whether an instance is attached. -/
structure TryzeApp where
  isInitialized : Bool
  currentProduct : Value
  arScene : Bool
  loadingProgress : JSNumber
  isMarkerVisible : Bool
  menu : Option MenuComponent
  productOverlay : Option ProductOverlay
  arController : Bool
  threeSetup : Bool
deriving DecidableEq

/-- Which text node `animateTextUpdate` was given. -/
inductive TextTarget where
  | title
  | description
  | price
deriving DecidableEq

/-- The callbacks handed to `setTimeout`. -/
inductive Callback where
  /-- The `setTimeout(resolve, 500)` of `initializeAR` -/
  | arFallbackResolve
  /-- The `hideLoadingScreen(); showInitialInstructions()` of `init` -/
  | finishLoading
  /-- The `showStatus(instructions[i], 3000)` of `showInitialInstructions` -/
  | instruction (i : Nat)
  /-- The `statusMessage.classList.add('hidden')` of `showStatus` -/
  | statusHide
  /-- The `this.productOverlay.show()` of `onMarkerFound` -/
  | overlayShow
  /-- The background reset of `addMarkerFoundEffects` -/
  | statusBackgroundReset
  /-- The `this.handleResize()` of `handleOrientationChange` -/
  | orientationResize
  /-- The `element.textContent = newText` of `animateTextUpdate` -/
  | textUpdate (target : TextTarget) (text : String)
  /-- The `hideLoadingState(); animateDetailsIn()` of `loadProductDetails` -/
  | detailsLoaded
  /-- The `overlayElement.classList.add('hidden')` of `ProductOverlay.hide` -/
  | overlayAddHidden
deriving DecidableEq

/-- A pending timer: when it is due (ms) and what it runs. -/
structure Timer where
  due : Nat
  cb : Callback
deriving DecidableEq

/-- The whole state: the controller, whether `window.tryzeApp` refers to it,
`window.productData`, the document, the storage slot, the timer queue, the
clock, the timestamps of the screenshots downloaded, the number of calls of
`ThreeSetup.handleResize` and the state of the promise of `initializeAR`. -/
structure World where
  app : TryzeApp
  registered : Bool
  productData : Option (List Product)
  doc : Document
  storage : Option StoredText
  timers : List Timer
  now : Nat
  downloads : List Nat
  resizes : Nat
  /-- Whether `init` is suspended at `await this.initializeAR()` -/
  arPending : Bool
deriving DecidableEq

/-- How a call ended and the state it left. -/
structure Outcome where
  world : World
  /-- Empty (`none`) when the call returned normally -/
  error : Option JSError
deriving DecidableEq

/-- Continue with `f` unless the first part threw. -/
def Outcome.andThen (o : Outcome) (f : World → Outcome) : Outcome :=
  match o.error with
  | none => f o.world
  | some _ => o

/-- The call `setTimeout(cb, delay)`. -/
def setTimeout (w : World) (cb : Callback) (delay : Nat) : World :=
  { w with timers := w.timers ++ [{ due := w.now + delay, cb := cb }] }

/-- Return normally. -/
def Outcome.ok (w : World) : Outcome := { world := w, error := none }

/-- Throw `e`. -/
def Outcome.throw (w : World) (e : JSError) : Outcome := { world := w, error := some e }

/-! ## TryzeApp: status line, loading screen, progress -/

/-- Method `showStatus(message, duration)` (app.js 523-540). -/
def TryzeApp.showStatus (w : World) (message : String) (duration : Nat) : World :=
  match w.doc.statusMessage, w.doc.statusText with
  | some sm, some _ =>
    let w1 := { w with doc := { w.doc with
      statusText := some message, statusMessage := some { sm with hidden := false } } }
    if duration > 0 then setTimeout w1 .statusHide duration else w1
  | _, _ => w

/-- Method `updateLoadingProgress(percent)` (app.js 484-493). -/
def TryzeApp.updateLoadingProgress (w : World) (percent : JSNumber) : World :=
  let p := JSNumber.max w.app.loadingProgress percent
  let w1 := { w with app := { w.app with loadingProgress := p } }
  match w1.doc.progressBar with
  | some _ => { w1 with doc := { w1.doc with progressBar := some (some p) } }
  | none => w1

/-- Method `showLoadingScreen()` (app.js 495-500). -/
def TryzeApp.showLoadingScreen (w : World) : World :=
  match w.doc.loadingScreen with
  | some _ => { w with doc := { w.doc with loadingScreen := some false } }
  | none => w

/-- Method `hideLoadingScreen()` (app.js 502-507). -/
def TryzeApp.hideLoadingScreen (w : World) : World :=
  match w.doc.loadingScreen with
  | some _ => { w with doc := { w.doc with loadingScreen := some true } }
  | none => w

/-- The `instructions` array of `showInitialInstructions` (app.js 510-514). -/
def instructions : List String :=
  ["Welcome to Tryze AR! 👋",
   "Print the Hiro marker to get started",
   "Point your camera at the marker to see products in AR"]

/-- Method `showInitialInstructions()` (app.js 509-521): one timer per entry, at
`index * 3500`. -/
def TryzeApp.showInitialInstructions (w : World) : World :=
  (List.range instructions.length).foldl (fun acc i => setTimeout acc (.instruction i) (i * 3500)) w

/-- The progress callback of `ThreeSetup.loadModel` (three-setup.js 143-147) with
`ThreeSetup.updateLoadingProgress` (156-161): forwards
`(progress.loaded / progress.total) * 100` when `window.tryzeApp` is set. -/
def ThreeSetup.onProgress (w : World) (loaded total : Nat) : World :=
  let percentComplete := (JSNumber.divNat loaded total).scale 100
  if w.registered then TryzeApp.updateLoadingProgress w percentComplete else w

/-- Method `ThreeSetup.handleResize()` (three-setup.js 169-175), counted. -/
def ThreeSetup.handleResize (w : World) : World :=
  { w with resizes := w.resizes + 1 }

/-- Method `handleResize()` (app.js 407-419). -/
def TryzeApp.handleResize (w : World) : World :=
  if w.app.threeSetup then ThreeSetup.handleResize w else w

/-- Method `handleOrientationChange()` (app.js 421-428). -/
def TryzeApp.handleOrientationChange (w : World) : World :=
  setTimeout w .orientationResize 200

/-- Method `addMarkerFoundEffects()` (app.js 349-358). -/
def TryzeApp.addMarkerFoundEffects (w : World) : World :=
  match w.doc.statusMessage with
  | some sm =>
    setTimeout { w with doc := { w.doc with statusMessage := some { sm with green := true } } }
      .statusBackgroundReset 2000
  | none => w

/-- The listener of the window `error` event (app.js 587-593), which receives
every exception that escapes an event listener or a timer callback. -/
def reportError (w : World) : World :=
  if w.registered then
    TryzeApp.showStatus w "An error occurred. Please refresh the page." 5000
  else w

/-! ## Reading the properties of a selected value -/

/-- Decimal digits of the fraction `r / d` (with `r < d`), at most `fuel` of them. -/
def fractionDigits : Nat → Nat → Nat → List Char
  | 0, _, _ => []
  | fuel + 1, r, d =>
    if r = 0 then [] else Nat.digitChar (r * 10 / d) :: fractionDigits fuel (r * 10 % d) d

/-- The text JavaScript prints for a number with a short decimal expansion
(`299.99` prints as `299.99`, `300` as `300`). -/
def numberToString (q : ℚ) : String :=
  let n := q.num.natAbs
  let d := q.den
  let whole := (if q < 0 then "-" else "") ++ toString (n / d)
  if n % d = 0 then whole else whole ++ "." ++ String.mk (fractionDigits 20 (n % d) d)

/-- The text of `product.name` inside a template literal or as an attribute
value, for a value that is not `null` / `undefined`. -/
def Value.nameString : Value → String
  | .product p => p.name
  | _ => "undefined"

/-- The text a `textContent` assignment of `product.name` leaves: assigning
`undefined` empties the node. -/
def Value.nameText : Value → String
  | .product p => p.name
  | _ => ""

/-- The text a `textContent` assignment of `product.description` leaves. -/
def Value.descriptionText : Value → String
  | .product p => p.description
  | _ => ""

/-- The template literal that puts a dollar sign before `product.price`. -/
def Value.priceText : Value → String
  | .product p => "$" ++ numberToString p.price
  | _ => "$undefined"

/-- The `colors` array of `updateARScene` (app.js 305). -/
def colors : List String := ["#00d4ff", "#667eea", "#764ba2", "#ff6b6b"]

/-- The attribute text of `colors[product.id % colors.length]`: the remainder
has the sign of `product.id`, and an index outside the array reads `undefined`. -/
def Value.colorString : Value → String
  | .product p =>
    let i := Int.tmod p.id colors.length
    if i < 0 then "undefined" else colors.getD i.toNat "undefined"
  | _ => "undefined"

/-- Method `updateARScene(product)` (app.js 285-310). -/
def TryzeApp.updateARScene (w : World) (product : Value) : Outcome :=
  match w.doc.productEntity with
  | none => .ok w
  | some e =>
    match product with
    | .undefined => .throw w .typeError
    | .null => .throw w .typeError
    | v =>
      let e1 := { e with text := e.text.map (fun _ => v.nameString) }
      let e2 := { e1 with box := e1.box.map (fun b => { b with color := v.colorString }) }
      .ok { w with doc := { w.doc with productEntity := some e2 } }

/-! ## ProductOverlay -/

/-- Method `animateTextUpdate(element, newText)` (productOverlay.js 157-170), with
the element given by the target and whether the lookup found it. -/
def ProductOverlay.animateTextUpdate (w : World) (target : TextTarget) (present : Bool)
    (newText : String) : World :=
  if present then setTimeout w (.textUpdate target newText) 150 else w

/-- Method `updateProductImage(product)` (productOverlay.js 172-185). -/
def ProductOverlay.updateProductImage (w : World) (product : Value) : Outcome :=
  match w.doc.overlay with
  | none => .throw w .typeError
  | some el =>
    let img : String × String :=
      match product with
      | .product p => (p.thumbnail, p.name)
      | _ => ("undefined", "undefined")
    if el.image.isNone && !el.hasContent then .throw w .typeError
    else .ok { w with doc := { w.doc with overlay := some { el with image := some img } } }

/-- The operand `x || fallback` for a string property. -/
def orDefault (x : Option String) (fallback : String) : String :=
  match x with
  | some s => if s = "" then fallback else s
  | none => fallback

/-- The block `addProductDetails` renders for a product value. -/
def detailsOf (product : Value) : DetailsBlock :=
  match product with
  | .product p =>
    { category := orDefault (some p.category) "Furniture",
      material := orDefault (some p.material) "Wood & Metal",
      dimensions := orDefault (some p.dimensions) "120 x 60 x 75 cm",
      rating := if p.rating = 0 then 4.5 else p.rating }
  | _ =>
    { category := "Furniture", material := "Wood & Metal",
      dimensions := "120 x 60 x 75 cm", rating := 4.5 }

/-- Method `addProductDetails(product)` (productOverlay.js 187-220). -/
def ProductOverlay.addProductDetails (w : World) (product : Value) : Outcome :=
  match w.doc.overlay with
  | none => .throw w .typeError
  | some el =>
    if el.extra.isNone && !el.hasDetails then .throw w .typeError
    else .ok { w with doc := { w.doc with
      overlay := some { el with extra := some (detailsOf product) } } }

/-- Method `renderProductInfo()` (productOverlay.js 140-155), reading
`this.currentProduct`. -/
def ProductOverlay.renderProductInfo (w : World) : Outcome :=
  match w.app.productOverlay with
  | none => .throw w .typeError
  | some o =>
    if !o.currentProduct.truthy then .ok w
    else
      let product := o.currentProduct
      let w1 := ProductOverlay.animateTextUpdate w .title w.doc.productTitle.isSome
        product.nameText
      let w2 := ProductOverlay.animateTextUpdate w1 .description
        w1.doc.productDescription.isSome product.descriptionText
      let w3 := ProductOverlay.animateTextUpdate w2 .price w2.doc.productPrice.isSome
        product.priceText
      (ProductOverlay.updateProductImage w3 product).andThen
        (fun w4 => ProductOverlay.addProductDetails w4 product)

/-- Method `showLoadingState()` (productOverlay.js 253-270). -/
def ProductOverlay.showLoadingState (w : World) : Outcome :=
  match w.doc.overlay with
  | none => .throw w .typeError
  | some el =>
    if !el.hasContent then .throw w .typeError
    else .ok { w with doc := { w.doc with
      overlay := some { el with loadingNodes := el.loadingNodes + 1 } } }

/-- Method `loadProductDetails()` (productOverlay.js 243-251). -/
def ProductOverlay.loadProductDetails (w : World) : Outcome :=
  (ProductOverlay.showLoadingState w).andThen (fun w1 => .ok (setTimeout w1 .detailsLoaded 800))

/-- Method `updateProduct(product)` (productOverlay.js 134-138) of the attached
overlay. -/
def ProductOverlay.updateProduct (w : World) (product : Value) : Outcome :=
  match w.app.productOverlay with
  | none => .throw w .typeError
  | some o =>
    let w1 := { w with app := { w.app with
      productOverlay := some { o with currentProduct := product } } }
    (ProductOverlay.renderProductInfo w1).andThen ProductOverlay.loadProductDetails

/-- Method `show()` (productOverlay.js 293-310) of the attached overlay. -/
def ProductOverlay.show (w : World) : Outcome :=
  match w.app.productOverlay with
  | none => .throw w .typeError
  | some o =>
    let w1 := { w with app := { w.app with productOverlay := some { o with isVisible := true } } }
    match w1.doc.overlay with
    | some el => .ok { w1 with doc := { w1.doc with overlay := some { el with hidden := false } } }
    | none => .ok w1

/-- Method `hide()` (productOverlay.js 312-328) of the attached overlay. -/
def ProductOverlay.hide (w : World) : Outcome :=
  match w.app.productOverlay with
  | none => .throw w .typeError
  | some o =>
    let w1 := { w with app := { w.app with productOverlay := some { o with isVisible := false } } }
    match w1.doc.overlay with
    | some _ => .ok (setTimeout w1 .overlayAddHidden 300)
    | none => .ok w1

/-- Method `hideLoadingState()` (productOverlay.js 272-277). -/
def ProductOverlay.hideLoadingState (w : World) : Outcome :=
  match w.doc.overlay with
  | none => .throw w .typeError
  | some el => .ok { w with doc := { w.doc with
      overlay := some { el with loadingNodes := el.loadingNodes - 1 } } }

/-! ## MenuComponent -/

/-- Method `updateUI()` (menu.js 123-135) for the given value of `this.isOpen`. -/
def MenuComponent.updateUI (w : World) (isOpen : Bool) : Outcome :=
  match w.doc.menuContent with
  | none => .ok w
  | some _ =>
    let w1 := { w with doc := { w.doc with menuContent := some (!isOpen) } }
    match w1.doc.menuToggle with
    | none => .throw w1 .typeError
    | some _ =>
      let w2 := { w1 with doc := { w1.doc with menuToggle := some (if isOpen then "✕" else "☰") } }
      match w2.doc.menu with
      | none => .throw w2 .typeError
      | some _ => .ok { w2 with doc := { w2.doc with menu := some (some isOpen) } }

/-- The constructor of `MenuComponent` with `init`, `setupEventListeners`,
`setupTouchGestures`, `setupAnimations` and `loadInitialState` (menu.js 3-93):
the state it leaves and the instance, which the caller attaches only when the
constructor returned. -/
def MenuComponent.construct (w : World) : Outcome × MenuComponent :=
  let fresh : MenuComponent := { isOpen := false, products := [], selectedProductId := .null }
  match w.doc.menu with
  | none => (.throw w .typeError, fresh)
  | some _ =>
    match w.storage with
    | none => (.ok w, fresh)
    | some .malformed => (.throw w .syntaxError, fresh)
    | some .jsonNull => (.throw w .typeError, fresh)
    | some (.record isOpen _) =>
      let m := { fresh with isOpen := isOpen.getD false }
      (MenuComponent.updateUI w m.isOpen, m)

/-- Method `renderProductList()` (menu.js 156-165) for the given `this.products`. -/
def MenuComponent.renderProductList (w : World) (products : List Product) : World :=
  match w.doc.productList with
  | none => w
  | some _ => { w with doc := { w.doc with
      productList := some (products.map (fun p => { productId := p.id, active := false })) } }

/-- Method `loadProducts(products)` (menu.js 151-154) of the attached menu. -/
def MenuComponent.loadProducts (w : World) (products : List Product) : Outcome :=
  match w.app.menu with
  | none => .throw w .typeError
  | some m =>
    .ok (MenuComponent.renderProductList
      { w with app := { w.app with menu := some { m with products := products } } } products)

/-- Method `updateSelectedProduct()` (menu.js 237-246) for the given
`this.selectedProductId`. -/
def MenuComponent.updateSelectedProduct (w : World) (selected : Value) : Outcome :=
  match w.doc.productList with
  | none => .throw w .typeError
  | some items => .ok { w with doc := { w.doc with
      productList := some (items.map (fun it =>
        { it with active := decide (selected = .num it.productId) })) } }

/-- Method `saveState()` (menu.js 302-308) of the attached menu. -/
def MenuComponent.saveState (w : World) : Outcome :=
  match w.app.menu with
  | none => .throw w .typeError
  | some m =>
    .ok { w with storage := some (.record (some m.isOpen) m.selectedProductId) }

/-! ## Selection -/

mutual

/-- Method `TryzeApp.selectProduct(product)` (app.js 260-283). The fuel bounds the
depth of the calls between the two `selectProduct` methods; `none` is returned
when it runs out. -/
def TryzeApp.selectProductFuel : Nat → World → Value → Option Outcome
  | 0, _, _ => none
  | fuel + 1, w, product =>
    match product with
    | .undefined => some (.throw w .typeError)
    | .null => some (.throw w .typeError)
    | _ =>
      let w1 := { w with app := { w.app with currentProduct := product } }
      let o2 := TryzeApp.updateARScene w1 product
      let o3 := o2.andThen (fun w2 =>
        if w2.app.productOverlay.isSome then ProductOverlay.updateProduct w2 product else .ok w2)
      match o3.error with
      | some _ => some o3
      | none =>
        let w3 := o3.world
        let r4 : Option Outcome :=
          if w3.app.menu.isSome then
            MenuComponent.selectProductFuel fuel w3 ((product.getId).getD .undefined)
          else some (.ok w3)
        match r4 with
        | none => none
        | some o4 =>
          some (o4.andThen (fun w4 =>
            .ok (TryzeApp.showStatus w4 ("Loaded: " ++ product.nameString) 2000)))

/-- Method `MenuComponent.selectProduct(product)` (menu.js 221-235) of the
attached menu, with the same fuel. -/
def MenuComponent.selectProductFuel : Nat → World → Value → Option Outcome
  | 0, _, _ => none
  | fuel + 1, w, product =>
    match w.app.menu, product.getId with
    | none, _ => some (.throw w .typeError)
    | some _, none => some (.throw w .typeError)
    | some m, some id =>
      let w1 := { w with app := { w.app with menu := some { m with selectedProductId := id } } }
      let o2 := MenuComponent.updateSelectedProduct w1 id
      match o2.error with
      | some _ => some o2
      | none =>
        if o2.world.registered then TryzeApp.selectProductFuel fuel o2.world product
        else some o2

end

/-- Enough fuel for every chain of calls between the two `selectProduct` methods:
each call passes on `product` or `product.id`, and `product.id.id` is already
`undefined`, on which the next call throws. -/
def selectFuel : Nat := 6

/-- Method `TryzeApp.selectProduct(product)` (app.js 260-283). -/
def TryzeApp.selectProduct (w : World) (product : Value) : Outcome :=
  match TryzeApp.selectProductFuel selectFuel w product with
  | some o => o
  | none => .throw w .typeError

/-- Method `MenuComponent.selectProduct(product)` (menu.js 221-235). -/
def MenuComponent.selectProduct (w : World) (product : Value) : Outcome :=
  match MenuComponent.selectProductFuel selectFuel w product with
  | some o => o
  | none => .throw w .typeError

/-! ## TryzeApp: marker events, buttons, keyboard -/

/-- Method `onMarkerFound()` (app.js 312-331). -/
def TryzeApp.onMarkerFound (w : World) : World :=
  let w1 := { w with app := { w.app with isMarkerVisible := true } }
  let w2 := TryzeApp.showStatus w1 "AR Active - Explore the product!" 3000
  let w3 :=
    if w2.app.productOverlay.isSome && w2.app.currentProduct.truthy then
      setTimeout w2 .overlayShow 500
    else w2
  TryzeApp.addMarkerFoundEffects w3

/-- Method `onMarkerLost()` (app.js 333-347). -/
def TryzeApp.onMarkerLost (w : World) : World :=
  let w1 := { w with app := { w.app with isMarkerVisible := false } }
  let w2 := TryzeApp.showStatus w1 "Point your camera at the AR marker" 0
  if w2.app.productOverlay.isSome then (ProductOverlay.hide w2).world else w2

/-- Method `resetView()` (app.js 360-376). -/
def TryzeApp.resetView (w : World) : World :=
  let w1 :=
    match w.doc.productEntity with
    | some e => { w with doc := { w.doc with productEntity := some { e with
        box := e.box.map (fun b =>
          { b with rotation := "0 0 0", position := "0 0.5 0", scale := "0.5 0.5 0.5" }) } } }
    | none => w
  TryzeApp.showStatus w1 "View reset to default position" 2000

/-- Method `captureScreen()` (app.js 378-399). -/
def TryzeApp.captureScreen (w : World) : World :=
  match w.doc.canvas with
  | some throws =>
    if throws then TryzeApp.showStatus w "Screenshot failed. Please try again." 2000
    else TryzeApp.showStatus { w with downloads := w.downloads ++ [w.now] }
      "Screenshot saved successfully! 📸" 2000
  | none => TryzeApp.showStatus w "Unable to capture screenshot" 2000

/-- Method `switchCamera()` (app.js 401-405). -/
def TryzeApp.switchCamera (w : World) : World :=
  TryzeApp.showStatus w "Camera switching not available in web AR" 3000

/-- A `keydown` event: the fields `handleKeyboard` reads, and whether
`preventDefault` has been called on it. -/
structure KeyEvent where
  key : String
  ctrlKey : Bool
  metaKey : Bool
  defaultPrevented : Bool
deriving DecidableEq

/-- Toggle the `hidden` class of `#helpModal` when the element exists. -/
def toggleHelp (w : World) : World :=
  match w.doc.helpModal with
  | some h => { w with doc := { w.doc with helpModal := some (!h) } }
  | none => w

/-- Method `handleKeyboard(event)` (app.js 430-472): the state and the event
after the call. -/
def TryzeApp.handleKeyboard (w : World) (event : KeyEvent) : World × KeyEvent :=
  if !w.app.isInitialized then (w, event)
  else if event.key = "Escape" then
    let w1 := if w.app.productOverlay.isSome then (ProductOverlay.hide w).world else w
    match w1.doc.helpModal with
    | some false => ({ w1 with doc := { w1.doc with helpModal := some true } }, event)
    | _ => (w1, event)
  else if event.key = "r" ∨ event.key = "R" then
    if event.ctrlKey || event.metaKey then
      (TryzeApp.resetView w, { event with defaultPrevented := true })
    else (w, event)
  else if event.key = "s" ∨ event.key = "S" then
    if event.ctrlKey || event.metaKey then
      (TryzeApp.captureScreen w, { event with defaultPrevented := true })
    else (w, event)
  else if event.key = "h" ∨ event.key = "H" then
    if event.ctrlKey || event.metaKey then
      (toggleHelp w, { event with defaultPrevented := true })
    else (w, event)
  else (w, event)

/-! ## Startup -/

/-- The `products` array of `loadProducts` (app.js 193-242). -/
def products : List Product :=
  [ { id := 1, name := "Modern Office Chair",
      description := "Ergonomic office chair with lumbar support and adjustable height. Perfect for long work sessions with premium materials and sleek design.",
      price := 299.99, category := "Furniture", material := "Mesh & Aluminum",
      dimensions := "65 x 65 x 120 cm", rating := 4.5, model := "assets/chair.gltf",
      thumbnail := "https://via.placeholder.com/150x150/667eea/white?text=Chair" },
    { id := 2, name := "Wooden Coffee Table",
      description := "Handcrafted wooden coffee table with natural finish. Features storage compartments and sustainable materials.",
      price := 199.99, category := "Furniture", material := "Oak Wood",
      dimensions := "120 x 60 x 45 cm", rating := 4.2, model := "assets/table.gltf",
      thumbnail := "https://via.placeholder.com/150x150/764ba2/white?text=Table" },
    { id := 3, name := "LED Floor Lamp",
      description := "Modern LED floor lamp with adjustable brightness and color temperature. Energy efficient with smart controls.",
      price := 149.99, category := "Lighting", material := "Metal & Fabric",
      dimensions := "30 x 30 x 160 cm", rating := 4.8, model := "assets/lamp.gltf",
      thumbnail := "https://via.placeholder.com/150x150/00d4ff/white?text=Lamp" },
    { id := 4, name := "Decorative Vase",
      description := "Ceramic decorative vase with unique geometric patterns. Perfect accent piece for modern interiors.",
      price := 79.99, category := "Decoration", material := "Ceramic",
      dimensions := "25 x 25 x 40 cm", rating := 4.3, model := "assets/vase.gltf",
      thumbnail := "https://via.placeholder.com/150x150/ff6b6b/white?text=Vase" } ]

/-- Method `loadProducts()` (app.js 189-258). -/
def TryzeApp.loadProducts (w : World) : Outcome :=
  let w1 := { w with productData := some products }
  let o2 := if w1.app.menu.isSome then MenuComponent.loadProducts w1 products else .ok w1
  o2.andThen (fun w2 =>
    match products with
    | first :: _ => TryzeApp.selectProduct w2 (.product first)
    | [] => .ok w2)

/-- Method `initializeComponents()` (app.js 170-187). `new ARController()`
(ar.js 3-15) needs the global `THREE`; `new ThreeSetup()` (three-setup.js 3-25)
always throws, since `init` calls `this.setupControls()` and
`this.setupPostProcessing()`, which no file defines. -/
def TryzeApp.initializeComponents (w : World) : Outcome :=
  let o1 : Outcome :=
    if w.doc.menuClass then
      let r := MenuComponent.construct w
      r.1.andThen (fun w1 => .ok { w1 with app := { w1.app with menu := some r.2 } })
    else .ok w
  let o2 := o1.andThen (fun w1 =>
    if w1.doc.overlayClass then
      .ok { w1 with app := { w1.app with
        productOverlay := some { isVisible := false, currentProduct := .null } } }
    else .ok w1)
  let o3 := o2.andThen (fun w2 =>
    if w2.doc.arControllerClass then
      if w2.doc.three then .ok { w2 with app := { w2.app with arController := true } }
      else .throw w2 .referenceError
    else .ok w2)
  o3.andThen (fun w3 =>
    if w3.doc.threeSetupClass then
      .throw w3 (if w3.doc.three then .typeError else .referenceError)
    else .ok w3)

/-- The `try` block of `init()` after `await this.initializeAR()` (app.js 31-54).
`initializeUI` and `setupEventListeners` only register listeners. -/
def TryzeApp.initBody (w : World) : Outcome :=
  let w1 := TryzeApp.updateLoadingProgress w (.fin 30)
  let w2 := TryzeApp.updateLoadingProgress w1 (.fin 50)
  let w3 := TryzeApp.updateLoadingProgress w2 (.fin 70)
  (TryzeApp.loadProducts w3).andThen (fun w4 =>
    let w5 := TryzeApp.updateLoadingProgress w4 (.fin 90)
    (TryzeApp.initializeComponents w5).andThen (fun w6 =>
      let w7 := TryzeApp.updateLoadingProgress w6 (.fin 100)
      let w8 := setTimeout w7 .finishLoading 1000
      .ok { w8 with app := { w8.app with isInitialized := true } }))

/-- The rest of `init()` once the promise of `initializeAR` is resolved: the `try`
block, and the `catch` clause (app.js 56-59) when it threw. -/
def TryzeApp.initResume (w : World) : World :=
  let o := TryzeApp.initBody { w with arPending := false }
  match o.error with
  | none => o.world
  | some _ =>
    TryzeApp.showStatus o.world
      "Failed to initialize AR experience. Please refresh and try again." 5000

/-- The call `resolve()` of `initializeAR`: resumes `init` the first time only. -/
def TryzeApp.resolveAR (w : World) : World :=
  if w.arPending then TryzeApp.initResume w else w

/-- The constructor's field values (app.js 3-15). -/
def TryzeApp.fresh : TryzeApp :=
  { isInitialized := false, currentProduct := .null, arScene := false,
    loadingProgress := .fin 0, isMarkerVisible := false, menu := none,
    productOverlay := none, arController := false, threeSetup := false }

/-- The call `new TryzeApp()` (app.js 3-19) on a page with the given document
and storage slot, as the `DOMContentLoaded` listener (app.js 576-579) makes it:
the constructor runs `init()` up to `await this.initializeAR()` (app.js 21-30,
62-97) and the instance is stored in `window.tryzeApp`. -/
def TryzeApp.construct (doc : Document) (storage : Option StoredText) : World :=
  let w0 : World :=
    { app := TryzeApp.fresh, registered := false, productData := none, doc := doc,
      storage := storage, timers := [], now := 0, downloads := [], resizes := 0,
      arPending := true }
  let w1 := TryzeApp.updateLoadingProgress (TryzeApp.showLoadingScreen w0) (.fin 10)
  let w2 : World :=
    if w1.doc.aframe then { w1 with app := { w1.app with arScene := w1.doc.arScene } }
    else setTimeout w1 .arFallbackResolve 500
  { w2 with registered := true }

/-- The page once the `DOMContentLoaded` listener has returned: `init` resumes at
once when `initializeAR` resolved without waiting (A-Frame present, no
`#arScene`), and otherwise waits for the scene's `loaded` event or for the
500 ms fallback timer. -/
def launch (doc : Document) (storage : Option StoredText) : World :=
  if doc.aframe && !doc.arScene then TryzeApp.resolveAR (TryzeApp.construct doc storage)
  else TryzeApp.construct doc storage

/-! ## Timers -/

/-- The pending timer that is due first (the earlier `setTimeout` call wins a
tie), and the queue without it. -/
def popTimer : List Timer → Option (Timer × List Timer)
  | [] => none
  | t :: ts =>
    match popTimer ts with
    | none => some (t, [])
    | some (u, rest) => if t.due ≤ u.due then some (t, ts) else some (u, t :: rest)

/-- Write `textContent` of the node `animateTextUpdate` was given. -/
def setText (w : World) (target : TextTarget) (text : String) : World :=
  match target with
  | .title => { w with doc := { w.doc with productTitle := w.doc.productTitle.map (fun _ => text) } }
  | .description =>
    { w with doc := { w.doc with productDescription := w.doc.productDescription.map (fun _ => text) } }
  | .price => { w with doc := { w.doc with productPrice := w.doc.productPrice.map (fun _ => text) } }

/-- The body of each timer callback. -/
def runCallback (w : World) : Callback → Outcome
  | .arFallbackResolve => .ok (TryzeApp.resolveAR w)
  | .finishLoading => .ok (TryzeApp.showInitialInstructions (TryzeApp.hideLoadingScreen w))
  | .instruction i => .ok (TryzeApp.showStatus w (instructions.getD i "") 3000)
  | .statusHide =>
    .ok { w with doc := { w.doc with
      statusMessage := w.doc.statusMessage.map (fun sm => { sm with hidden := true }) } }
  | .overlayShow => ProductOverlay.show w
  | .statusBackgroundReset =>
    .ok { w with doc := { w.doc with
      statusMessage := w.doc.statusMessage.map (fun sm => { sm with green := false }) } }
  | .orientationResize => .ok (TryzeApp.handleResize w)
  | .textUpdate target text => .ok (setText w target text)
  | .detailsLoaded => ProductOverlay.hideLoadingState w
  | .overlayAddHidden =>
    match w.doc.overlay with
    | some el => .ok { w with doc := { w.doc with overlay := some { el with hidden := true } } }
    | none => .throw w .typeError

/-- Run a listener or callback at the top level: an exception that escapes it
goes to the window `error` listener. -/
def settle (o : Outcome) : World :=
  match o.error with
  | none => o.world
  | some _ => reportError o.world

/-- Let the clock reach the next pending timer and run its callback. -/
def fireNext (w : World) : World :=
  match popTimer w.timers with
  | none => w
  | some (t, rest) =>
    settle (runCallback { w with timers := rest, now := Nat.max w.now t.due } t.cb)

/-- Fire pending timers, at most `n` of them. -/
def fireTimers : Nat → World → World
  | 0, w => w
  | n + 1, w => fireTimers n (fireNext w)

/-! ## The public query surface -/

/-- Method `getCurrentProduct()` (app.js 557-559). -/
def TryzeApp.getCurrentProduct (w : World) : Value := w.app.currentProduct

/-- Method `isMarkerCurrentlyVisible()` (app.js 561-563). -/
def TryzeApp.isMarkerCurrentlyVisible (w : World) : Bool := w.app.isMarkerVisible

/-! ## Event sequences -/

/-- What can be delivered to the controller between two states. -/
inductive Event where
  /-- A call of `onMarkerFound()` -/
  | markerFound
  /-- A call of `onMarkerLost()` -/
  | markerLost
  /-- A call of `TryzeApp.selectProduct(v)` -/
  | select (v : Value)
  /-- A click on a menu entry: `MenuComponent.selectProduct(p)` -/
  | menuSelect (p : Product)
  /-- A call of `TryzeApp.updateLoadingProgress(x)` -/
  | progress (x : JSNumber)
  /-- A progress event of a model load (`loaded`, `total`) -/
  | modelProgress (loaded total : Nat)
  /-- A `keydown` event -/
  | keydown (e : KeyEvent)
  /-- The window `resize` event -/
  | resize
  /-- The window `orientationchange` event -/
  | orientationChange
  /-- The `loaded` event of `#arScene` -/
  | sceneLoaded
  /-- The next pending timer fires -/
  | timer
deriving DecidableEq

/-- Deliver one event. -/
def step (w : World) : Event → World
  | .markerFound => TryzeApp.onMarkerFound w
  | .markerLost => TryzeApp.onMarkerLost w
  | .select v => settle (TryzeApp.selectProduct w v)
  | .menuSelect p => settle (MenuComponent.selectProduct w (.product p))
  | .progress x => TryzeApp.updateLoadingProgress w x
  | .modelProgress loaded total => ThreeSetup.onProgress w loaded total
  | .keydown e => (TryzeApp.handleKeyboard w e).1
  | .resize => TryzeApp.handleResize w
  | .orientationChange => TryzeApp.handleOrientationChange w
  | .sceneLoaded => if w.doc.aframe && w.doc.arScene then TryzeApp.resolveAR w else w
  | .timer => fireNext w

/-- Deliver a sequence of events in order. -/
def run (w : World) (es : List Event) : World := es.foldl step w

/-- A sequence of `updateLoadingProgress` calls, in order. -/
def updateAll (w : World) (ps : List JSNumber) : World :=
  ps.foldl TryzeApp.updateLoadingProgress w

/-- The integer `k` as a JavaScript number. -/
def JSNumber.ofInt (k : ℤ) : JSNumber := .fin (k : ℚ)

/-- The largest of `v, p1, ..., pn`. -/
def maxOf (v : ℚ) (ps : List ℤ) : ℚ :=
  ps.foldl (fun (m : ℚ) (p : ℤ) => max m (p : ℚ)) v

/-- An integer in the range `0..100`. -/
def IsPercent (x : JSNumber) : Prop := ∃ k : ℤ, x = JSNumber.ofInt k ∧ 0 ≤ k ∧ k ≤ 100

/-- The parts of the state that no selection changes: the marker flag, the
progress, the startup flags, the registration and which components are
attached. -/
def SameSetup (w w2 : World) : Prop :=
  w2.app.isMarkerVisible = w.app.isMarkerVisible
  ∧ w2.app.loadingProgress = w.app.loadingProgress
  ∧ w2.app.isInitialized = w.app.isInitialized
  ∧ w2.registered = w.registered
  ∧ w2.arPending = w.arPending
  ∧ w2.app.menu.isSome = w.app.menu.isSome
  ∧ w2.app.productOverlay.isSome = w.app.productOverlay.isSome

/-- The pending timers that run the given callback. -/
def pending (w : World) (cb : Callback) : List Timer :=
  w.timers.filter (fun t => decide (t.cb = cb))

/-- The marker signals of a sequence of events, in order. -/
def markerSignals (es : List Event) : List Event :=
  es.filter (fun e => decide (e = .markerFound ∨ e = .markerLost))

/-- The marker signal that came last in a sequence of events (`found` when none
came). -/
def lastMarker (found : Bool) (es : List Event) : Bool :=
  es.foldl (fun b e =>
    match e with
    | .markerFound => true
    | .markerLost => false
    | _ => b) found

/-! ## A sample page -/

/-- A page that has every element the code looks up, with A-Frame and its
`THREE` global, and the scripts `menu.js`, `productOverlay.js` and `ar.js`
loaded (`three-setup.js` is not). -/
def samplePage : Document :=
  { aframe := true, three := true, arScene := true, markerA := true,
    helpModal := some true, loadingScreen := some false, progressBar := some none,
    statusMessage := some { hidden := true, green := false }, statusText := some "",
    productEntity := some
      { text := some "Product",
        box := some
          { color := "#4CC3D9", rotation := "0 45 0", position := "0 0.5 0",
            scale := "0.5 0.5 0.5" } },
    canvas := some false,
    overlay := some
      { hidden := true, hasContent := true, hasDetails := true, image := none,
        extra := none, loadingNodes := 0 },
    productTitle := some "Product Name", productDescription := some "Product description",
    productPrice := some "$0.00",
    menu := some none, menuToggle := some "☰", menuContent := some true,
    productList := some [],
    menuClass := true, overlayClass := true, arControllerClass := true,
    threeSetupClass := false }

/-- The sample page once the scene has loaded and `init` has run to its end. -/
def sampleStarted : World := step (launch samplePage none) .sceneLoaded

/-- The started sample page after the onboarding messages: no timer is pending. -/
def sampleQuiet : World := fireTimers 8 sampleStarted

/-! ## MenuComponent: open, close and the listeners -/

/-- Method `triggerOpenAnimation()` (menu.js 137-145): it writes styles only, but
reads `this.menuContent.style`, which throws when `#menuContent` is missing. -/
def MenuComponent.triggerOpenAnimation (w : World) : Outcome :=
  match w.doc.menuContent with
  | none => .throw w .typeError
  | some _ => .ok w

/-- Method `triggerCloseAnimation()` (menu.js 147-149). -/
def MenuComponent.triggerCloseAnimation (w : World) : Outcome :=
  match w.doc.menuContent with
  | none => .throw w .typeError
  | some _ => .ok w

/-- Method `open()` (menu.js 103-111) of the attached menu. -/
def MenuComponent.open (w : World) : Outcome :=
  match w.app.menu with
  | none => .throw w .typeError
  | some m =>
    let w1 := { w with app := { w.app with menu := some { m with isOpen := true } } }
    (MenuComponent.updateUI w1 true).andThen (fun w2 =>
      (MenuComponent.triggerOpenAnimation w2).andThen MenuComponent.saveState)

/-- Method `close()` (menu.js 113-121) of the attached menu. -/
def MenuComponent.close (w : World) : Outcome :=
  match w.app.menu with
  | none => .throw w .typeError
  | some m =>
    let w1 := { w with app := { w.app with menu := some { m with isOpen := false } } }
    (MenuComponent.updateUI w1 false).andThen (fun w2 =>
      (MenuComponent.triggerCloseAnimation w2).andThen MenuComponent.saveState)

/-- Method `toggle()` (menu.js 95-101) of the attached menu. -/
def MenuComponent.toggle (w : World) : Outcome :=
  match w.app.menu with
  | none => .throw w .typeError
  | some m => if m.isOpen then MenuComponent.close w else MenuComponent.open w

/-- The document `click` listener of the menu (menu.js 29-33); `inside` is
`this.menuElement.contains(e.target)`. -/
def MenuComponent.onDocumentClick (w : World) (inside : Bool) : Outcome :=
  match w.app.menu, w.doc.menu with
  | none, _ => .throw w .typeError
  | some _, none => .throw w .typeError
  | some m, some _ => if !inside && m.isOpen then MenuComponent.close w else .ok w

/-- The document `keydown` listener of the menu (menu.js 36-44): the outcome and
the event after the call. -/
def MenuComponent.onKeydown (w : World) (event : KeyEvent) : Outcome × KeyEvent :=
  match w.app.menu with
  | none => (.throw w .typeError, event)
  | some m =>
    let o1 := if event.key = "Escape" && m.isOpen then MenuComponent.close w else .ok w
    match o1.error with
    | some _ => (o1, event)
    | none =>
      if event.key = "m" && event.ctrlKey then
        (MenuComponent.toggle o1.world, { event with defaultPrevented := true })
      else (o1, event)

/-- Round to the nearest integer, a tie to the even one. -/
def roundHalfEven (x : ℚ) : ℤ :=
  let f := ⌊x⌋
  let r := x - f
  if r < 1 / 2 then f else if 1 / 2 < r then f + 1 else if f % 2 = 0 then f else f + 1

/-- The exponent of the spacing of the doubles around `q ≠ 0`: the doubles with
`2^k ≤ |x| < 2^(k+1)` are the multiples of `2^(k-52)`, and below `2^-1022` they
are the multiples of `2^-1074`. -/
def doubleQuantum (q : ℚ) : ℤ := max (Int.log 2 |q| - 52) (-1074)

/-- The double that an arithmetic operation with the exact result `q` returns:
the nearest one, a tie going to the even significand. The results `Infinity`
and `-Infinity` (when the rounded magnitude reaches `2^1024`) are represented
by `2^1024` and `-2^1024`, which compare with each other and with every finite
double as the infinities do. -/
def roundDouble (q : ℚ) : ℚ :=
  if q = 0 then 0
  else
    let e := doubleQuantum q
    let r : ℚ := (roundHalfEven (q / 2 ^ e) : ℚ) * 2 ^ e
    if 2 ^ 1024 ≤ r then 2 ^ 1024 else if r ≤ -2 ^ 1024 then -2 ^ 1024 else r

/-- The `touchend` listener of `setupTouchGestures` (menu.js 63-77) for a touch
that started at `(startX, startY)` and ended at `(endX, endY)`. The coordinates
are doubles, given by their exact values, and each subtraction returns a
double. -/
def MenuComponent.onTouchEnd (w : World) (startX startY endX endY : ℚ) : Outcome :=
  let deltaY := roundDouble (startY - endY)
  let deltaX := roundDouble (startX - endX)
  if |deltaY| > |deltaX| ∧ |deltaY| > 50 then
    if deltaY > 0 then MenuComponent.close w else MenuComponent.open w
  else .ok w

/-- The stored form of a menu state, as `saveState` writes it:
`JSON.stringify({ isOpen, selectedProductId })`. -/
def serialize (m : MenuComponent) : StoredText :=
  .record (some m.isOpen) m.selectedProductId

/-- The number of list entries that carry the `active` class. -/
def activeCount (w : World) : Nat :=
  match w.doc.productList with
  | none => 0
  | some items => (items.filter (fun it => it.active)).length

/-- The started sample page with the catalog handed to the menu
(`menu.loadProducts(window.productData)`), so that the list is rendered. -/
def sampleListed : World := (MenuComponent.loadProducts sampleQuiet products).world

/-- The listed sample page with the menu open and the entry of product 3
selected: the menu state `{ isOpen: true, selectedProductId: 3 }`. -/
def sampleSelected : World :=
  { sampleListed with app := { sampleListed.app with
      menu := some { isOpen := true, products := products, selectedProductId := .num 3 } } }

/-- Whether the page has the status line: both `#statusMessage` and
`#statusText`, without which `showStatus` displays nothing. -/
def hasStatusLine (w : World) : Bool :=
  w.doc.statusMessage.isSome && w.doc.statusText.isSome

/-- The sample page with `three-setup.js` loaded as well. -/
def samplePageWithThree : Document := { samplePage with threeSetupClass := true }

/-- The sample page with `three-setup.js`, once the scene has loaded and `init`
has run to its end (through its `catch` clause). -/
def sampleFailed : World := step (launch samplePageWithThree none) .sceneLoaded

/-! ## The status snapshot and the query methods -/

/-- The object `getAppStatus()` returns (app.js 565-572). -/
structure AppStatus where
  initialized : Bool
  markerVisible : Bool
  currentProduct : String
  loadingProgress : JSNumber
deriving DecidableEq

/-- The read `v?.name`: `none` is `undefined`, which is what the optional chain
gives for `null` / `undefined` and what a number has for `name`. -/
def Value.optName : Value → Option String
  | .product p => some p.name
  | _ => none

/-- The read `v.description` of a value that is not `null` / `undefined`. -/
def Value.optDescription : Value → Option String
  | .product p => some p.description
  | _ => none

/-- Method `getAppStatus()` (app.js 565-572). -/
def TryzeApp.getAppStatus (w : World) : AppStatus :=
  { initialized := w.app.isInitialized,
    markerVisible := w.app.isMarkerVisible,
    currentProduct := orDefault w.app.currentProduct.optName "None",
    loadingProgress := w.app.loadingProgress }

/-- The three query methods of the controller (app.js 556-572). -/
inductive Query where
  | getCurrentProduct
  | isMarkerCurrentlyVisible
  | getAppStatus
deriving DecidableEq

/-- What a query method returns. -/
inductive Answer where
  | value (v : Value)
  | flag (b : Bool)
  | status (s : AppStatus)
deriving DecidableEq

/-- A call of a query method: the value returned and the state after the call.
None of the three bodies holds an assignment or a call. -/
def TryzeApp.query (w : World) : Query → Answer × World
  | .getCurrentProduct => (.value (TryzeApp.getCurrentProduct w), w)
  | .isMarkerCurrentlyVisible => (.flag (TryzeApp.isMarkerCurrentlyVisible w), w)
  | .getAppStatus => (.status (TryzeApp.getAppStatus w), w)

/-- Whether a value is `null` or `undefined`. -/
def Value.isNullish : Value → Bool
  | .undefined => true
  | .null => true
  | _ => false

/-- The controller's current product, and whether `init` is still suspended. -/
def currentAndPending (w : World) : Value × Bool := (w.app.currentProduct, w.arPending)

/-- What `initializeComponents` reads: which component scripts are loaded, the
`#menu` element, the global `THREE` and the storage slot. -/
def componentInputs (w : World) :
    Bool × Option (Option Bool) × Bool × Bool × Bool × Bool × Option StoredText :=
  (w.doc.menuClass, w.doc.menu, w.doc.overlayClass, w.doc.arControllerClass, w.doc.three,
    w.doc.threeSetupClass, w.storage)

/-! ## ProductOverlay: sharing -/

/-- The object handed to `navigator.share` (productOverlay.js 381-385); a
property is `none` when the value read is `undefined`. -/
structure ShareData where
  title : Option String
  text : Option String
  url : String
deriving DecidableEq

/-- What `shareProduct` reads of the browser. -/
structure Navigator where
  /-- Whether `navigator.share` is defined -/
  share : Bool
  /-- Field `navigator.clipboard`: `none` when it is undefined, else whether the
  promise of `writeText` is fulfilled -/
  clipboard : Option Bool
  /-- The text of `window.location.href` -/
  href : String
deriving DecidableEq

/-- What a call of `shareProduct` has done once its promise callback has run: the
calls of `navigator.share`, the calls of `clipboard.writeText`, the toasts put
on the page with the delay after which each is removed, and the exception
thrown, if any. -/
structure ShareEffects where
  shared : List ShareData
  written : List String
  toasts : List (String × Nat)
  error : Option JSError
deriving DecidableEq

/-- Method `showToast(message)` (productOverlay.js 400-422): the toast and the
delay of the timer that removes it. -/
def ProductOverlay.showToast (message : String) : String × Nat := (message, 3000)

/-- Method `shareProduct()` (productOverlay.js 378-398) of a panel. -/
def ProductOverlay.shareProduct (o : ProductOverlay) (nav : Navigator) : ShareEffects :=
  if !o.currentProduct.truthy then { shared := [], written := [], toasts := [], error := none }
  else
    let shareData : ShareData :=
      { title := o.currentProduct.optName, text := o.currentProduct.optDescription,
        url := nav.href }
    if nav.share then { shared := [shareData], written := [], toasts := [], error := none }
    else
      let shareText := "Check out " ++ o.currentProduct.nameString ++ ": " ++ shareData.url
      match nav.clipboard with
      | none => { shared := [], written := [], toasts := [], error := some .typeError }
      | some fulfilled =>
        { shared := [], written := [shareText],
          toasts := if fulfilled then [ProductOverlay.showToast "Link copied to clipboard!"]
            else [],
          error := none }

/-! ## Star ratings -/

/-- A `span` that `renderStarRating` appends to `starsHTML`: the value of its
`class` or `style` attribute, and the glyph it holds. -/
structure StarSpan where
  attr : String
  glyph : Char
deriving DecidableEq

/-- The remainder `x % 1`, which has the sign of `x`. -/
def remainderOne (x : ℚ) : ℚ :=
  x - (if 0 ≤ x then ((⌊x⌋ : ℤ) : ℚ) else ((⌈x⌉ : ℤ) : ℚ))

/-- The loop `for (let i = 0; i < n; i++) starsHTML += span`. -/
def appendSpans (n : ℤ) (s : StarSpan) : List StarSpan := List.replicate n.toNat s

/-- The span of a full star in the menu (menu.js 206). -/
def MenuComponent.fullStar : StarSpan := { attr := "star full", glyph := '★' }

/-- The span of the half star in the menu (menu.js 210). -/
def MenuComponent.halfStar : StarSpan := { attr := "star half", glyph := '★' }

/-- The span of an empty star in the menu (menu.js 215). -/
def MenuComponent.emptyStar : StarSpan := { attr := "star empty", glyph := '☆' }

/-- Method `MenuComponent.renderStarRating(rating)` (menu.js 200-219): the spans
of `starsHTML` in order; the method returns them inside a `div` of class
`rating-stars`. -/
def MenuComponent.renderStarRating (rating : ℚ) : List StarSpan :=
  let fullStars := ⌊rating⌋
  let hasHalfStar : Bool := decide (remainderOne rating ≠ 0)
  let emptyStars := 5 - ⌈rating⌉
  appendSpans fullStars MenuComponent.fullStar
    ++ (if hasHalfStar then [MenuComponent.halfStar] else [])
    ++ appendSpans emptyStars MenuComponent.emptyStar

/-- The span of a full star in the panel (productOverlay.js 228). -/
def ProductOverlay.fullStar : StarSpan := { attr := "color: #ffc107;", glyph := '★' }

/-- The span that the `hasHalfStar` branch of the panel appends
(productOverlay.js 232): the same text as for a full star. -/
def ProductOverlay.halfStar : StarSpan := { attr := "color: #ffc107;", glyph := '★' }

/-- The span of an empty star in the panel (productOverlay.js 237). -/
def ProductOverlay.emptyStar : StarSpan := { attr := "color: #ccc;", glyph := '☆' }

/-- Method `ProductOverlay.renderStarRating(rating)` (productOverlay.js 222-241):
the spans of `starsHTML` in order; the method returns them followed by a span
with the text `(rating/5)`. -/
def ProductOverlay.renderStarRating (rating : ℚ) : List StarSpan :=
  let fullStars := ⌊rating⌋
  let hasHalfStar : Bool := decide (remainderOne rating ≠ 0)
  let emptyStars := 5 - ⌈rating⌉
  appendSpans fullStars ProductOverlay.fullStar
    ++ (if hasHalfStar then [ProductOverlay.halfStar] else [])
    ++ appendSpans emptyStars ProductOverlay.emptyStar

/-! ## More sample pages -/

/-- The sample page without the `#menu` element. -/
def samplePageWithoutMenu : Document := { samplePage with menu := none }

/-- The sample page without the `#menuToggle` element. -/
def samplePageWithoutToggle : Document := { samplePage with menuToggle := none }

/-- The sample page without any of the other mount points: no `#menuToggle`,
`#menuContent`, `#productList`, `#productOverlay`, no status line, no loading
screen and no progress bar. -/
def samplePageBare : Document :=
  { samplePage with
    menuToggle := none, menuContent := none, productList := none, overlay := none,
    productTitle := none, productDescription := none, productPrice := none,
    statusMessage := none, statusText := none, loadingScreen := none, progressBar := none }

/-- A product whose name is the empty string. -/
def unnamedProduct : Product :=
  { id := 5, name := "", description := "A product without a name", price := 10,
    category := "Decoration", material := "Glass", dimensions := "10 x 10 x 10 cm",
    rating := 4, model := "assets/unnamed.gltf", thumbnail := "unnamed.png" }

/-- The sample page without `menu.js`. -/
def samplePageWithoutMenuScript : Document := { samplePage with menuClass := false }

/-- The page without `menu.js` once started, after the call
`tryzeApp.selectProduct(unnamedProduct)`. -/
def sampleUnnamed : World :=
  step (step (launch samplePageWithoutMenuScript none) .sceneLoaded)
    (.select (.product unnamedProduct))

/-- A burst of `k` `orientationchange` events with no timer firing in between. -/
def orientationBurst (k : Nat) : List Event := List.replicate k .orientationChange

/-- The started sample page as it would be with a scene renderer attached
(`this.threeSetup` set). -/
def sampleWithRenderer : World :=
  { sampleQuiet with app := { sampleQuiet.app with threeSetup := true } }

/-! ## What each method leaves unchanged -/

@[simp] theorem Outcome.ok_world (w : World) : (Outcome.ok w).world = w := rfl
@[simp] theorem Outcome.ok_error (w : World) : (Outcome.ok w).error = none := rfl
@[simp] theorem Outcome.throw_world (w : World) (e : JSError) : (Outcome.throw w e).world = w := rfl
@[simp] theorem Outcome.throw_error (w : World) (e : JSError) :
    (Outcome.throw w e).error = some e := rfl

theorem Outcome.andThen_ok {o : Outcome} (h : o.error = none) (f : World → Outcome) :
    o.andThen f = f o.world := by
  unfold Outcome.andThen; rw [h]

theorem Outcome.andThen_err {o : Outcome} {e : JSError} (h : o.error = some e)
    (f : World → Outcome) : o.andThen f = o := by
  unfold Outcome.andThen; rw [h]

/-- A projection of the state that `f` keeps is kept by `o.andThen f`. -/
theorem Outcome.andThen_keeps {α : Type} (π : World → α) (o : Outcome) (f : World → Outcome)
    (hf : ∀ w, π (f w).world = π w) : π (o.andThen f).world = π o.world := by
  unfold Outcome.andThen
  split
  · exact hf _
  · rfl

/-- An error of the first part is the error of `o.andThen f`. -/
theorem Outcome.andThen_error_of_error {o : Outcome} (f : World → Outcome)
    (h : o.error ≠ none) : (o.andThen f).error ≠ none := by
  unfold Outcome.andThen
  split
  · contradiction
  · exact h

@[simp] theorem setTimeout_frame (w : World) (cb : Callback) (d : Nat) :
    (setTimeout w cb d).app = w.app ∧ (setTimeout w cb d).registered = w.registered
    ∧ (setTimeout w cb d).doc = w.doc ∧ (setTimeout w cb d).now = w.now :=
  ⟨rfl, rfl, rfl, rfl⟩

@[simp] theorem showStatus_frame (w : World) (m : String) (d : Nat) :
    (TryzeApp.showStatus w m d).app = w.app
    ∧ (TryzeApp.showStatus w m d).registered = w.registered := by
  unfold TryzeApp.showStatus; repeat' split
  all_goals exact ⟨rfl, rfl⟩

@[simp] theorem showLoadingScreen_frame (w : World) :
    (TryzeApp.showLoadingScreen w).app = w.app
    ∧ (TryzeApp.showLoadingScreen w).registered = w.registered := by
  unfold TryzeApp.showLoadingScreen; repeat' split
  all_goals exact ⟨rfl, rfl⟩

@[simp] theorem hideLoadingScreen_frame (w : World) :
    (TryzeApp.hideLoadingScreen w).app = w.app
    ∧ (TryzeApp.hideLoadingScreen w).registered = w.registered := by
  unfold TryzeApp.hideLoadingScreen; repeat' split
  all_goals exact ⟨rfl, rfl⟩

@[simp] theorem showInitialInstructions_frame (w : World) :
    (TryzeApp.showInitialInstructions w).app = w.app
    ∧ (TryzeApp.showInitialInstructions w).registered = w.registered :=
  ⟨rfl, rfl⟩

@[simp] theorem handleResize_frame (w : World) :
    (TryzeApp.handleResize w).app = w.app
    ∧ (TryzeApp.handleResize w).registered = w.registered := by
  unfold TryzeApp.handleResize; repeat' split
  all_goals exact ⟨rfl, rfl⟩

@[simp] theorem addMarkerFoundEffects_frame (w : World) :
    (TryzeApp.addMarkerFoundEffects w).app = w.app
    ∧ (TryzeApp.addMarkerFoundEffects w).registered = w.registered := by
  unfold TryzeApp.addMarkerFoundEffects; repeat' split
  all_goals exact ⟨rfl, rfl⟩

@[simp] theorem reportError_frame (w : World) :
    (reportError w).app = w.app ∧ (reportError w).registered = w.registered := by
  unfold reportError; split <;> simp

@[simp] theorem updateARScene_frame (w : World) (v : Value) :
    (TryzeApp.updateARScene w v).world.app = w.app
    ∧ (TryzeApp.updateARScene w v).world.registered = w.registered := by
  unfold TryzeApp.updateARScene; repeat' split
  all_goals exact ⟨rfl, rfl⟩

@[simp] theorem animateTextUpdate_frame (w : World) (t : TextTarget) (b : Bool) (s : String) :
    (ProductOverlay.animateTextUpdate w t b s).app = w.app
    ∧ (ProductOverlay.animateTextUpdate w t b s).registered = w.registered := by
  unfold ProductOverlay.animateTextUpdate; repeat' split
  all_goals exact ⟨rfl, rfl⟩

@[simp] theorem updateProductImage_frame (w : World) (v : Value) :
    (ProductOverlay.updateProductImage w v).world.app = w.app
    ∧ (ProductOverlay.updateProductImage w v).world.registered = w.registered := by
  unfold ProductOverlay.updateProductImage; repeat' split
  all_goals exact ⟨rfl, rfl⟩

@[simp] theorem addProductDetails_frame (w : World) (v : Value) :
    (ProductOverlay.addProductDetails w v).world.app = w.app
    ∧ (ProductOverlay.addProductDetails w v).world.registered = w.registered := by
  unfold ProductOverlay.addProductDetails; repeat' split
  all_goals exact ⟨rfl, rfl⟩

@[simp] theorem showLoadingState_frame (w : World) :
    (ProductOverlay.showLoadingState w).world.app = w.app
    ∧ (ProductOverlay.showLoadingState w).world.registered = w.registered := by
  unfold ProductOverlay.showLoadingState; repeat' split
  all_goals exact ⟨rfl, rfl⟩

@[simp] theorem hideLoadingState_frame (w : World) :
    (ProductOverlay.hideLoadingState w).world.app = w.app
    ∧ (ProductOverlay.hideLoadingState w).world.registered = w.registered := by
  unfold ProductOverlay.hideLoadingState; repeat' split
  all_goals exact ⟨rfl, rfl⟩

@[simp] theorem loadProductDetails_frame (w : World) :
    (ProductOverlay.loadProductDetails w).world.app = w.app
    ∧ (ProductOverlay.loadProductDetails w).world.registered = w.registered := by
  unfold ProductOverlay.loadProductDetails
  constructor
  · rw [Outcome.andThen_keeps (fun w => w.app) _ _ (by simp)]; simp
  · rw [Outcome.andThen_keeps (fun w => w.registered) _ _ (by simp)]; simp

@[simp] theorem renderProductInfo_frame (w : World) :
    (ProductOverlay.renderProductInfo w).world.app = w.app
    ∧ (ProductOverlay.renderProductInfo w).world.registered = w.registered := by
  unfold ProductOverlay.renderProductInfo
  split
  · exact ⟨rfl, rfl⟩
  · split
    · exact ⟨rfl, rfl⟩
    · constructor
      · rw [Outcome.andThen_keeps (fun w => w.app) _ _ (by simp)]; simp
      · rw [Outcome.andThen_keeps (fun w => w.registered) _ _ (by simp)]; simp


theorem SameSetup.refl (w : World) : SameSetup w w := ⟨rfl, rfl, rfl, rfl, rfl, rfl, rfl⟩

theorem SameSetup.trans {a b c : World} (h1 : SameSetup a b) (h2 : SameSetup b c) :
    SameSetup a c := by
  obtain ⟨a1, a2, a3, a4, a5, a6, a7⟩ := h1
  obtain ⟨b1, b2, b3, b4, b5, b6, b7⟩ := h2
  exact ⟨b1.trans a1, b2.trans a2, b3.trans a3, b4.trans a4, b5.trans a5, b6.trans a6,
    b7.trans a7⟩

/-- A step that keeps the controller record, the registration and the promise
state keeps the setup. -/
theorem SameSetup.of_app {w w2 : World} (h1 : w2.app = w.app) (h2 : w2.registered = w.registered)
    (h3 : w2.arPending = w.arPending) : SameSetup w w2 := by
  unfold SameSetup; rw [h1, h2, h3]; simp

theorem SameSetup.andThen {w : World} {o : Outcome} {f : World → Outcome}
    (h : SameSetup w o.world) (hf : ∀ x, SameSetup x (f x).world) :
    SameSetup w (o.andThen f).world := by
  unfold Outcome.andThen
  split
  · exact h.trans (hf _)
  · exact h

theorem showStatus_setup (w : World) (m : String) (d : Nat) :
    SameSetup w (TryzeApp.showStatus w m d) := by
  unfold TryzeApp.showStatus; repeat' split
  all_goals exact SameSetup.refl _

theorem updateARScene_setup (w : World) (v : Value) :
    SameSetup w (TryzeApp.updateARScene w v).world := by
  unfold TryzeApp.updateARScene; repeat' split
  all_goals exact SameSetup.refl _

theorem updateProductImage_setup (w : World) (v : Value) :
    SameSetup w (ProductOverlay.updateProductImage w v).world := by
  unfold ProductOverlay.updateProductImage; repeat' split
  all_goals exact SameSetup.refl _

theorem addProductDetails_setup (w : World) (v : Value) :
    SameSetup w (ProductOverlay.addProductDetails w v).world := by
  unfold ProductOverlay.addProductDetails; repeat' split
  all_goals exact SameSetup.refl _

theorem renderProductInfo_setup (w : World) :
    SameSetup w (ProductOverlay.renderProductInfo w).world := by
  unfold ProductOverlay.renderProductInfo
  split
  · exact SameSetup.refl _
  · split
    · exact SameSetup.refl _
    · refine SameSetup.andThen ((SameSetup.trans ?_ (updateProductImage_setup _ _)))
        (fun x => addProductDetails_setup x _)
      unfold ProductOverlay.animateTextUpdate; repeat' split
      all_goals exact SameSetup.refl _

theorem loadProductDetails_setup (w : World) :
    SameSetup w (ProductOverlay.loadProductDetails w).world := by
  unfold ProductOverlay.loadProductDetails
  refine SameSetup.andThen ?_ (fun x => SameSetup.refl _)
  unfold ProductOverlay.showLoadingState; repeat' split
  all_goals exact SameSetup.refl _

theorem updateProduct_setup (w : World) (v : Value) :
    SameSetup w (ProductOverlay.updateProduct w v).world := by
  unfold ProductOverlay.updateProduct
  split
  · exact SameSetup.refl _
  · rename_i o ho
    refine SameSetup.andThen (SameSetup.trans ?_ (renderProductInfo_setup _))
      loadProductDetails_setup
    unfold SameSetup; simp [ho]

theorem show_setup (w : World) : SameSetup w (ProductOverlay.show w).world := by
  unfold ProductOverlay.show
  split
  · exact SameSetup.refl _
  · rename_i o ho
    dsimp only
    split <;> (unfold SameSetup; simp [ho])

theorem hide_setup (w : World) : SameSetup w (ProductOverlay.hide w).world := by
  unfold ProductOverlay.hide
  split
  · exact SameSetup.refl _
  · rename_i o ho
    dsimp only
    split <;> (unfold SameSetup; simp [ho, setTimeout])

theorem updateSelectedProduct_setup (w : World) (v : Value) :
    SameSetup w (MenuComponent.updateSelectedProduct w v).world := by
  unfold MenuComponent.updateSelectedProduct; repeat' split
  all_goals exact SameSetup.refl _

/-- Neither `selectProduct` method changes the setup. -/
theorem selectProductFuel_setup (fuel : Nat) :
    (∀ w v o, TryzeApp.selectProductFuel fuel w v = some o → SameSetup w o.world)
    ∧ (∀ w v o, MenuComponent.selectProductFuel fuel w v = some o → SameSetup w o.world) := by
  induction fuel with
  | zero =>
    constructor <;> intro w v o h
    · simp [TryzeApp.selectProductFuel] at h
    · simp [MenuComponent.selectProductFuel] at h
  | succ n ih =>
    obtain ⟨ihA, ihM⟩ := ih
    constructor
    · intro w v o h
      have key : ∀ (x : Value), x.getId.isSome →
          (let w1 : World := { w with app := { w.app with currentProduct := x } }
           let o3 := (TryzeApp.updateARScene w1 x).andThen (fun w2 =>
             if w2.app.productOverlay.isSome then ProductOverlay.updateProduct w2 x else .ok w2)
           (match o3.error with
            | some _ => some o3
            | none =>
              match (if o3.world.app.menu.isSome then
                  MenuComponent.selectProductFuel n o3.world ((x.getId).getD .undefined)
                else some (.ok o3.world)) with
              | none => none
              | some o4 => some (o4.andThen (fun w4 =>
                  .ok (TryzeApp.showStatus w4 ("Loaded: " ++ x.nameString) 2000)))) = some o) →
          SameSetup w o.world := by
        intro x _ hx
        dsimp only at hx
        have h3 : SameSetup w ((TryzeApp.updateARScene
            { w with app := { w.app with currentProduct := x } } x).andThen (fun w2 =>
             if w2.app.productOverlay.isSome then ProductOverlay.updateProduct w2 x
             else .ok w2)).world := by
          refine SameSetup.andThen (SameSetup.trans ?_ (updateARScene_setup _ _)) ?_
          · exact ⟨rfl, rfl, rfl, rfl, rfl, rfl, rfl⟩
          · intro y; split
            · exact updateProduct_setup _ _
            · exact SameSetup.refl _
        split at hx
        · cases hx; exact h3
        · split at hx
          · cases hx
          · rename_i o4 h4
            cases hx
            refine SameSetup.andThen ?_ (fun y => showStatus_setup _ _ _)
            split at h4
            · exact h3.trans (ihM _ _ _ h4)
            · cases h4; exact h3
      cases v with
      | undefined => simp only [TryzeApp.selectProductFuel] at h; cases h; exact SameSetup.refl _
      | null => simp only [TryzeApp.selectProductFuel] at h; cases h; exact SameSetup.refl _
      | num k => exact key (.num k) rfl (by simpa only [TryzeApp.selectProductFuel] using h)
      | product p => exact key (.product p) rfl (by simpa only [TryzeApp.selectProductFuel] using h)
    · intro w v o h
      rw [MenuComponent.selectProductFuel] at h
      split at h
      · cases h; exact SameSetup.refl _
      · cases h; exact SameSetup.refl _
      · rename_i m id hm hid
        have h2 : SameSetup w (MenuComponent.updateSelectedProduct
            { w with app := { w.app with menu := some { m with selectedProductId := id } } }
            id).world := by
          refine SameSetup.trans ?_ (updateSelectedProduct_setup _ _)
          unfold SameSetup; simp [hm]
        dsimp only at h
        split at h
        · cases h; exact h2
        · split at h
          · exact h2.trans (ihA _ _ _ h)
          · cases h; exact h2

/-! ## Loading progress (C1, C2) -/

@[simp] theorem updateLoadingProgress_progress (w : World) (x : JSNumber) :
    (TryzeApp.updateLoadingProgress w x).app.loadingProgress
      = JSNumber.max w.app.loadingProgress x := by
  unfold TryzeApp.updateLoadingProgress
  dsimp only
  split <;> rfl

theorem updateAll_progress (ps : List JSNumber) (w : World) :
    (updateAll w ps).app.loadingProgress = ps.foldl JSNumber.max w.app.loadingProgress := by
  induction ps generalizing w with
  | nil => rfl
  | cons p ps ih =>
    show (updateAll (TryzeApp.updateLoadingProgress w p) ps).app.loadingProgress = _
    rw [ih, updateLoadingProgress_progress]; rfl

theorem foldl_max_ofInt (ps : List ℤ) (v : ℚ) :
    (ps.map JSNumber.ofInt).foldl JSNumber.max (.fin v) = .fin (maxOf v ps) := by
  induction ps generalizing v with
  | nil => rfl
  | cons p ps ih =>
    simp only [List.map_cons, List.foldl_cons, JSNumber.max, JSNumber.ofInt]
    exact ih _

/-- The fold `maxOf v ps` is the maximum of `v` and the entries of `ps`: an upper
bound that is attained. -/
theorem maxOf_spec (ps : List ℤ) (v : ℚ) :
    v ≤ maxOf v ps ∧ (∀ p ∈ ps, (p : ℚ) ≤ maxOf v ps)
    ∧ (maxOf v ps = v ∨ ∃ p ∈ ps, maxOf v ps = (p : ℚ)) := by
  induction ps generalizing v with
  | nil => simp [maxOf]
  | cons p ps ih =>
    obtain ⟨h1, h2, h3⟩ := ih (max v (p : ℚ))
    have e : maxOf v (p :: ps) = maxOf (max v (p : ℚ)) ps := rfl
    rw [e]
    refine ⟨le_trans (le_max_left _ _) h1, ?_, ?_⟩
    · intro q hq
      rcases List.mem_cons.mp hq with rfl | hq
      · exact le_trans (le_max_right _ _) h1
      · exact h2 q hq
    · rcases h3 with h | ⟨q, hq, h⟩
      · rcases max_choice v (p : ℚ) with hm | hm
        · left; rw [h, hm]
        · right; exact ⟨p, List.mem_cons_self _ _, by rw [h, hm]⟩
      · right; exact ⟨q, List.mem_cons_of_mem _ hq, h⟩

theorem onProgress_progress (w : World) (loaded total : Nat) :
    (ThreeSetup.onProgress w loaded total).app.loadingProgress
      = if w.registered then
          JSNumber.max w.app.loadingProgress ((JSNumber.divNat loaded total).scale 100)
        else w.app.loadingProgress := by
  unfold ThreeSetup.onProgress
  dsimp only
  split <;> simp

theorem IsPercent.max {a b : JSNumber} (ha : IsPercent a) (hb : IsPercent b) :
    IsPercent (JSNumber.max a b) := by
  obtain ⟨i, rfl, hi0, hi1⟩ := ha
  obtain ⟨j, rfl, hj0, hj1⟩ := hb
  refine ⟨Max.max i j, ?_, le_trans hi0 (le_max_left _ _), max_le hi1 hj1⟩
  simp [JSNumber.ofInt, JSNumber.max, Int.cast_max]

theorem max_hundred {b : JSNumber} (hb : IsPercent b) :
    JSNumber.max (JSNumber.ofInt 100) b = JSNumber.ofInt 100 := by
  obtain ⟨j, rfl, _, hj1⟩ := hb
  have : ((j : ℤ) : ℚ) ≤ 100 := by exact_mod_cast hj1
  simp [JSNumber.ofInt, JSNumber.max, this]

theorem not_isPercent_inf : ¬ IsPercent JSNumber.inf := by
  rintro ⟨k, h, _⟩
  simp [JSNumber.ofInt] at h

/-- C1: from every initial progress value `x`, a sequence of
`updateLoadingProgress` calls leaves `Math.max` folded over the arguments; for a
finite initial value `v` and integer arguments `ps` that is the maximum
`maxOf v ps` of `v` and the arguments (an upper bound of all of them that is one
of them), it never decreases when more calls follow, and from a fresh
controller two non-negative arguments give `max p1 p2` in either order. -/
theorem C1_loading_progress_is_running_max (w : World) (x : JSNumber) (xs : List JSNumber)
    (v : ℚ) (ps : List ℤ) (p1 p2 : ℤ) (h1 : 0 ≤ p1) (h2 : 0 ≤ p2) :
    (updateAll { w with app := { w.app with loadingProgress := x } } xs).app.loadingProgress
        = xs.foldl JSNumber.max x
    ∧ (updateAll { w with app := { w.app with loadingProgress := .fin v } }
        (ps.map JSNumber.ofInt)).app.loadingProgress = .fin (maxOf v ps)
    ∧ v ≤ maxOf v ps ∧ (∀ p ∈ ps, (p : ℚ) ≤ maxOf v ps)
    ∧ (maxOf v ps = v ∨ ∃ p ∈ ps, maxOf v ps = (p : ℚ))
    ∧ (∀ qs : List ℤ, maxOf v ps ≤ maxOf v (ps ++ qs))
    ∧ (updateAll { w with app := TryzeApp.fresh } [.ofInt p1, .ofInt p2]).app.loadingProgress
        = .fin (max (p1 : ℚ) (p2 : ℚ))
    ∧ (updateAll { w with app := TryzeApp.fresh } [.ofInt p2, .ofInt p1]).app.loadingProgress
        = .fin (max (p1 : ℚ) (p2 : ℚ)) := by
  have hp1 : (0 : ℚ) ≤ (p1 : ℚ) := by exact_mod_cast h1
  have hp2 : (0 : ℚ) ≤ (p2 : ℚ) := by exact_mod_cast h2
  obtain ⟨a, b, c⟩ := maxOf_spec ps v
  refine ⟨?_, ?_, a, b, c, ?_, ?_, ?_⟩
  · rw [updateAll_progress]
  · rw [updateAll_progress]; exact foldl_max_ofInt ps v
  · intro qs
    have e : maxOf v (ps ++ qs) = maxOf (maxOf v ps) qs := by
      simp [maxOf, List.foldl_append]
    rw [e]; exact (maxOf_spec qs _).1
  · rw [updateAll_progress]
    simp [TryzeApp.fresh, JSNumber.max, JSNumber.ofInt, hp1]
  · rw [updateAll_progress]
    simp [TryzeApp.fresh, JSNumber.max, JSNumber.ofInt, hp2, max_comm]

/-- C1 at a concrete input: on a fresh controller, `update(70); update(30)`
leaves `max 30 70`. -/
theorem C1_loading_progress_witness :
    (0 : ℤ) ≤ 30 ∧ (0 : ℤ) ≤ 70 ∧
    (updateAll { sampleStarted with app := TryzeApp.fresh }
      [.ofInt 70, .ofInt 30]).app.loadingProgress = .fin (max ((30 : ℤ) : ℚ) ((70 : ℤ) : ℚ)) :=
  ⟨by decide, by decide,
    (C1_loading_progress_is_running_max sampleStarted .nan [] 0 [] 30 70
      (by decide) (by decide)).2.2.2.2.2.2.2⟩

/-- C2 fails as stated: after a startup that left the progress at 100, a
model-load progress event with `total = 0` (length not computable) forwards
`Infinity`, and one with `loaded = 3`, `total = 2` forwards 150; neither result
is an integer in `0..100`. -/
theorem C2_forwarded_progress_leaves_range :
    sampleStarted.app.loadingProgress = JSNumber.ofInt 100
    ∧ (ThreeSetup.onProgress sampleStarted 1 0).app.loadingProgress = JSNumber.inf
    ∧ ¬ IsPercent (ThreeSetup.onProgress sampleStarted 1 0).app.loadingProgress
    ∧ (ThreeSetup.onProgress sampleStarted 3 2).app.loadingProgress = JSNumber.fin 150 := by
  have h100 : sampleStarted.app.loadingProgress = JSNumber.ofInt 100 := by decide
  have hinf : (ThreeSetup.onProgress sampleStarted 1 0).app.loadingProgress = JSNumber.inf := by
    decide
  refine ⟨h100, hinf, ?_, ?_⟩
  · rw [hinf]; exact not_isPercent_inf
  · have hr : sampleStarted.registered = true := by decide
    rw [onProgress_progress, hr, h100]
    norm_num [JSNumber.divNat, JSNumber.scale, JSNumber.max, JSNumber.ofInt]

/-- C2 as amended: when the progress is an integer in `0..100` (as on a fresh
controller) and every argument of the `updateLoadingProgress` calls is one (as
all those of the startup sequence are), the progress stays an integer in
`0..100`, and once it is 100 it stays 100; the same holds for a forwarded
model-load progress with `0 < total` and `loaded ≤ total`. -/
theorem C2_percent_arguments_keep_the_range (w : World) (ps : List JSNumber)
    (hw : IsPercent w.app.loadingProgress) (hps : ∀ p ∈ ps, IsPercent p) :
    IsPercent (updateAll w ps).app.loadingProgress
    ∧ (w.app.loadingProgress = JSNumber.ofInt 100 →
        (updateAll w ps).app.loadingProgress = JSNumber.ofInt 100)
    ∧ IsPercent TryzeApp.fresh.loadingProgress
    ∧ (∀ loaded total : Nat, 0 < total → loaded ≤ total →
        w.app.loadingProgress = JSNumber.ofInt 100 →
        (ThreeSetup.onProgress w loaded total).app.loadingProgress = JSNumber.ofInt 100) := by
  refine ⟨?_, ?_, ⟨0, by simp [TryzeApp.fresh, JSNumber.ofInt], le_refl _, by decide⟩, ?_⟩
  · rw [updateAll_progress]
    induction ps generalizing w with
    | nil => exact hw
    | cons p ps ih =>
      have hp := hps p (List.mem_cons_self _ _)
      have := ih (TryzeApp.updateLoadingProgress w p)
        (by rw [updateLoadingProgress_progress]; exact hw.max hp)
        (fun q hq => hps q (List.mem_cons_of_mem _ hq))
      simpa using this
  · intro h
    rw [updateAll_progress, h]
    clear hw h
    induction ps with
    | nil => rfl
    | cons p ps ih =>
      rw [List.foldl_cons, max_hundred (hps p (List.mem_cons_self _ _))]
      exact ih (fun q hq => hps q (List.mem_cons_of_mem _ hq))
  · intro loaded total ht hl h
    rw [onProgress_progress, h]
    have ht0 : total ≠ 0 := Nat.pos_iff_ne_zero.mp ht
    have hq : (loaded : ℚ) / (total : ℚ) * 100 ≤ 100 := by
      have hpos : (0 : ℚ) < (total : ℚ) := by exact_mod_cast ht
      have hle : (loaded : ℚ) ≤ (total : ℚ) := by exact_mod_cast hl
      have : (loaded : ℚ) / (total : ℚ) ≤ 1 := (div_le_one hpos).mpr hle
      linarith
    split <;> simp [JSNumber.divNat, ht0, JSNumber.scale, JSNumber.max, JSNumber.ofInt, hq]

/-- C2 as amended, at a concrete input: after startup (progress 100), the calls
`update(30); update(100)` leave 100. -/
theorem C2_percent_arguments_witness :
    IsPercent sampleStarted.app.loadingProgress
    ∧ (∀ p ∈ [JSNumber.ofInt 30, JSNumber.ofInt 100], IsPercent p)
    ∧ (updateAll sampleStarted [JSNumber.ofInt 30, JSNumber.ofInt 100]).app.loadingProgress
        = JSNumber.ofInt 100 := by
  have hw : IsPercent sampleStarted.app.loadingProgress :=
    ⟨100, by decide, by decide, by decide⟩
  have hps : ∀ p ∈ [JSNumber.ofInt 30, JSNumber.ofInt 100], IsPercent p := by
    intro p hp
    simp only [List.mem_cons, List.mem_singleton, List.not_mem_nil, or_false] at hp
    rcases hp with rfl | rfl
    · exact ⟨30, rfl, by decide, by decide⟩
    · exact ⟨100, rfl, by decide, by decide⟩
  exact ⟨hw, hps, (C2_percent_arguments_keep_the_range sampleStarted _ hw hps).2.1 (by decide)⟩

/-! ## Selection (C3) -/

/-- What one call of `TryzeApp.selectProduct` does with a value that is not
`null` / `undefined`, given the function `next` for the nested menu call. -/
theorem selectProductFuel_succ (n : Nat) (w : World) (x : Value) (hx : x.getId.isSome) :
    TryzeApp.selectProductFuel (n + 1) w x =
      (let w1 : World := { w with app := { w.app with currentProduct := x } }
       let o3 := (TryzeApp.updateARScene w1 x).andThen (fun w2 =>
         if w2.app.productOverlay.isSome then ProductOverlay.updateProduct w2 x else .ok w2)
       match o3.error with
       | some _ => some o3
       | none =>
         match (if o3.world.app.menu.isSome then
             MenuComponent.selectProductFuel n o3.world ((x.getId).getD .undefined)
           else some (.ok o3.world)) with
         | none => none
         | some o4 => some (o4.andThen (fun w4 =>
             .ok (TryzeApp.showStatus w4 ("Loaded: " ++ x.nameString) 2000)))) := by
  cases x with
  | undefined => simp [Value.getId] at hx
  | null => simp [Value.getId] at hx
  | num k => rfl
  | product p => rfl

/-- The state in which the nested menu call of `TryzeApp.selectProduct` starts. -/
theorem select_prefix_setup (w : World) (x : Value) :
    SameSetup w ((TryzeApp.updateARScene
        { w with app := { w.app with currentProduct := x } } x).andThen (fun w2 =>
         if w2.app.productOverlay.isSome then ProductOverlay.updateProduct w2 x
         else .ok w2)).world := by
  refine SameSetup.andThen (SameSetup.trans ?_ (updateARScene_setup _ _)) ?_
  · exact ⟨rfl, rfl, rfl, rfl, rfl, rfl, rfl⟩
  · intro y; split
    · exact updateProduct_setup _ _
    · exact SameSetup.refl _

/-- With a menu attached, `TryzeApp.selectProduct(n)` for a number `n` never
returns normally: the nested `MenuComponent.selectProduct(undefined)` throws. -/
theorem selectProductFuel_num_throws (fuel : Nat) (w : World) (k : Int) (o : Outcome)
    (hm : w.app.menu.isSome) (h : TryzeApp.selectProductFuel fuel w (.num k) = some o) :
    o.error ≠ none := by
  cases fuel with
  | zero => simp [TryzeApp.selectProductFuel] at h
  | succ n =>
    rw [selectProductFuel_succ n w (.num k) rfl] at h
    have h3 := select_prefix_setup w (.num k)
    dsimp only at h
    split at h
    · rename_i e he
      cases h; rw [he]; simp
    · have hm3 := h3.2.2.2.2.2.1
      rw [hm] at hm3
      rw [hm3] at h
      simp only [if_true] at h
      cases n with
      | zero => simp [MenuComponent.selectProductFuel] at h
      | succ m =>
        rw [MenuComponent.selectProductFuel] at h
        simp only [Value.getId, Option.getD] at h
        split at h
        · cases h
        · rename_i o4 h4
          cases h
          apply Outcome.andThen_error_of_error
          split at h4
          · cases h4; simp
          · cases h4; simp
          · rename_i m2 id hm2 hid
            simp at hid


@[simp] theorem updateSelectedProduct_frame (w : World) (v : Value) :
    (MenuComponent.updateSelectedProduct w v).world.app = w.app
    ∧ (MenuComponent.updateSelectedProduct w v).world.registered = w.registered := by
  unfold MenuComponent.updateSelectedProduct; repeat' split
  all_goals exact ⟨rfl, rfl⟩

/-- Method `updateProduct` changes nothing of the controller but the overlay's
`currentProduct`. -/
theorem updateProduct_app (w : World) (v : Value) :
    (ProductOverlay.updateProduct w v).world.app =
      match w.app.productOverlay with
      | none => w.app
      | some o => { w.app with productOverlay := some { o with currentProduct := v } } := by
  unfold ProductOverlay.updateProduct
  split
  · rename_i h; simp [h]
  · rename_i h
    rw [Outcome.andThen_keeps (fun w => w.app) _ _ (by simp)]; simp [h]

/-- The controller's selection where the nested menu call of
`TryzeApp.selectProduct` starts. -/
theorem select_prefix_selection (w : World) (x : Value) :
    ((TryzeApp.updateARScene
        { w with app := { w.app with currentProduct := x } } x).andThen (fun w2 =>
         if w2.app.productOverlay.isSome then ProductOverlay.updateProduct w2 x
         else .ok w2)).world.app.currentProduct = x
    ∧ ((TryzeApp.updateARScene
        { w with app := { w.app with currentProduct := x } } x).andThen (fun w2 =>
         if w2.app.productOverlay.isSome then ProductOverlay.updateProduct w2 x
         else .ok w2)).world.app.menu = w.app.menu := by
  have key : ∀ y : World, ((if y.app.productOverlay.isSome then ProductOverlay.updateProduct y x
      else Outcome.ok y).world.app.currentProduct, (if y.app.productOverlay.isSome then
        ProductOverlay.updateProduct y x else Outcome.ok y).world.app.menu)
      = (y.app.currentProduct, y.app.menu) := by
    intro y
    split
    · rw [updateProduct_app]; split <;> rfl
    · rfl
  have := Outcome.andThen_keeps (fun w => (w.app.currentProduct, w.app.menu))
    (TryzeApp.updateARScene { w with app := { w.app with currentProduct := x } } x) _ key
  simp only [updateARScene_frame, Prod.mk.injEq] at this
  exact this

/-- When `TryzeApp.selectProduct(p)` returns normally for a product `p`, the
current product is `p`; and if a menu is attached, then `window.tryzeApp` is
unset and the menu's `selectedProductId` is `undefined`. -/
theorem selectProductFuel_product_ok (fuel : Nat) (w : World) (p : Product) (o : Outcome)
    (h : TryzeApp.selectProductFuel fuel w (.product p) = some o) (hok : o.error = none) :
    o.world.app.currentProduct = .product p
    ∧ (w.app.menu.isSome → w.registered = false
        ∧ ∃ m, o.world.app.menu = some m ∧ m.selectedProductId = .undefined) := by
  cases fuel with
  | zero => simp [TryzeApp.selectProductFuel] at h
  | succ n =>
    rw [selectProductFuel_succ n w (.product p) rfl] at h
    have h3 := select_prefix_setup w (.product p)
    obtain ⟨hc3, hm3⟩ := select_prefix_selection w (.product p)
    dsimp only at h
    split at h
    · rename_i e he
      cases h; rw [he] at hok; cases hok
    · split at h
      · cases h
      · rename_i o4 h4
        cases h
        have ho4 : o4.error = none := by
          by_contra hne
          exact Outcome.andThen_error_of_error _ hne hok
        rw [Outcome.andThen_ok ho4]
        simp only [Outcome.ok_world, showStatus_frame]
        split at h4
        · rename_i hmenu
          rw [hm3] at hmenu
          cases n with
          | zero => simp [MenuComponent.selectProductFuel] at h4
          | succ k =>
            rw [MenuComponent.selectProductFuel] at h4
            simp only [Value.getId, Option.getD] at h4
            split at h4
            · cases h4; simp at ho4
            · cases h4; simp at ho4
            · rename_i m0 id hm0 hid
              cases hid
              split at h4
              · rename_i e he
                cases h4; rw [he] at ho4; cases ho4
              · split at h4
                · exfalso
                  refine selectProductFuel_num_throws _ _ _ _ ?_ h4 ho4
                  simp
                · rename_i hreg
                  cases h4
                  simp only [updateSelectedProduct_frame] at hreg ⊢
                  refine ⟨hc3, fun _ => ⟨?_, _, rfl, rfl⟩⟩
                  have := h3.2.2.2.1
                  rw [← this]; simpa using hreg
        · rename_i hmenu
          cases h4
          rw [hm3] at hmenu
          exact ⟨hc3, fun hm => absurd hm hmenu⟩

/-- Calling `MenuComponent.selectProduct(undefined)` throws, whatever the state. -/
theorem menuSelect_undefined (n : Nat) (w : World) :
    MenuComponent.selectProductFuel (n + 1) w .undefined = some (.throw w .typeError) := by
  rw [MenuComponent.selectProductFuel]
  split
  · rfl
  · rfl
  · rename_i hid; simp [Value.getId] at hid

/-- Fuel 2 is enough for `TryzeApp.selectProduct` on a number. -/
theorem appSelect_num_total (n : Nat) (w : World) (k : Int) :
    (TryzeApp.selectProductFuel (n + 2) w (.num k)).isSome := by
  rw [selectProductFuel_succ (n + 1) w (.num k) rfl]
  dsimp only
  split
  · rfl
  · split
    · rename_i heq
      simp only [Value.getId, Option.getD, menuSelect_undefined] at heq
      split at heq <;> cases heq
    · rfl

/-- Fuel 3 is enough for `MenuComponent.selectProduct` on a number. -/
theorem menuSelect_num_total (n : Nat) (w : World) (k : Int) :
    (MenuComponent.selectProductFuel (n + 3) w (.num k)).isSome := by
  rw [MenuComponent.selectProductFuel]
  split
  · rfl
  · rfl
  · dsimp only
    split
    · rfl
    · split
      · exact appSelect_num_total n _ k
      · rfl

/-- Fuel 4 is enough for `TryzeApp.selectProduct`, whatever the value. -/
theorem appSelect_total (n : Nat) (w : World) (v : Value) :
    (TryzeApp.selectProductFuel (n + 4) w v).isSome := by
  cases v with
  | undefined => rfl
  | null => rfl
  | num k => exact appSelect_num_total (n + 2) w k
  | product p =>
    rw [selectProductFuel_succ (n + 3) w (.product p) rfl]
    dsimp only
    split
    · rfl
    · split
      · rename_i heq
        simp only [Value.getId, Option.getD] at heq
        split at heq
        · have := menuSelect_num_total n
            ((TryzeApp.updateARScene
              { w with app := { w.app with currentProduct := .product p } } (.product p)).andThen
              (fun w2 => if w2.app.productOverlay.isSome then
                ProductOverlay.updateProduct w2 (.product p) else .ok w2)).world p.id
          rw [heq] at this; cases this
        · cases heq
      · rfl

/-- Fuel 5 is enough for `MenuComponent.selectProduct`, whatever the value. -/
theorem menuSelect_total (n : Nat) (w : World) (v : Value) :
    (MenuComponent.selectProductFuel (n + 5) w v).isSome := by
  rw [MenuComponent.selectProductFuel]
  split
  · rfl
  · rfl
  · dsimp only
    split
    · rfl
    · split
      · exact appSelect_total n _ v
      · rfl

/-- The wrapper `TryzeApp.selectProduct` is the fuelled function at a fuel that
does not run out. -/
theorem selectProduct_eq (w : World) (v : Value) :
    TryzeApp.selectProductFuel selectFuel w v = some (TryzeApp.selectProduct w v) := by
  have h := appSelect_total 2 w v
  unfold TryzeApp.selectProduct
  cases hh : TryzeApp.selectProductFuel selectFuel w v with
  | none => rw [show selectFuel = 2 + 4 from rfl] at hh; rw [hh] at h; cases h
  | some o => rfl

theorem menuSelectProduct_eq (w : World) (v : Value) :
    MenuComponent.selectProductFuel selectFuel w v = some (MenuComponent.selectProduct w v) := by
  have h := menuSelect_total 1 w v
  unfold MenuComponent.selectProduct
  cases hh : MenuComponent.selectProductFuel selectFuel w v with
  | none => rw [show selectFuel = 1 + 5 from rfl] at hh; rw [hh] at h; cases h
  | some o => rfl

/-- C3 fails on the code: with a menu attached, `TryzeApp.selectProduct(p)` hands
`p.id` (a number) to `MenuComponent.selectProduct`, so the call never returns
with the menu's `selectedProductId` equal to `p.id`. When `window.tryzeApp` is
set the call throws; when it returns normally the current product is `p` but the
menu's `selectedProductId` is `undefined`. -/
theorem C3_select_product_loses_menu_selection (w : World) (p : Product)
    (hm : w.app.menu.isSome) :
    (w.registered = true → (TryzeApp.selectProduct w (.product p)).error ≠ none)
    ∧ ((TryzeApp.selectProduct w (.product p)).error = none →
        TryzeApp.getCurrentProduct (TryzeApp.selectProduct w (.product p)).world = .product p
        ∧ ∃ m, (TryzeApp.selectProduct w (.product p)).world.app.menu = some m
            ∧ m.selectedProductId = .undefined ∧ m.selectedProductId ≠ .num p.id) := by
  have h := selectProduct_eq w (.product p)
  constructor
  · intro hr hok
    have := (selectProductFuel_product_ok _ _ _ _ h hok).2 hm
    rw [hr] at this; cases this.1
  · intro hok
    obtain ⟨hc, hrest⟩ := selectProductFuel_product_ok _ _ _ _ h hok
    obtain ⟨_, m, h1, h2⟩ := hrest hm
    exact ⟨hc, m, h1, h2, by rw [h2]; simp⟩

/-- C3 at concrete inputs: on the started sample page, selecting any of the four
catalog products throws a TypeError and leaves the number `p.id` as current
product and `undefined` as the menu's `selectedProductId`. -/
theorem C3_select_product_witness :
    sampleStarted.app.menu.isSome = true ∧ sampleStarted.app.productOverlay.isSome = true
    ∧ sampleStarted.registered = true
    ∧ (∀ p ∈ products,
        (TryzeApp.selectProduct sampleStarted (.product p)).error ≠ none
        ∧ (TryzeApp.selectProduct sampleStarted (.product p)).error = some .typeError
        ∧ TryzeApp.getCurrentProduct (TryzeApp.selectProduct sampleStarted (.product p)).world
            = .num p.id
        ∧ (TryzeApp.selectProduct sampleStarted (.product p)).world.app.menu.map
            (fun m => m.selectedProductId) = some .undefined) := by
  refine ⟨by decide, by decide, by decide, ?_⟩
  intro p hp
  refine ⟨(C3_select_product_loses_menu_selection sampleStarted p (by decide)).1 (by decide), ?_⟩
  revert p
  decide

/-! ## Marker events (C4, C6, C7, C8) -/

theorem pending_setTimeout (w : World) (cb c : Callback) (d : Nat) :
    pending (setTimeout w c d) cb
      = pending w cb ++ (if c = cb then [{ due := w.now + d, cb := c }] else []) := by
  unfold pending setTimeout
  simp only [List.filter_append, List.filter_cons, List.filter_nil]
  by_cases h : c = cb <;> simp [h]

/-- C8: `onMarkerFound()` sets `isMarkerVisible` to true and leaves the panel as it
was (the overlay's fields and its element are unchanged, so it is not shown
synchronously); when a panel is attached and `currentProduct` is set (truthy, as
every product object is) it queues exactly one `show` callback, due 500 ms
later; when `currentProduct` is absent (`null`, falsy) it queues none. -/
theorem C8_marker_found_schedules_one_show (w : World) :
    (TryzeApp.onMarkerFound w).app.isMarkerVisible = true
    ∧ (TryzeApp.onMarkerFound w).app.productOverlay = w.app.productOverlay
    ∧ (TryzeApp.onMarkerFound w).doc.overlay = w.doc.overlay
    ∧ (w.app.productOverlay.isSome = true → w.app.currentProduct.truthy = true →
        pending (TryzeApp.onMarkerFound w) .overlayShow
          = pending w .overlayShow ++ [{ due := w.now + 500, cb := .overlayShow }])
    ∧ (w.app.currentProduct.truthy = false →
        pending (TryzeApp.onMarkerFound w) .overlayShow = pending w .overlayShow)
    ∧ (∀ p : Product, (Value.product p).truthy = true) ∧ Value.null.truthy = false := by
  have hst : ∀ (x : World) (m : String) (d : Nat),
      (TryzeApp.showStatus x m d).doc.overlay = x.doc.overlay
      ∧ (TryzeApp.showStatus x m d).now = x.now
      ∧ pending (TryzeApp.showStatus x m d) .overlayShow = pending x .overlayShow := by
    intro x m d
    unfold TryzeApp.showStatus
    split
    · split
      · refine ⟨rfl, rfl, ?_⟩
        rw [pending_setTimeout]; simp [pending]
      · exact ⟨rfl, rfl, rfl⟩
    · exact ⟨rfl, rfl, rfl⟩
  have hfx : ∀ (x : World),
      (TryzeApp.addMarkerFoundEffects x).doc.overlay = x.doc.overlay
      ∧ pending (TryzeApp.addMarkerFoundEffects x) .overlayShow = pending x .overlayShow := by
    intro x
    unfold TryzeApp.addMarkerFoundEffects
    split
    · refine ⟨rfl, ?_⟩
      rw [pending_setTimeout]; simp [pending]
    · exact ⟨rfl, rfl⟩
  unfold TryzeApp.onMarkerFound
  dsimp only
  refine ⟨by simp; split <;> simp, by simp; split <;> simp, ?_, ?_, ?_, fun _ => rfl, rfl⟩
  · rw [(hfx _).1]; split <;> simp [(hst _ _ _).1]
  · intro ho ht
    rw [(hfx _).2]
    simp only [showStatus_frame, ho, ht, Bool.and_self, if_true]
    rw [pending_setTimeout, (hst _ _ _).2.2, (hst _ _ _).2.1]
    simp [pending]
  · intro ht
    rw [(hfx _).2]
    simp only [showStatus_frame, ht, Bool.and_false]
    rw [if_neg (by simp), (hst _ _ _).2.2]
    rfl


/-- C8 at concrete inputs: on the started sample page one `show` is queued 500 ms
ahead; with the current product cleared none is. -/
theorem C8_marker_found_witness :
    sampleQuiet.app.productOverlay.isSome = true
    ∧ sampleQuiet.app.currentProduct.truthy = true
    ∧ pending (TryzeApp.onMarkerFound sampleQuiet) .overlayShow
        = pending sampleQuiet .overlayShow ++ [{ due := sampleQuiet.now + 500, cb := .overlayShow }]
    ∧ pending (TryzeApp.onMarkerFound
          { sampleQuiet with app := { sampleQuiet.app with currentProduct := .null } })
        .overlayShow = [] :=
  ⟨by decide, by decide,
    (C8_marker_found_schedules_one_show sampleQuiet).2.2.2.1 (by decide) (by decide),
    by decide⟩

/-- C6: with a product panel attached, `onMarkerLost()` sets `isMarkerVisible` to
false and the panel's `isVisible` to false in the call itself; on a page that
has the status line (`#statusMessage` and `#statusText`) it makes
'Point your camera at the AR marker' the status text and shows it; and it
queues no auto-hide timer: the only timer it adds is the `hidden` class toggle
of the panel element, 300 ms later. -/
theorem C6_marker_lost_hides_panel_and_shows_instruction (w : World)
    (ho : w.app.productOverlay.isSome = true) :
    (TryzeApp.onMarkerLost w).app.isMarkerVisible = false
    ∧ (TryzeApp.onMarkerLost w).app.productOverlay.map (fun o => o.isVisible) = some false
    ∧ (w.doc.statusMessage.isSome = true → w.doc.statusText.isSome = true →
        (TryzeApp.onMarkerLost w).doc.statusText = some "Point your camera at the AR marker"
        ∧ (TryzeApp.onMarkerLost w).doc.statusMessage.map (fun s => s.hidden) = some false)
    ∧ pending (TryzeApp.onMarkerLost w) .statusHide = pending w .statusHide
    ∧ (TryzeApp.onMarkerLost w).timers
        = w.timers ++ (if w.doc.overlay.isSome then
            [{ due := w.now + 300, cb := .overlayAddHidden }] else []) := by
  obtain ⟨w0, hw0⟩ : ∃ o, w.app.productOverlay = some o := Option.isSome_iff_exists.mp ho
  unfold TryzeApp.onMarkerLost TryzeApp.showStatus ProductOverlay.hide pending setTimeout
  cases hsm : w.doc.statusMessage <;> cases hst : w.doc.statusText <;>
    cases hov : w.doc.overlay <;> simp [hw0, hsm, hst, hov]

/-- C6 at a concrete input: the started sample page. -/
theorem C6_marker_lost_witness :
    sampleQuiet.app.productOverlay.isSome = true
    ∧ sampleQuiet.doc.statusMessage.isSome = true ∧ sampleQuiet.doc.statusText.isSome = true
    ∧ (TryzeApp.onMarkerLost sampleQuiet).doc.statusText
        = some "Point your camera at the AR marker"
    ∧ (TryzeApp.onMarkerLost sampleQuiet).doc.statusMessage.map (fun s => s.hidden)
        = some false :=
  ⟨by decide, by decide, by decide,
    (C6_marker_lost_hides_panel_and_shows_instruction sampleQuiet (by decide)).2.2.1
      (by decide) (by decide)⟩

/-- C4 fails on the code: from every state with a product panel attached, a
current product set and no other timer pending, `onMarkerFound()` followed at
once by `onMarkerLost()` leaves the panel hidden with the delayed `show` still
queued (due 500 ms later); once the pending timers have fired, `isVisible` is
true and the panel element is not hidden, although the marker is lost. -/
theorem C4_stale_show_timer_reopens_panel (w : World) (o : ProductOverlay)
    (ht : w.timers = []) (ho : w.app.productOverlay = some o)
    (hc : w.app.currentProduct.truthy = true) :
    (run w [.markerFound, .markerLost]).app.productOverlay = some { o with isVisible := false }
    ∧ (run w [.markerFound, .markerLost]).app.isMarkerVisible = false
    ∧ pending (run w [.markerFound, .markerLost]) .overlayShow
        = [{ due := w.now + 500, cb := .overlayShow }]
    ∧ (fireTimers 4 (run w [.markerFound, .markerLost])).timers = []
    ∧ (fireTimers 4 (run w [.markerFound, .markerLost])).app.productOverlay
        = some { o with isVisible := true }
    ∧ (fireTimers 4 (run w [.markerFound, .markerLost])).doc.overlay.map (fun e => e.hidden)
        = w.doc.overlay.map (fun _ => false)
    ∧ (fireTimers 4 (run w [.markerFound, .markerLost])).app.isMarkerVisible = false := by
  cases hsm : w.doc.statusMessage <;> cases hst : w.doc.statusText <;>
    cases hov : w.doc.overlay <;>
    simp [run, step, TryzeApp.onMarkerFound, TryzeApp.onMarkerLost, TryzeApp.showStatus,
      TryzeApp.addMarkerFoundEffects, ProductOverlay.hide, ProductOverlay.show, setTimeout,
      fireTimers, fireNext, popTimer, runCallback, settle, pending, ht, ho, hc, hsm, hst, hov]

/-- C4 at a concrete input, the started sample page: the panel is hidden after
the two marker events, visible again when the second timer has fired, 500 ms
later, and still visible when no timer is left. -/
theorem C4_stale_show_timer_witness :
    sampleQuiet.timers = []
    ∧ sampleQuiet.app.productOverlay = some { isVisible := false, currentProduct := .null }
    ∧ sampleQuiet.app.currentProduct.truthy = true
    ∧ (run sampleQuiet [.markerFound, .markerLost]).app.productOverlay.map
        (fun o => o.isVisible) = some false
    ∧ (fireTimers 4 (run sampleQuiet [.markerFound, .markerLost])).app.productOverlay
        = some { isVisible := true, currentProduct := .null }
    ∧ (run sampleQuiet [.markerFound, .markerLost, .timer, .timer]).app.productOverlay.map
        (fun o => o.isVisible) = some true
    ∧ (run sampleQuiet [.markerFound, .markerLost, .timer, .timer]).now = sampleQuiet.now + 500
    ∧ (run sampleQuiet [.markerFound, .markerLost, .timer, .timer]).app.isMarkerVisible = false
    ∧ (fireTimers 4 (run sampleQuiet [.markerFound, .markerLost])).doc.overlay.map
        (fun e => e.hidden) = some false :=
  ⟨by decide, by decide, by decide, by decide,
    (C4_stale_show_timer_reopens_panel sampleQuiet { isVisible := false, currentProduct := .null }
      (by decide) (by decide) (by decide)).2.2.2.2.1,
    by decide, by decide, by decide, by decide⟩

/-- The delayed `show` of `onMarkerFound` does not look at the marker flag. -/
theorem overlayShow_ignores_marker (w : World) (o : ProductOverlay)
    (ho : w.app.productOverlay = some o) :
    (runCallback w .overlayShow).error = none
    ∧ (runCallback w .overlayShow).world.app.productOverlay = some { o with isVisible := true }
    ∧ (runCallback w .overlayShow).world.app.isMarkerVisible = w.app.isMarkerVisible := by
  unfold runCallback ProductOverlay.show
  cases hov : w.doc.overlay <;> simp [ho, hov]

/-- C7 fails on the code: from every state with the status line on the page and
no other timer pending, after `onMarkerFound()` and `onMarkerLost()` the
instruction is displayed, but the auto-hide timer of the earlier 'AR Active'
status (due 3000 ms later) is still queued; once the pending timers have fired
the status line is hidden, although no other status was shown: the status text
is still the instruction. -/
theorem C7_stale_status_timer_hides_instruction (w : World) (sm : StatusElement) (t : String)
    (ht : w.timers = []) (hsm : w.doc.statusMessage = some sm)
    (hst : w.doc.statusText = some t) :
    (run w [.markerFound, .markerLost]).doc.statusText
        = some "Point your camera at the AR marker"
    ∧ (run w [.markerFound, .markerLost]).doc.statusMessage.map (fun s => s.hidden) = some false
    ∧ pending (run w [.markerFound, .markerLost]) .statusHide
        = [{ due := w.now + 3000, cb := .statusHide }]
    ∧ (fireTimers 4 (run w [.markerFound, .markerLost])).doc.statusText
        = some "Point your camera at the AR marker"
    ∧ (fireTimers 4 (run w [.markerFound, .markerLost])).timers = []
    ∧ (fireTimers 4 (run w [.markerFound, .markerLost])).doc.statusMessage.map
        (fun s => s.hidden) = some true := by
  cases hpo : w.app.productOverlay <;> cases hc : w.app.currentProduct.truthy <;>
    cases hov : w.doc.overlay <;>
    simp [run, step, TryzeApp.onMarkerFound, TryzeApp.onMarkerLost, TryzeApp.showStatus,
      TryzeApp.addMarkerFoundEffects, ProductOverlay.hide, ProductOverlay.show, setTimeout,
      fireTimers, fireNext, popTimer, runCallback, settle, pending, ht, hpo, hc, hsm, hst, hov]

/-- C7 at a concrete input, the started sample page: the status line is shown
until the fourth timer, the stale auto-hide, fires 3000 ms after the marker was
found; the status text is the instruction at every point in between. -/
theorem C7_stale_status_timer_witness :
    sampleQuiet.timers = []
    ∧ sampleQuiet.doc.statusMessage = some { hidden := true, green := false }
    ∧ sampleQuiet.doc.statusText
        = some "Point your camera at the marker to see products in AR"
    ∧ (fireTimers 4 (run sampleQuiet [.markerFound, .markerLost])).doc.statusMessage.map
        (fun s => s.hidden) = some true
    ∧ (fireTimers 3 (run sampleQuiet [.markerFound, .markerLost])).doc.statusMessage.map
        (fun s => s.hidden) = some false
    ∧ (fireTimers 4 (run sampleQuiet [.markerFound, .markerLost])).now = sampleQuiet.now + 3000
    ∧ (∀ n ∈ [0, 1, 2, 3, 4], (fireTimers n (run sampleQuiet [.markerFound,
        .markerLost])).doc.statusText = some "Point your camera at the AR marker") :=
  ⟨by decide, by decide, by decide,
    (C7_stale_status_timer_hides_instruction sampleQuiet { hidden := true, green := false }
      "Point your camera at the marker to see products in AR" (by decide) (by decide)
      (by decide)).2.2.2.2.2,
    by decide, by decide, by decide⟩

/-! ## The marker flag (C5) -/

theorem updateLoadingProgress_marker (w : World) (x : JSNumber) :
    (TryzeApp.updateLoadingProgress w x).app.isMarkerVisible = w.app.isMarkerVisible := by
  unfold TryzeApp.updateLoadingProgress
  dsimp only
  split <;> rfl

theorem settle_marker (o : Outcome) : (settle o).app.isMarkerVisible = o.world.app.isMarkerVisible := by
  unfold settle
  split <;> simp

theorem selectProduct_setup (w : World) (v : Value) :
    SameSetup w (TryzeApp.selectProduct w v).world :=
  (selectProductFuel_setup selectFuel).1 w v _ (selectProduct_eq w v)

theorem menuSelectProduct_setup (w : World) (v : Value) :
    SameSetup w (MenuComponent.selectProduct w v).world :=
  (selectProductFuel_setup selectFuel).2 w v _ (menuSelectProduct_eq w v)

@[simp] theorem resetView_frame (w : World) :
    (TryzeApp.resetView w).app = w.app ∧ (TryzeApp.resetView w).registered = w.registered := by
  unfold TryzeApp.resetView
  simp only [showStatus_frame]
  split <;> exact ⟨rfl, rfl⟩

@[simp] theorem captureScreen_frame (w : World) :
    (TryzeApp.captureScreen w).app = w.app
    ∧ (TryzeApp.captureScreen w).registered = w.registered := by
  unfold TryzeApp.captureScreen
  split
  · split <;> simp
  · simp

@[simp] theorem toggleHelp_frame (w : World) :
    (toggleHelp w).app = w.app ∧ (toggleHelp w).registered = w.registered := by
  unfold toggleHelp
  split <;> exact ⟨rfl, rfl⟩

theorem handleKeyboard_marker (w : World) (e : KeyEvent) :
    (TryzeApp.handleKeyboard w e).1.app.isMarkerVisible = w.app.isMarkerVisible := by
  have hh : ∀ x : World, (if x.app.productOverlay.isSome then (ProductOverlay.hide x).world
      else x).app.isMarkerVisible = x.app.isMarkerVisible := by
    intro x; split
    · exact (hide_setup x).1
    · rfl
  unfold TryzeApp.handleKeyboard
  split
  · rfl
  · split
    · dsimp only
      split
      · exact hh w
      · exact hh w
    · split
      · split
        · simp
        · rfl
      · split
        · split
          · simp
          · rfl
        · split
          · split
            · simp
            · rfl
          · rfl

theorem menuLoadProducts_marker (w : World) (ps : List Product) :
    (MenuComponent.loadProducts w ps).world.app.isMarkerVisible = w.app.isMarkerVisible := by
  unfold MenuComponent.loadProducts MenuComponent.renderProductList
  split
  · rfl
  · dsimp only; split <;> rfl

theorem loadProducts_marker (w : World) :
    (TryzeApp.loadProducts w).world.app.isMarkerVisible = w.app.isMarkerVisible := by
  unfold TryzeApp.loadProducts
  dsimp only
  rw [Outcome.andThen_keeps (fun w => w.app.isMarkerVisible)]
  · split
    · rw [menuLoadProducts_marker]
    · rfl
  · intro x
    unfold products
    exact (selectProduct_setup x _).1

theorem updateUI_frame (w : World) (b : Bool) :
    (MenuComponent.updateUI w b).world.app = w.app
    ∧ (MenuComponent.updateUI w b).world.registered = w.registered := by
  unfold MenuComponent.updateUI
  split
  · exact ⟨rfl, rfl⟩
  · dsimp only
    split
    · exact ⟨rfl, rfl⟩
    · split <;> exact ⟨rfl, rfl⟩

theorem construct_frame (w : World) :
    (MenuComponent.construct w).1.world.app = w.app
    ∧ (MenuComponent.construct w).1.world.registered = w.registered := by
  unfold MenuComponent.construct
  dsimp only
  split
  · exact ⟨rfl, rfl⟩
  · split
    · exact ⟨rfl, rfl⟩
    · exact ⟨rfl, rfl⟩
    · exact ⟨rfl, rfl⟩
    · exact updateUI_frame _ _

theorem initializeComponents_marker (w : World) :
    (TryzeApp.initializeComponents w).world.app.isMarkerVisible = w.app.isMarkerVisible := by
  unfold TryzeApp.initializeComponents
  dsimp only
  rw [Outcome.andThen_keeps (fun w => w.app.isMarkerVisible) _ _ (by intro x; split <;> rfl)]
  rw [Outcome.andThen_keeps (fun w => w.app.isMarkerVisible) _ _
    (by intro x; split <;> [split; skip] <;> rfl)]
  rw [Outcome.andThen_keeps (fun w => w.app.isMarkerVisible) _ _ (by intro x; split <;> rfl)]
  split
  · rw [Outcome.andThen_keeps (fun w => w.app.isMarkerVisible) _ _ (by intro x; rfl)]
    rw [(construct_frame w).1]
  · rfl

theorem initBody_marker (w : World) :
    (TryzeApp.initBody w).world.app.isMarkerVisible = w.app.isMarkerVisible := by
  unfold TryzeApp.initBody
  dsimp only
  rw [Outcome.andThen_keeps (fun w => w.app.isMarkerVisible)]
  · rw [loadProducts_marker]; simp only [updateLoadingProgress_marker]
  · intro x
    rw [Outcome.andThen_keeps (fun w => w.app.isMarkerVisible)]
    · rw [initializeComponents_marker, updateLoadingProgress_marker]
    · intro y
      simp [updateLoadingProgress_marker]

theorem resolveAR_marker (w : World) :
    (TryzeApp.resolveAR w).app.isMarkerVisible = w.app.isMarkerVisible := by
  unfold TryzeApp.resolveAR TryzeApp.initResume
  split
  · dsimp only
    split
    · rw [initBody_marker]
    · simp only [showStatus_frame]; rw [initBody_marker]
  · rfl

theorem runCallback_marker (w : World) (cb : Callback) :
    (runCallback w cb).world.app.isMarkerVisible = w.app.isMarkerVisible := by
  cases cb with
  | arFallbackResolve => exact resolveAR_marker w
  | finishLoading => simp [runCallback]
  | instruction i => simp [runCallback]
  | statusHide => rfl
  | overlayShow => exact (show_setup w).1
  | statusBackgroundReset => rfl
  | orientationResize => simp [runCallback]
  | textUpdate t s => cases t <;> rfl
  | detailsLoaded => simp [runCallback]
  | overlayAddHidden => unfold runCallback; dsimp only; split <;> rfl

theorem fireNext_marker (w : World) :
    (fireNext w).app.isMarkerVisible = w.app.isMarkerVisible := by
  unfold fireNext
  split
  · rfl
  · rw [settle_marker, runCallback_marker]

theorem onMarkerFound_marker (w : World) :
    (TryzeApp.onMarkerFound w).app.isMarkerVisible = true := by
  unfold TryzeApp.onMarkerFound
  dsimp only
  rw [(addMarkerFoundEffects_frame _).1]
  split
  · rw [(setTimeout_frame _ _ _).1, (showStatus_frame _ _ _).1]
  · rw [(showStatus_frame _ _ _).1]

/-- What one event does to the marker flag. -/
theorem step_marker (w : World) (e : Event) :
    (step w e).app.isMarkerVisible =
      match e with
      | .markerFound => true
      | .markerLost => false
      | _ => w.app.isMarkerVisible := by
  cases e with
  | markerFound => exact onMarkerFound_marker w
  | markerLost =>
    show (TryzeApp.onMarkerLost w).app.isMarkerVisible = false
    unfold TryzeApp.onMarkerLost
    dsimp only
    split
    · rw [(hide_setup _).1]; simp
    · simp
  | select v => exact (settle_marker _).trans (selectProduct_setup w v).1
  | menuSelect p => exact (settle_marker _).trans (menuSelectProduct_setup w _).1
  | progress x => exact updateLoadingProgress_marker w x
  | modelProgress l t =>
    show (ThreeSetup.onProgress w l t).app.isMarkerVisible = _
    unfold ThreeSetup.onProgress; dsimp only
    split
    · exact updateLoadingProgress_marker _ _
    · rfl
  | keydown e => exact handleKeyboard_marker w e
  | resize => simp [step]
  | orientationChange => rfl
  | sceneLoaded =>
    show (if w.doc.aframe && w.doc.arScene then TryzeApp.resolveAR w else w).app.isMarkerVisible = _
    split
    · exact resolveAR_marker w
    · rfl
  | timer => exact fireNext_marker w

theorem run_cons (w : World) (e : Event) (es : List Event) :
    run w (e :: es) = run (step w e) es := rfl

theorem lastMarker_cons (b : Bool) (e : Event) (es : List Event) :
    lastMarker b (e :: es) = lastMarker (match e with
      | .markerFound => true
      | .markerLost => false
      | _ => b) es := by
  cases e <;> rfl

theorem run_marker (es : List Event) (w : World) :
    (run w es).app.isMarkerVisible = lastMarker w.app.isMarkerVisible es := by
  induction es generalizing w with
  | nil => rfl
  | cons e es ih => rw [run_cons, ih, step_marker]; cases e <;> rfl

theorem getLast?_cons_ne_nil {α : Type} (a : α) (l : List α) (h : l ≠ []) :
    (a :: l).getLast? = l.getLast? := by
  cases l with
  | nil => exact absurd rfl h
  | cons b l => simp [List.getLast?_cons_cons]

/-- The fold `lastMarker` is true exactly when the last marker signal is
`markerFound`, or when there is none and it started true. -/
theorem lastMarker_spec (es : List Event) (b : Bool) :
    lastMarker b es = true ↔
      ((markerSignals es).getLast? = some .markerFound ∨ (markerSignals es = [] ∧ b = true)) := by
  induction es generalizing b with
  | nil => simp [lastMarker, markerSignals]
  | cons e es ih =>
    have hcons : ∀ (c : Bool), lastMarker b (e :: es) = lastMarker c es →
        markerSignals (e :: es) = e :: markerSignals es → (c = true ↔ e = .markerFound) →
        (lastMarker b (e :: es) = true ↔
          ((markerSignals (e :: es)).getLast? = some .markerFound
            ∨ (markerSignals (e :: es) = [] ∧ b = true))) := by
      intro c h1 h2 h3
      rw [h1, ih, h2]
      by_cases hn : markerSignals es = []
      · rw [hn]; simp [h3]
      · rw [getLast?_cons_ne_nil _ _ hn]; simp [hn]
    have hskip : lastMarker b (e :: es) = lastMarker b es →
        markerSignals (e :: es) = markerSignals es →
        (lastMarker b (e :: es) = true ↔
          ((markerSignals (e :: es)).getLast? = some .markerFound
            ∨ (markerSignals (e :: es) = [] ∧ b = true))) := by
      intro h1 h2
      rw [h1, ih, h2]
    cases e with
    | markerFound => exact hcons true rfl rfl (by simp)
    | markerLost => exact hcons false rfl rfl (by simp)
    | select v => exact hskip rfl rfl
    | menuSelect p => exact hskip rfl rfl
    | progress x => exact hskip rfl rfl
    | modelProgress l t => exact hskip rfl rfl
    | keydown k => exact hskip rfl rfl
    | resize => exact hskip rfl rfl
    | orientationChange => exact hskip rfl rfl
    | sceneLoaded => exact hskip rfl rfl
    | timer => exact hskip rfl rfl

theorem ite_resolveAR_marker (c : Prop) [Decidable c] (x : World) :
    (if c then TryzeApp.resolveAR x else x).app.isMarkerVisible = x.app.isMarkerVisible := by
  split
  · exact resolveAR_marker x
  · rfl

theorem launch_marker (doc : Document) (storage : Option StoredText) :
    (launch doc storage).app.isMarkerVisible = false := by
  unfold launch
  rw [ite_resolveAR_marker]
  unfold TryzeApp.construct
  dsimp only
  split <;> simp [updateLoadingProgress_marker, TryzeApp.fresh]

/-- C5: for every sequence of events delivered to the controller (marker
signals, selections from the controller or the menu, progress updates, key
presses, resizes, the scene's `loaded` event, timer callbacks), from any state
`isMarkerCurrentlyVisible()` is the last marker signal folded over the
sequence; from a freshly constructed controller it is true exactly when the
most recent marker signal is `markerFound`, and false when no marker signal has
arrived. -/
theorem C5_marker_flag_follows_last_signal (w : World) (doc : Document)
    (storage : Option StoredText) (es : List Event) :
    TryzeApp.isMarkerCurrentlyVisible (run w es) = lastMarker w.app.isMarkerVisible es
    ∧ (TryzeApp.isMarkerCurrentlyVisible (run (launch doc storage) es) = true ↔
        (markerSignals es).getLast? = some .markerFound)
    ∧ (markerSignals es = [] →
        TryzeApp.isMarkerCurrentlyVisible (run (launch doc storage) es) = false) := by
  have h : TryzeApp.isMarkerCurrentlyVisible (run (launch doc storage) es) = true ↔
      (markerSignals es).getLast? = some .markerFound := by
    unfold TryzeApp.isMarkerCurrentlyVisible
    rw [run_marker, lastMarker_spec, launch_marker]
    simp
  refine ⟨run_marker es w, h, ?_⟩
  intro hn
  rw [hn] at h
  simpa using h

/-- C5 at a concrete input: a timer and a failing selection, no marker signal. -/
theorem C5_marker_flag_witness :
    markerSignals [.timer, .select .null] = []
    ∧ TryzeApp.isMarkerCurrentlyVisible (run (launch samplePage none) [.timer, .select .null])
        = false :=
  ⟨by decide,
    (C5_marker_flag_follows_last_signal sampleQuiet samplePage none [.timer, .select .null]).2.2
      (by decide)⟩

/-! ## Startup (C9, C10) -/

/-- When `o.andThen f` returned normally, so did `o`, and the result is `f`'s. -/
theorem Outcome.andThen_of_ok {o : Outcome} {f : World → Outcome}
    (h : (o.andThen f).error = none) : o.error = none ∧ o.andThen f = f o.world := by
  unfold Outcome.andThen at h ⊢
  split at h
  · rename_i he; exact ⟨he, rfl⟩
  · rename_i e he; rw [he] at h; cases h

/-- The controller fields that the startup claims are about. -/
theorem updateLoadingProgress_app (w : World) (x : JSNumber) :
    (TryzeApp.updateLoadingProgress w x).app
      = { w.app with loadingProgress := JSNumber.max w.app.loadingProgress x }
    ∧ (TryzeApp.updateLoadingProgress w x).registered = w.registered := by
  unfold TryzeApp.updateLoadingProgress
  dsimp only
  split <;> exact ⟨rfl, rfl⟩

theorem initializeComponents_keeps (w : World) :
    (TryzeApp.initializeComponents w).world.app.currentProduct = w.app.currentProduct
    ∧ (TryzeApp.initializeComponents w).world.app.loadingProgress = w.app.loadingProgress
    ∧ (TryzeApp.initializeComponents w).world.app.isInitialized = w.app.isInitialized := by
  have key : (fun x : World => (x.app.currentProduct, x.app.loadingProgress, x.app.isInitialized))
      (TryzeApp.initializeComponents w).world
      = (w.app.currentProduct, w.app.loadingProgress, w.app.isInitialized) := by
    unfold TryzeApp.initializeComponents
    dsimp only
    rw [Outcome.andThen_keeps (fun x : World =>
      (x.app.currentProduct, x.app.loadingProgress, x.app.isInitialized)) _ _
      (by intro x; split <;> rfl)]
    rw [Outcome.andThen_keeps (fun x : World =>
      (x.app.currentProduct, x.app.loadingProgress, x.app.isInitialized)) _ _
      (by intro x; split <;> [split; skip] <;> rfl)]
    rw [Outcome.andThen_keeps (fun x : World =>
      (x.app.currentProduct, x.app.loadingProgress, x.app.isInitialized)) _ _
      (by intro x; split <;> rfl)]
    split
    · rw [Outcome.andThen_keeps (fun x : World =>
        (x.app.currentProduct, x.app.loadingProgress, x.app.isInitialized)) _ _
        (by intro x; rfl)]
      rw [(construct_frame w).1]
    · rfl
  simp only [Prod.mk.injEq] at key
  exact key

/-- A `loadProducts()` that returned normally selected the first product and
left progress and startup flag alone. -/
theorem loadProducts_ok (w : World) (h : (TryzeApp.loadProducts w).error = none) :
    (∃ p, products.head? = some p
      ∧ (TryzeApp.loadProducts w).world.app.currentProduct = .product p)
    ∧ (TryzeApp.loadProducts w).world.app.loadingProgress = w.app.loadingProgress
    ∧ (TryzeApp.loadProducts w).world.app.isInitialized = w.app.isInitialized := by
  have hne : products ≠ [] := by decide
  have hpre : ∀ x : World, ((if x.app.menu.isSome then MenuComponent.loadProducts x products
      else Outcome.ok x).world.app.loadingProgress = x.app.loadingProgress)
      ∧ ((if x.app.menu.isSome then MenuComponent.loadProducts x products
      else Outcome.ok x).world.app.isInitialized = x.app.isInitialized) := by
    intro x
    split
    · unfold MenuComponent.loadProducts MenuComponent.renderProductList
      split
      · exact ⟨rfl, rfl⟩
      · dsimp only; split <;> exact ⟨rfl, rfl⟩
    · exact ⟨rfl, rfl⟩
  have hLP : TryzeApp.loadProducts w
      = (if ({ w with productData := some products } : World).app.menu.isSome then
          MenuComponent.loadProducts { w with productData := some products } products
        else Outcome.ok { w with productData := some products }).andThen
          (fun w2 => TryzeApp.selectProduct w2 (.product (products.head hne))) := rfl
  rw [hLP] at h ⊢
  obtain ⟨h1, h2⟩ := Outcome.andThen_of_ok h
  rw [h2] at h ⊢
  refine ⟨⟨products.head hne, rfl, ?_⟩, ?_, ?_⟩
  · exact (selectProductFuel_product_ok _ _ _ _ (selectProduct_eq _ _) h).1
  · rw [(selectProduct_setup _ _).2.1]
    exact (hpre { w with productData := some products }).1
  · rw [(selectProduct_setup _ _).2.2.1]
    exact (hpre { w with productData := some products }).2

/-- A `try` block of `init` that ran to its end. -/
theorem initBody_ok (w : World) (h : (TryzeApp.initBody w).error = none) :
    (TryzeApp.initBody w).world.app.isInitialized = true
    ∧ (TryzeApp.initBody w).world.app.loadingProgress
        = JSNumber.max (JSNumber.max (JSNumber.max (JSNumber.max (JSNumber.max
            w.app.loadingProgress (.fin 30)) (.fin 50)) (.fin 70)) (.fin 90)) (.fin 100)
    ∧ ∃ p, products.head? = some p
        ∧ (TryzeApp.initBody w).world.app.currentProduct = .product p := by
  unfold TryzeApp.initBody at h ⊢
  dsimp only at h ⊢
  obtain ⟨h1, h2⟩ := Outcome.andThen_of_ok h
  rw [h2] at h ⊢
  obtain ⟨h3, h4⟩ := Outcome.andThen_of_ok h
  rw [h4]
  obtain ⟨⟨p, hp, hc⟩, hl, _⟩ := loadProducts_ok _ h1
  obtain ⟨kc, kl, _⟩ := initializeComponents_keeps
    (TryzeApp.updateLoadingProgress (TryzeApp.loadProducts
      (TryzeApp.updateLoadingProgress (TryzeApp.updateLoadingProgress
        (TryzeApp.updateLoadingProgress w (.fin 30)) (.fin 50)) (.fin 70))).world (.fin 90))
  refine ⟨rfl, ?_, p, hp, ?_⟩
  · simp only [Outcome.ok_world, setTimeout_frame, updateLoadingProgress_progress, kl, hl]
  · simp only [Outcome.ok_world, setTimeout_frame, (updateLoadingProgress_app _ _).1, kc, hc]

theorem construct_progress (doc : Document) (storage : Option StoredText) :
    (TryzeApp.construct doc storage).app.loadingProgress = .fin 10 := by
  unfold TryzeApp.construct
  dsimp only
  split <;> simp [TryzeApp.fresh, JSNumber.max]

/-- C9: a startup sequence in which no step throws (the `try` block of `init`,
resumed after `new TryzeApp()` on any page, runs to its end) ends with
`isInitialized = true`, `loadingProgress = 100` and `currentProduct` equal to
the first of the 4 catalog products, the one with id 1. -/
theorem C9_startup_without_throw_completes (doc : Document) (storage : Option StoredText)
    (hok : (TryzeApp.initBody
      { TryzeApp.construct doc storage with arPending := false }).error = none) :
    (TryzeApp.initResume (TryzeApp.construct doc storage)).app.isInitialized = true
    ∧ (TryzeApp.initResume (TryzeApp.construct doc storage)).app.loadingProgress
        = JSNumber.ofInt 100
    ∧ products.length = 4
    ∧ ∃ p, products[0]? = some p ∧ p.id = 1
        ∧ TryzeApp.getCurrentProduct (TryzeApp.initResume (TryzeApp.construct doc storage))
            = .product p := by
  obtain ⟨h1, h2, p, hp, hc⟩ := initBody_ok _ hok
  have hr : TryzeApp.initResume (TryzeApp.construct doc storage)
      = (TryzeApp.initBody { TryzeApp.construct doc storage with arPending := false }).world := by
    unfold TryzeApp.initResume
    dsimp only
    rw [hok]
  rw [hr]
  refine ⟨h1, ?_, rfl, p, ?_, ?_, hc⟩
  · rw [h2]
    show JSNumber.max (JSNumber.max (JSNumber.max (JSNumber.max (JSNumber.max
      (TryzeApp.construct doc storage).app.loadingProgress _) _) _) _) _ = _
    rw [construct_progress]
    norm_num [JSNumber.max, JSNumber.ofInt]
  · rw [← hp]; rfl
  · have : products.head? = some (products.get ⟨0, by decide⟩) := rfl
    rw [this] at hp
    cases hp
    rfl

/-- C9 at a concrete input: the sample page, where no step of the startup throws. -/
theorem C9_startup_witness :
    (TryzeApp.initBody { TryzeApp.construct samplePage none with arPending := false }).error = none
    ∧ (TryzeApp.initResume (TryzeApp.construct samplePage none)).app.isInitialized = true
    ∧ (TryzeApp.initResume (TryzeApp.construct samplePage none)).app.loadingProgress
        = JSNumber.ofInt 100 :=
  ⟨by decide,
    (C9_startup_without_throw_completes samplePage none (by decide)).1,
    (C9_startup_without_throw_completes samplePage none (by decide)).2.1⟩

/-- The panel that `initializeComponents` attaches is empty: `new ProductOverlay()`
sets `currentProduct = null`, and nothing in `init` hands it a product
afterwards. -/
theorem initializeComponents_overlay (w : World)
    (h : (TryzeApp.initializeComponents w).error = none) (hc : w.doc.overlayClass = true) :
    (TryzeApp.initializeComponents w).world.app.productOverlay
      = some { isVisible := false, currentProduct := .null } := by
  have hdoc : ∀ x : World, (MenuComponent.construct x).1.world.doc.overlayClass
      = x.doc.overlayClass := by
    intro x
    unfold MenuComponent.construct
    dsimp only
    split
    · rfl
    · split
      · rfl
      · rfl
      · rfl
      · unfold MenuComponent.updateUI
        split
        · rfl
        · dsimp only
          split
          · rfl
          · split <;> rfl
  unfold TryzeApp.initializeComponents at h ⊢
  dsimp only at h ⊢
  rw [Outcome.andThen_keeps (fun x : World => x.app.productOverlay) _ _
    (by intro x; split <;> rfl)]
  rw [Outcome.andThen_keeps (fun x : World => x.app.productOverlay) _ _
    (by intro x; split <;> [split; skip] <;> rfl)]
  obtain ⟨h3, _⟩ := Outcome.andThen_of_ok h
  obtain ⟨h2, _⟩ := Outcome.andThen_of_ok h3
  obtain ⟨h1, _⟩ := Outcome.andThen_of_ok h2
  rw [Outcome.andThen_ok h1]
  have hc1 : (if w.doc.menuClass then
      (MenuComponent.construct w).1.andThen (fun w1 =>
        Outcome.ok { w1 with app := { w1.app with menu := some (MenuComponent.construct w).2 } })
      else Outcome.ok w).world.doc.overlayClass = true := by
    split
    · rename_i hmc
      rw [if_pos hmc] at h1
      obtain ⟨_, e0⟩ := Outcome.andThen_of_ok h1
      rw [e0]
      simp only [Outcome.ok_world]
      rw [hdoc, hc]
    · exact hc
  rw [if_pos hc1]
  rfl

/-- C10 fails on the code: on the sample page the startup succeeds with the
first catalog product current, but `init` selects it before
`initializeComponents` constructs the panel, so the panel starts with
`currentProduct = null`. A marker-found event makes the panel visible 500 ms
later, yet its title and price are still the page's initial texts (the title
is not the product's name), no text update is queued, and nothing changes
when every remaining timer has fired. -/
theorem C10_panel_shown_without_the_product :
    sampleStarted.app.isInitialized = true
    ∧ some sampleStarted.app.currentProduct = products[0]?.map Value.product
    ∧ sampleStarted.app.productOverlay = some { isVisible := false, currentProduct := .null }
    ∧ (run sampleStarted [.markerFound, .timer]).now = 500
    ∧ (run sampleStarted [.markerFound, .timer]).app.productOverlay
        = some { isVisible := true, currentProduct := .null }
    ∧ (run sampleStarted [.markerFound, .timer]).doc.overlay.map (fun e => e.hidden) = some false
    ∧ (run sampleStarted [.markerFound, .timer]).doc.productTitle = samplePage.productTitle
    ∧ (run sampleStarted [.markerFound, .timer]).doc.productPrice = samplePage.productPrice
    ∧ (run sampleStarted [.markerFound, .timer]).doc.productTitle
        ≠ products[0]?.map (fun p => p.name)
    ∧ (∀ t ∈ (run sampleStarted [.markerFound, .timer]).timers,
        ∀ target text, t.cb ≠ .textUpdate target text)
    ∧ (fireTimers 12 (run sampleStarted [.markerFound, .timer])).timers = []
    ∧ (fireTimers 12 (run sampleStarted [.markerFound, .timer])).app.productOverlay
        = some { isVisible := true, currentProduct := .null }
    ∧ (fireTimers 12 (run sampleStarted [.markerFound, .timer])).doc.productTitle
        = samplePage.productTitle := by
  refine ⟨by decide, rfl, by decide, by decide, by decide, by decide, by decide, by decide,
    by decide, ?_, by decide, by decide, by decide⟩
  have : (run sampleStarted [.markerFound, .timer]).timers.map (fun t => t.cb)
      = [.statusHide, .finishLoading, .statusHide, .statusBackgroundReset] := by decide
  intro t ht target text hcb
  have hm : t.cb ∈ (run sampleStarted [.markerFound, .timer]).timers.map (fun t => t.cb) :=
    List.mem_map_of_mem _ ht
  rw [this, hcb] at hm
  simp at hm

/-! ## The menu's open/closed state (C14, C16, C17) -/

@[simp] theorem saveState_app (w : World) :
    (MenuComponent.saveState w).world.app = w.app := by
  unfold MenuComponent.saveState; split <;> rfl

@[simp] theorem triggerOpenAnimation_world (w : World) :
    (MenuComponent.triggerOpenAnimation w).world = w := by
  unfold MenuComponent.triggerOpenAnimation; split <;> rfl

@[simp] theorem triggerCloseAnimation_world (w : World) :
    (MenuComponent.triggerCloseAnimation w).world = w := by
  unfold MenuComponent.triggerCloseAnimation; split <;> rfl

/-- Method `open()` sets `isOpen` first: the menu is open afterwards, whether or
not a later statement throws. -/
theorem open_app (w : World) (m : MenuComponent) (hm : w.app.menu = some m) :
    (MenuComponent.open w).world.app = { w.app with menu := some { m with isOpen := true } } := by
  unfold MenuComponent.open
  rw [hm]
  dsimp only
  rw [Outcome.andThen_keeps (fun x => x.app) _ _ (by
    intro x
    exact (Outcome.andThen_keeps (fun x => x.app) _ _ (by intro y; simp)).trans (by simp))]
  rw [(updateUI_frame _ _).1]

/-- Method `close()` sets `isOpen` first. -/
theorem close_app (w : World) (m : MenuComponent) (hm : w.app.menu = some m) :
    (MenuComponent.close w).world.app = { w.app with menu := some { m with isOpen := false } } := by
  unfold MenuComponent.close
  rw [hm]
  dsimp only
  rw [Outcome.andThen_keeps (fun x => x.app) _ _ (by
    intro x
    exact (Outcome.andThen_keeps (fun x => x.app) _ _ (by intro y; simp)).trans (by simp))]
  rw [(updateUI_frame _ _).1]

/-- Method `toggle()` flips `isOpen`. -/
theorem toggle_app (w : World) (m : MenuComponent) (hm : w.app.menu = some m) :
    (MenuComponent.toggle w).world.app
      = { w.app with menu := some { m with isOpen := !m.isOpen } } := by
  unfold MenuComponent.toggle
  rw [hm]
  dsimp only
  split
  · rename_i h; rw [close_app w m hm, h]; rfl
  · rename_i h
    have : m.isOpen = false := by simpa using h
    rw [open_app w m hm, this]; rfl

/-- C14: for every menu state, `toggle()` flips `isOpen` (the assignment is the
first statement of `open()` and `close()`, so this holds even when a later
statement throws), and `toggle()` followed by `toggle()` leaves the menu with
its original `isOpen`, `products` and `selectedProductId`. -/
theorem C14_toggle_twice_restores_isOpen (w : World) (m : MenuComponent)
    (hm : w.app.menu = some m) :
    (MenuComponent.toggle w).world.app.menu = some { m with isOpen := !m.isOpen }
    ∧ (MenuComponent.toggle (MenuComponent.toggle w).world).world.app.menu = some m
    ∧ (MenuComponent.toggle (MenuComponent.toggle w).world).world.app.menu.map
        (fun x => x.isOpen) = some m.isOpen := by
  have h1 := toggle_app w m hm
  have hm1 : (MenuComponent.toggle w).world.app.menu = some { m with isOpen := !m.isOpen } := by
    rw [h1]
  have h2 := toggle_app _ _ hm1
  have hm2 : (MenuComponent.toggle (MenuComponent.toggle w).world).world.app.menu = some m := by
    rw [h2]; simp
  exact ⟨hm1, hm2, by rw [hm2]; rfl⟩

/-- C14 at a concrete input: the closed menu of the started sample page. -/
theorem C14_toggle_twice_witness :
    sampleQuiet.app.menu = some { isOpen := false, products := [], selectedProductId := .null }
    ∧ (MenuComponent.toggle sampleQuiet).world.app.menu.map (fun x => x.isOpen) = some true
    ∧ (MenuComponent.toggle (MenuComponent.toggle sampleQuiet).world).world.app.menu.map
        (fun x => x.isOpen) = some false :=
  ⟨by decide, by decide,
    (C14_toggle_twice_restores_isOpen sampleQuiet
      { isOpen := false, products := [], selectedProductId := .null } (by decide)).2.2⟩


/-- C17: with the menu element on the page, an outside click and an Escape
keydown each close an open menu; on a closed menu either event (and any click,
inside or outside) returns with the whole state unchanged, so `isOpen` stays
false and nothing is written to storage: neither event opens the menu. A
click inside the menu changes nothing either. -/
theorem C17_outside_click_and_escape_only_close (w : World) (m : MenuComponent)
    (event : KeyEvent) (inside : Bool) (hm : w.app.menu = some m)
    (hel : w.doc.menu.isSome = true) (hkey : event.key = "Escape") :
    (m.isOpen = true →
      (MenuComponent.onDocumentClick w false).world.app.menu = some { m with isOpen := false }
      ∧ (MenuComponent.onKeydown w event).1.world.app.menu = some { m with isOpen := false })
    ∧ (m.isOpen = false →
      MenuComponent.onDocumentClick w inside = Outcome.ok w
      ∧ MenuComponent.onKeydown w event = (Outcome.ok w, event))
    ∧ MenuComponent.onDocumentClick w true = Outcome.ok w := by
  obtain ⟨el, hel⟩ := Option.isSome_iff_exists.mp hel
  have hne : ¬ (event.key = "m") := by rw [hkey]; decide
  refine ⟨?_, ?_, ?_⟩
  · intro ho
    constructor
    · unfold MenuComponent.onDocumentClick
      rw [hm, hel]
      simp only [ho, Bool.not_false, Bool.and_self, if_true]
      rw [close_app w m hm]
    · unfold MenuComponent.onKeydown
      rw [hm]
      simp only [hkey, ho, decide_True, Bool.and_self, if_true]
      split
      · rw [close_app w m hm]
      · have : ¬ ("Escape" = "m") := by decide
        simp only [this, decide_False, Bool.false_and]
        rw [if_neg (by simp)]
        rw [close_app w m hm]
  · intro hc
    constructor
    · unfold MenuComponent.onDocumentClick
      rw [hm, hel]
      simp [hc]
    · unfold MenuComponent.onKeydown
      rw [hm]
      simp [hkey, hc]
  · unfold MenuComponent.onDocumentClick
    rw [hm, hel]
    simp

/-- C17 at a concrete input: the sample menu, opened, is closed by an outside
click, and the closed state is stored. -/
theorem C17_outside_click_witness :
    (MenuComponent.open sampleQuiet).world.app.menu
        = some { isOpen := true, products := [], selectedProductId := .null }
    ∧ (MenuComponent.open sampleQuiet).world.doc.menu.isSome = true
    ∧ (MenuComponent.onDocumentClick (MenuComponent.open sampleQuiet).world false).world.app.menu
        = some { isOpen := false, products := [], selectedProductId := .null }
    ∧ (MenuComponent.onDocumentClick (MenuComponent.open sampleQuiet).world false).world.storage
        = some (.record (some false) .null) :=
  ⟨by decide, by decide,
    ((C17_outside_click_and_escape_only_close (MenuComponent.open sampleQuiet).world
      { isOpen := true, products := [], selectedProductId := .null }
      { key := "Escape", ctrlKey := false, metaKey := false, defaultPrevented := false } false
      (by decide) (by decide) rfl).1 rfl).1,
    by decide⟩

/-! ## What a selection leaves unchanged, in general -/

/-- A projection of the state that does not read the controller record and that
the four building blocks of a selection keep is kept by both `selectProduct`
methods. -/
theorem selectProductFuel_keeps {α : Type} (π : World → α)
    (happ : ∀ (w : World) (a : TryzeApp), π { w with app := a } = π w)
    (hAR : ∀ w v, π (TryzeApp.updateARScene w v).world = π w)
    (hUP : ∀ w v, π (ProductOverlay.updateProduct w v).world = π w)
    (hUS : ∀ w v, π (MenuComponent.updateSelectedProduct w v).world = π w)
    (hSS : ∀ w m d, π (TryzeApp.showStatus w m d) = π w) (fuel : Nat) :
    (∀ w v o, TryzeApp.selectProductFuel fuel w v = some o → π o.world = π w)
    ∧ (∀ w v o, MenuComponent.selectProductFuel fuel w v = some o → π o.world = π w) := by
  induction fuel with
  | zero =>
    constructor <;> intro w v o h
    · simp [TryzeApp.selectProductFuel] at h
    · simp [MenuComponent.selectProductFuel] at h
  | succ n ih =>
    obtain ⟨ihA, ihM⟩ := ih
    constructor
    · intro w v o h
      have key : ∀ (x : Value), x.getId.isSome →
          TryzeApp.selectProductFuel (n + 1) w x = some o → π o.world = π w := by
        intro x hx hsel
        rw [selectProductFuel_succ n w x hx] at hsel
        dsimp only at hsel
        have h3 : π ((TryzeApp.updateARScene
            { w with app := { w.app with currentProduct := x } } x).andThen (fun w2 =>
             if w2.app.productOverlay.isSome then ProductOverlay.updateProduct w2 x
             else .ok w2)).world = π w := by
          rw [Outcome.andThen_keeps π _ _ (by intro y; split <;> [exact hUP _ _; rfl])]
          rw [hAR, happ]
        split at hsel
        · cases hsel; exact h3
        · split at hsel
          · cases hsel
          · rename_i o4 h4
            cases hsel
            rw [Outcome.andThen_keeps π _ _ (by intro y; exact hSS _ _ _)]
            split at h4
            · rw [ihM _ _ _ h4]; exact h3
            · cases h4; exact h3
      cases v with
      | undefined => simp only [TryzeApp.selectProductFuel] at h; cases h; rfl
      | null => simp only [TryzeApp.selectProductFuel] at h; cases h; rfl
      | num k => exact key (.num k) rfl h
      | product p => exact key (.product p) rfl h
    · intro w v o h
      rw [MenuComponent.selectProductFuel] at h
      split at h
      · cases h; rfl
      · cases h; rfl
      · rename_i m id hm hid
        have h2 : π (MenuComponent.updateSelectedProduct
            { w with app := { w.app with menu := some { m with selectedProductId := id } } }
            id).world = π w := by
          rw [hUS, happ]
        dsimp only at h
        split at h
        · cases h; exact h2
        · split at h
          · rw [ihA _ _ _ h]; exact h2
          · cases h; exact h2

/-- The same for the two methods themselves. -/
theorem selectProduct_keeps {α : Type} (π : World → α)
    (happ : ∀ (w : World) (a : TryzeApp), π { w with app := a } = π w)
    (hAR : ∀ w v, π (TryzeApp.updateARScene w v).world = π w)
    (hUP : ∀ w v, π (ProductOverlay.updateProduct w v).world = π w)
    (hUS : ∀ w v, π (MenuComponent.updateSelectedProduct w v).world = π w)
    (hSS : ∀ w m d, π (TryzeApp.showStatus w m d) = π w) (w : World) (v : Value) :
    π (TryzeApp.selectProduct w v).world = π w
    ∧ π (MenuComponent.selectProduct w v).world = π w :=
  ⟨(selectProductFuel_keeps π happ hAR hUP hUS hSS selectFuel).1 w v _ (selectProduct_eq w v),
   (selectProductFuel_keeps π happ hAR hUP hUS hSS selectFuel).2 w v _
     (menuSelectProduct_eq w v)⟩

/-- Method `updateProduct` keeps whatever its parts keep. -/
theorem updateProduct_keeps {α : Type} (π : World → α)
    (happ : ∀ (w : World) (a : TryzeApp), π { w with app := a } = π w)
    (hR : ∀ w, π (ProductOverlay.renderProductInfo w).world = π w)
    (hL : ∀ w, π (ProductOverlay.loadProductDetails w).world = π w) (w : World) (v : Value) :
    π (ProductOverlay.updateProduct w v).world = π w := by
  unfold ProductOverlay.updateProduct
  split
  · rfl
  · dsimp only
    rw [Outcome.andThen_keeps π _ _ hL, hR, happ]

/-- Method `renderProductInfo` keeps whatever its parts keep. -/
theorem renderProductInfo_keeps {α : Type} (π : World → α)
    (hT : ∀ w t b s, π (ProductOverlay.animateTextUpdate w t b s) = π w)
    (hI : ∀ w v, π (ProductOverlay.updateProductImage w v).world = π w)
    (hD : ∀ w v, π (ProductOverlay.addProductDetails w v).world = π w) (w : World) :
    π (ProductOverlay.renderProductInfo w).world = π w := by
  unfold ProductOverlay.renderProductInfo
  split
  · rfl
  · split
    · rfl
    · dsimp only
      rw [Outcome.andThen_keeps π _ _ (fun z => hD z _), hI, hT, hT, hT]

/-- Method `loadProductDetails` keeps whatever its parts keep. -/
theorem loadProductDetails_keeps {α : Type} (π : World → α)
    (hS : ∀ w, π (ProductOverlay.showLoadingState w).world = π w)
    (hT : ∀ w cb d, π (setTimeout w cb d) = π w) (w : World) :
    π (ProductOverlay.loadProductDetails w).world = π w := by
  unfold ProductOverlay.loadProductDetails
  rw [Outcome.andThen_keeps π _ _ (fun z => hT z _ _), hS]

/-- No selection touches the storage slot. -/
theorem selectProduct_storage (w : World) (v : Value) :
    (TryzeApp.selectProduct w v).world.storage = w.storage
    ∧ (MenuComponent.selectProduct w v).world.storage = w.storage := by
  refine selectProduct_keeps (fun x => x.storage) (fun _ _ => rfl) ?_ ?_ ?_ ?_ w v
  · intro x v; unfold TryzeApp.updateARScene; repeat' split
    all_goals rfl
  · intro x v
    refine updateProduct_keeps (fun x => x.storage) (fun _ _ => rfl) ?_ ?_ x v
    · refine renderProductInfo_keeps (fun x => x.storage) ?_ ?_ ?_
      · intro y t b s; unfold ProductOverlay.animateTextUpdate; repeat' split
        all_goals rfl
      · intro y u; unfold ProductOverlay.updateProductImage; repeat' split
        all_goals rfl
      · intro y u; unfold ProductOverlay.addProductDetails; repeat' split
        all_goals rfl
    · refine loadProductDetails_keeps (fun x => x.storage) ?_ (fun _ _ _ => rfl)
      intro y; unfold ProductOverlay.showLoadingState; repeat' split
      all_goals rfl
  · intro x v; unfold MenuComponent.updateSelectedProduct; repeat' split
    all_goals rfl
  · intro x m d; unfold TryzeApp.showStatus; repeat' split
    all_goals rfl

/-! ## Persistence and selection in the menu (C13, C15, C18) -/

/-- What `open()`, `close()` and `toggle()` leave in storage when they return. -/
theorem open_close_storage (w : World) (m : MenuComponent) (hm : w.app.menu = some m) :
    ((MenuComponent.open w).error = none →
      (MenuComponent.open w).world.storage = some (serialize { m with isOpen := true }))
    ∧ ((MenuComponent.close w).error = none →
      (MenuComponent.close w).world.storage = some (serialize { m with isOpen := false })) := by
  constructor
  · intro h
    unfold MenuComponent.open at h ⊢
    rw [hm] at h ⊢
    dsimp only at h ⊢
    obtain ⟨h1, e1⟩ := Outcome.andThen_of_ok h
    rw [e1] at h ⊢
    obtain ⟨h2, e2⟩ := Outcome.andThen_of_ok h
    rw [e2]
    unfold MenuComponent.saveState
    simp [(updateUI_frame _ _).1, serialize]
  · intro h
    unfold MenuComponent.close at h ⊢
    rw [hm] at h ⊢
    dsimp only at h ⊢
    obtain ⟨h1, e1⟩ := Outcome.andThen_of_ok h
    rw [e1] at h ⊢
    obtain ⟨h2, e2⟩ := Outcome.andThen_of_ok h
    rw [e2]
    unfold MenuComponent.saveState
    simp [(updateUI_frame _ _).1, serialize]

/-- C15 fails on the code: `MenuComponent.selectProduct` never calls `saveState`,
so whatever it is given it leaves the storage slot as it was, although it
changes `selectedProductId`. The other three operations do persist: when
`open()`, `close()` or `toggle()` returns, the slot holds the serialization of
the menu's current state. -/
theorem C15_select_product_does_not_persist (w : World) (v : Value) (m : MenuComponent)
    (hm : w.app.menu = some m) :
    (MenuComponent.selectProduct w v).world.storage = w.storage
    ∧ ((MenuComponent.open w).error = none →
        some (MenuComponent.open w).world.storage
          = (MenuComponent.open w).world.app.menu.map (fun x => some (serialize x)))
    ∧ ((MenuComponent.close w).error = none →
        some (MenuComponent.close w).world.storage
          = (MenuComponent.close w).world.app.menu.map (fun x => some (serialize x)))
    ∧ ((MenuComponent.toggle w).error = none →
        some (MenuComponent.toggle w).world.storage
          = (MenuComponent.toggle w).world.app.menu.map (fun x => some (serialize x))) := by
  have ho : (MenuComponent.open w).error = none →
      some (MenuComponent.open w).world.storage
        = (MenuComponent.open w).world.app.menu.map (fun x => some (serialize x)) := by
    intro h
    rw [(open_close_storage w m hm).1 h, open_app w m hm]; rfl
  have hc : (MenuComponent.close w).error = none →
      some (MenuComponent.close w).world.storage
        = (MenuComponent.close w).world.app.menu.map (fun x => some (serialize x)) := by
    intro h
    rw [(open_close_storage w m hm).2 h, close_app w m hm]; rfl
  refine ⟨(selectProduct_storage w v).2, ho, hc, ?_⟩
  unfold MenuComponent.toggle
  rw [hm]
  dsimp only
  split
  · exact hc
  · exact ho

/-- C15 at concrete inputs: on the listed sample page `open()` stores
`{ isOpen: true, selectedProductId: null }`; a following
`selectProduct(p)` with `window.tryzeApp` unset returns with
`selectedProductId = p.id` and the slot unchanged, and with `window.tryzeApp`
set leaves `selectedProductId = undefined` and the slot unchanged. -/
theorem C15_select_product_witness :
    sampleListed.app.menu = some { isOpen := false, products := products, selectedProductId := .null }
    ∧ (MenuComponent.open { sampleListed with registered := false }).error = none
    ∧ (MenuComponent.open { sampleListed with registered := false }).world.storage
        = some (.record (some true) .null)
    ∧ (∀ p ∈ products,
        (MenuComponent.selectProduct (MenuComponent.open
            { sampleListed with registered := false }).world (.product p)).error = none
        ∧ (MenuComponent.selectProduct (MenuComponent.open
            { sampleListed with registered := false }).world (.product p)).world.app.menu.map
              (fun x => serialize x) = some (.record (some true) (.num p.id))
        ∧ (MenuComponent.selectProduct (MenuComponent.open
            { sampleListed with registered := false }).world (.product p)).world.storage
              = some (.record (some true) .null))
    ∧ (∀ p ∈ products,
        (MenuComponent.selectProduct (MenuComponent.open sampleListed).world
            (.product p)).world.storage = some (.record (some true) .null)
        ∧ (MenuComponent.selectProduct (MenuComponent.open sampleListed).world
            (.product p)).world.app.menu.map (fun x => serialize x)
              = some (.record (some true) .undefined)) := by
  refine ⟨rfl, by decide, by decide, ?_, ?_⟩
  · intro p hp
    have h := (C15_select_product_does_not_persist
      (MenuComponent.open { sampleListed with registered := false }).world (.product p)
      { isOpen := true, products := products, selectedProductId := .null } rfl).1
    refine ⟨?_, ?_, ?_⟩
    · revert p; decide
    · revert p; decide
    · rw [h]; decide
  · decide


/-- C13 fails on the code: `saveState()` writes both fields, but a newly
constructed menu (`loadInitialState`) restores `isOpen` only; its
`selectedProductId` is the constructor's `null`, so an integer
`selectedProductId` does not survive the round trip. -/
theorem C13_reload_drops_selected_product (w : World) (m : MenuComponent)
    (hm : w.app.menu = some m) (hel : w.doc.menu.isSome = true) :
    (MenuComponent.saveState w).error = none
    ∧ (MenuComponent.saveState w).world.storage = some (serialize m)
    ∧ (MenuComponent.construct (MenuComponent.saveState w).world).2.isOpen = m.isOpen
    ∧ (MenuComponent.construct (MenuComponent.saveState w).world).2.selectedProductId = .null
    ∧ (∀ k : Int, m.selectedProductId = .num k →
        (MenuComponent.construct (MenuComponent.saveState w).world).2.selectedProductId
          ≠ m.selectedProductId) := by
  obtain ⟨el, hel⟩ := Option.isSome_iff_exists.mp hel
  have hs : MenuComponent.saveState w
      = Outcome.ok { w with storage := some (.record (some m.isOpen) m.selectedProductId) } := by
    unfold MenuComponent.saveState; rw [hm]
  have hc : (MenuComponent.construct
      { w with storage := some (.record (some m.isOpen) m.selectedProductId) }).2
      = { isOpen := m.isOpen, products := [], selectedProductId := .null } := by
    unfold MenuComponent.construct
    simp [hel]
  rw [hs]
  simp only [Outcome.ok_world, Outcome.ok_error, hc]
  refine ⟨trivial, rfl, trivial, trivial, ?_⟩
  intro k hk
  rw [hk]; simp

/-- C13 at a concrete input: the state `{ isOpen: true, selectedProductId: 3 }` is
stored as such and read back as `{ isOpen: true, selectedProductId: null }`. -/
theorem C13_reload_witness :
    sampleSelected.app.menu
        = some { isOpen := true, products := products, selectedProductId := .num 3 }
    ∧ sampleSelected.doc.menu.isSome = true
    ∧ (MenuComponent.saveState sampleSelected).world.storage
        = some (.record (some true) (.num 3))
    ∧ (MenuComponent.construct (MenuComponent.saveState sampleSelected).world).1.error = none
    ∧ (MenuComponent.construct (MenuComponent.saveState sampleSelected).world).2.isOpen = true
    ∧ (MenuComponent.construct (MenuComponent.saveState sampleSelected).world).2.selectedProductId
        = .null
    ∧ (MenuComponent.construct (MenuComponent.saveState sampleSelected).world).2.selectedProductId
        ≠ .num 3 :=
  ⟨rfl, by decide, by decide, by decide, by decide, by decide,
    (C13_reload_drops_selected_product sampleSelected
      { isOpen := true, products := products, selectedProductId := .num 3 } rfl
      (by decide)).2.2.2.2 3 rfl⟩

/-- C18 fails on the code: with the controller registered as `window.tryzeApp`
and its menu attached, `MenuComponent.selectProduct(p)` never returns normally,
for any product `p`: the controller's `selectProduct(p)` is called back and
calls `this.menu.selectProduct(p.id)` with a number. -/
theorem C18_menu_selection_never_completes (w : World) (p : Product)
    (hr : w.registered = true) (hm : w.app.menu.isSome = true) :
    (MenuComponent.selectProduct w (.product p)).error ≠ none := by
  have h := menuSelectProduct_eq w (.product p)
  intro hok
  generalize MenuComponent.selectProduct w (.product p) = o at h hok
  rw [show selectFuel = 5 + 1 from rfl, MenuComponent.selectProductFuel] at h
  obtain ⟨m, hm⟩ := Option.isSome_iff_exists.mp hm
  rw [hm] at h
  simp only [Value.getId] at h
  split at h
  · rename_i e he
    obtain rfl := Option.some.inj h
    rw [he] at hok; cases hok
  · rename_i he
    simp only [updateSelectedProduct_frame, hr, if_true] at h
    have := (selectProductFuel_product_ok _ _ _ _ h hok).2 (by simp)
    simp only [updateSelectedProduct_frame, hr] at this
    cases this.1

/-- C18 at concrete inputs: on the listed sample page (four entries with the
distinct ids 1 to 4), selecting any catalog product from the menu throws a
TypeError and leaves `selectedProductId = undefined`, no entry active and the
number `p.id` as the controller's current product. -/
theorem C18_menu_selection_witness :
    sampleListed.registered = true ∧ sampleListed.app.menu.isSome = true
    ∧ sampleListed.doc.productList
        = some [{ productId := 1, active := false }, { productId := 2, active := false },
                { productId := 3, active := false }, { productId := 4, active := false }]
    ∧ (∀ p ∈ products,
        (MenuComponent.selectProduct sampleListed (.product p)).error ≠ none
        ∧ (MenuComponent.selectProduct sampleListed (.product p)).error = some .typeError
        ∧ (MenuComponent.selectProduct sampleListed (.product p)).world.app.menu.map
            (fun x => x.selectedProductId) = some .undefined
        ∧ activeCount (MenuComponent.selectProduct sampleListed (.product p)).world = 0
        ∧ TryzeApp.getCurrentProduct (MenuComponent.selectProduct sampleListed
            (.product p)).world = .num p.id) := by
  refine ⟨by decide, by decide, by decide, ?_⟩
  intro p hp
  refine ⟨C18_menu_selection_never_completes sampleListed p (by decide) (by decide), ?_⟩
  revert p
  decide

/-! ## The Escape key (C20) -/

/-- What an Escape keydown does to the panel and the help modal. -/
theorem handleKeyboard_escape (w : World) (event : KeyEvent)
    (hi : w.app.isInitialized = true) (hk : event.key = "Escape") :
    (TryzeApp.handleKeyboard w event).1.app.productOverlay
        = w.app.productOverlay.map (fun o => { o with isVisible := false })
    ∧ (TryzeApp.handleKeyboard w event).1.doc.helpModal = w.doc.helpModal.map (fun _ => true)
    ∧ (TryzeApp.handleKeyboard w event).1.app.isInitialized = true
    ∧ (TryzeApp.handleKeyboard w event).2 = event := by
  unfold TryzeApp.handleKeyboard ProductOverlay.hide setTimeout
  cases hpo : w.app.productOverlay <;> cases hov : w.doc.overlay <;>
    cases hh : w.doc.helpModal <;> simp [hi, hk, hpo, hov, hh] <;>
    (rename_i b; cases b <;> simp [hi, hpo, hh])

/-- C20: on an initialized controller, handling an Escape keydown leaves the
product panel not visible (`isVisible = false`) and the help modal hidden; a
second Escape right after changes neither the panel object nor the modal's
`hidden` class; and when the panel is not visible and the modal is hidden
already, Escape changes neither. -/
theorem C20_escape_closes_and_is_idempotent (w : World) (event : KeyEvent)
    (hi : w.app.isInitialized = true) (hk : event.key = "Escape") :
    (TryzeApp.handleKeyboard w event).1.app.productOverlay.map (fun o => o.isVisible)
        = w.app.productOverlay.map (fun _ => false)
    ∧ (TryzeApp.handleKeyboard w event).1.doc.helpModal = w.doc.helpModal.map (fun _ => true)
    ∧ (TryzeApp.handleKeyboard (TryzeApp.handleKeyboard w event).1 event).1.app.productOverlay
        = (TryzeApp.handleKeyboard w event).1.app.productOverlay
    ∧ (TryzeApp.handleKeyboard (TryzeApp.handleKeyboard w event).1 event).1.doc.helpModal
        = (TryzeApp.handleKeyboard w event).1.doc.helpModal
    ∧ ((∀ o, w.app.productOverlay = some o → o.isVisible = false) →
        (∀ hidden, w.doc.helpModal = some hidden → hidden = true) →
        (TryzeApp.handleKeyboard w event).1.app.productOverlay = w.app.productOverlay
        ∧ (TryzeApp.handleKeyboard w event).1.doc.helpModal = w.doc.helpModal) := by
  obtain ⟨h1, h2, h3, _⟩ := handleKeyboard_escape w event hi hk
  obtain ⟨k1, k2, _, _⟩ := handleKeyboard_escape _ event h3 hk
  refine ⟨?_, h2, ?_, ?_, ?_⟩
  · rw [h1]; cases w.app.productOverlay <;> rfl
  · rw [k1, h1]; cases w.app.productOverlay <;> rfl
  · rw [k2, h2]; cases w.doc.helpModal <;> rfl
  · intro ho hh
    rw [h1, h2]
    constructor
    · cases hpo : w.app.productOverlay with
      | none => rfl
      | some o => have := ho o hpo; cases o; simp_all
    · cases hhm : w.doc.helpModal with
      | none => rfl
      | some b => have := hh b hhm; simp [this]

/-- C20 at a concrete input: the started sample page with the panel shown and the
help modal open. -/
theorem C20_escape_witness :
    sampleQuiet.app.isInitialized = true
    ∧ (TryzeApp.handleKeyboard (ProductOverlay.show (toggleHelp sampleQuiet)).world
        { key := "Escape", ctrlKey := false, metaKey := false,
          defaultPrevented := false }).1.app.productOverlay.map (fun o => o.isVisible)
      = some false
    ∧ (ProductOverlay.show (toggleHelp sampleQuiet)).world.app.productOverlay.map
        (fun o => o.isVisible) = some true
    ∧ (ProductOverlay.show (toggleHelp sampleQuiet)).world.doc.helpModal = some false
    ∧ (TryzeApp.handleKeyboard (ProductOverlay.show (toggleHelp sampleQuiet)).world
        { key := "Escape", ctrlKey := false, metaKey := false,
          defaultPrevented := false }).1.doc.helpModal = some true := by
  have h := C20_escape_closes_and_is_idempotent (ProductOverlay.show (toggleHelp sampleQuiet)).world
    { key := "Escape", ctrlKey := false, metaKey := false, defaultPrevented := false }
    (by decide) rfl
  refine ⟨by decide, ?_, by decide, by decide, ?_⟩
  · rw [h.1]; decide
  · rw [h.2.1]; decide

/-! ## A failing startup (C11, C12) -/

/-- A selection, from either side, neither adds nor removes the status line. -/
theorem selectProduct_statusLine (w : World) (v : Value) :
    hasStatusLine (TryzeApp.selectProduct w v).world = hasStatusLine w
    ∧ hasStatusLine (MenuComponent.selectProduct w v).world = hasStatusLine w := by
  refine selectProduct_keeps hasStatusLine (fun _ _ => rfl) ?_ ?_ ?_ ?_ w v
  · intro x v; unfold TryzeApp.updateARScene; repeat' split
    all_goals rfl
  · intro x v
    refine updateProduct_keeps hasStatusLine (fun _ _ => rfl) ?_ ?_ x v
    · refine renderProductInfo_keeps hasStatusLine ?_ ?_ ?_
      · intro y t b s; unfold ProductOverlay.animateTextUpdate; repeat' split
        all_goals rfl
      · intro y u; unfold ProductOverlay.updateProductImage; repeat' split
        all_goals rfl
      · intro y u; unfold ProductOverlay.addProductDetails; repeat' split
        all_goals rfl
    · refine loadProductDetails_keeps hasStatusLine ?_ (fun _ _ _ => rfl)
      intro y; unfold ProductOverlay.showLoadingState; repeat' split
      all_goals rfl
  · intro x v; unfold MenuComponent.updateSelectedProduct; repeat' split
    all_goals rfl
  · intro x m d; unfold TryzeApp.showStatus; repeat' split
    all_goals (first | rfl | simp_all [hasStatusLine, setTimeout])

/-- A progress update leaves the status line in place. -/
theorem updateLoadingProgress_statusLine (w : World) (x : JSNumber) :
    hasStatusLine (TryzeApp.updateLoadingProgress w x) = hasStatusLine w := by
  unfold TryzeApp.updateLoadingProgress
  dsimp only
  split <;> rfl

/-- A `loadProducts()` leaves the status line in place, whether it throws or not. -/
theorem loadProducts_statusLine (w : World) :
    hasStatusLine (TryzeApp.loadProducts w).world = hasStatusLine w := by
  have hne : products ≠ [] := by decide
  have hLP : TryzeApp.loadProducts w
      = (if ({ w with productData := some products } : World).app.menu.isSome then
          MenuComponent.loadProducts { w with productData := some products } products
        else Outcome.ok { w with productData := some products }).andThen
          (fun w2 => TryzeApp.selectProduct w2 (.product (products.head hne))) := rfl
  rw [hLP, Outcome.andThen_keeps hasStatusLine _ _ (fun z => (selectProduct_statusLine z _).1)]
  split
  · unfold MenuComponent.loadProducts MenuComponent.renderProductList
    split
    · rfl
    · dsimp only; split <;> rfl
  · rfl

/-- The menu's `updateUI` leaves the status line in place. -/
theorem updateUI_statusLine (w : World) (b : Bool) :
    hasStatusLine (MenuComponent.updateUI w b).world = hasStatusLine w := by
  unfold MenuComponent.updateUI
  split
  · rfl
  · dsimp only
    split
    · rfl
    · split <;> rfl

/-- An `initializeComponents()` leaves the status line in place, whether it throws
or not. -/
theorem initializeComponents_statusLine (w : World) :
    hasStatusLine (TryzeApp.initializeComponents w).world = hasStatusLine w := by
  unfold TryzeApp.initializeComponents
  dsimp only
  rw [Outcome.andThen_keeps hasStatusLine _ _ (by intro x; split <;> rfl)]
  rw [Outcome.andThen_keeps hasStatusLine _ _ (by intro x; split <;> [split; skip] <;> rfl)]
  rw [Outcome.andThen_keeps hasStatusLine _ _ (by intro x; split <;> rfl)]
  split
  · rw [Outcome.andThen_keeps hasStatusLine _ _ (by intro x; rfl)]
    unfold MenuComponent.construct
    dsimp only
    split
    · rfl
    · split
      · rfl
      · rfl
      · rfl
      · exact updateUI_statusLine _ _
  · rfl

/-- The `try` block of `init` leaves the status line in place, whether it throws
or not. -/
theorem initBody_statusLine (w : World) :
    hasStatusLine (TryzeApp.initBody w).world = hasStatusLine w := by
  unfold TryzeApp.initBody
  dsimp only
  rw [Outcome.andThen_keeps hasStatusLine]
  · rw [loadProducts_statusLine]; simp only [updateLoadingProgress_statusLine]
  · intro x
    rw [Outcome.andThen_keeps hasStatusLine]
    · rw [initializeComponents_statusLine, updateLoadingProgress_statusLine]
    · intro y
      show hasStatusLine (TryzeApp.updateLoadingProgress y (.fin 100)) = _
      exact updateLoadingProgress_statusLine _ _

/-- The status line of a new controller is the page's. -/
theorem construct_statusLine (doc : Document) (storage : Option StoredText) :
    hasStatusLine (TryzeApp.construct doc storage)
      = (doc.statusMessage.isSome && doc.statusText.isSome) := by
  unfold TryzeApp.construct
  dsimp only
  have h1 : ∀ x : World, hasStatusLine (TryzeApp.showLoadingScreen x) = hasStatusLine x := by
    intro x; unfold TryzeApp.showLoadingScreen; split <;> rfl
  split
  · show hasStatusLine (TryzeApp.updateLoadingProgress _ _) = _
    rw [updateLoadingProgress_statusLine, h1]; rfl
  · show hasStatusLine (TryzeApp.updateLoadingProgress _ _) = _
    rw [updateLoadingProgress_statusLine, h1]; rfl

/-- A `loadProducts()` leaves the startup flag alone, whether it throws or not. -/
theorem loadProducts_initialized (w : World) :
    (TryzeApp.loadProducts w).world.app.isInitialized = w.app.isInitialized := by
  have hne : products ≠ [] := by decide
  have hLP : TryzeApp.loadProducts w
      = (if ({ w with productData := some products } : World).app.menu.isSome then
          MenuComponent.loadProducts { w with productData := some products } products
        else Outcome.ok { w with productData := some products }).andThen
          (fun w2 => TryzeApp.selectProduct w2 (.product (products.head hne))) := rfl
  rw [hLP, Outcome.andThen_keeps (fun x => x.app.isInitialized) _ _
    (fun z => (selectProduct_setup z _).2.2.1)]
  split
  · unfold MenuComponent.loadProducts MenuComponent.renderProductList
    split
    · rfl
    · dsimp only; split <;> rfl
  · rfl

/-- A `try` block of `init` that threw did not reach `this.isInitialized = true`. -/
theorem initBody_error (w : World) (h : (TryzeApp.initBody w).error ≠ none) :
    (TryzeApp.initBody w).world.app.isInitialized = w.app.isInitialized := by
  unfold TryzeApp.initBody at h ⊢
  dsimp only at h ⊢
  cases h1 : (TryzeApp.loadProducts (TryzeApp.updateLoadingProgress
      (TryzeApp.updateLoadingProgress (TryzeApp.updateLoadingProgress w (.fin 30)) (.fin 50))
      (.fin 70))).error with
  | some e =>
    rw [Outcome.andThen_err h1]
    rw [loadProducts_initialized]
    simp [(updateLoadingProgress_app _ _).1]
  | none =>
    rw [Outcome.andThen_ok h1] at h ⊢
    cases h2 : (TryzeApp.initializeComponents (TryzeApp.updateLoadingProgress
        (TryzeApp.loadProducts (TryzeApp.updateLoadingProgress
          (TryzeApp.updateLoadingProgress (TryzeApp.updateLoadingProgress w (.fin 30)) (.fin 50))
          (.fin 70))).world (.fin 90))).error with
    | some e =>
      rw [Outcome.andThen_err h2]
      rw [(initializeComponents_keeps _).2.2, (updateLoadingProgress_app _ _).1]
      simp only []
      rw [loadProducts_initialized]
      simp [(updateLoadingProgress_app _ _).1]
    | none =>
      rw [Outcome.andThen_ok h2] at h
      exact absurd rfl h


/-- A new controller is not initialized when `init` reaches its `await`. -/
theorem construct_initialized (doc : Document) (storage : Option StoredText) :
    (TryzeApp.construct doc storage).app.isInitialized = false := by
  unfold TryzeApp.construct
  dsimp only
  split
  · simp [(updateLoadingProgress_app _ _).1, TryzeApp.fresh]
  · simp [(updateLoadingProgress_app _ _).1, TryzeApp.fresh]

/-- C11: when the `try` block of `init()` throws after the AR promise has
resolved, on any page and storage, `init()` ends in its `catch` clause: the
resulting state is exactly the state at the throw with the failure status shown
by `showStatus` (nothing propagates to the window `error` listener), and
`isInitialized` is still `false`. -/
theorem C11_failed_startup_is_caught (doc : Document) (storage : Option StoredText)
    (h : (TryzeApp.initBody
      { TryzeApp.construct doc storage with arPending := false }).error ≠ none) :
    TryzeApp.initResume (TryzeApp.construct doc storage)
      = TryzeApp.showStatus
          (TryzeApp.initBody { TryzeApp.construct doc storage with arPending := false }).world
          "Failed to initialize AR experience. Please refresh and try again." 5000
    ∧ (TryzeApp.initResume (TryzeApp.construct doc storage)).app.isInitialized = false := by
  have he : TryzeApp.initResume (TryzeApp.construct doc storage)
      = TryzeApp.showStatus
          (TryzeApp.initBody { TryzeApp.construct doc storage with arPending := false }).world
          "Failed to initialize AR experience. Please refresh and try again." 5000 := by
    unfold TryzeApp.initResume
    dsimp only
    split
    · rename_i hn; exact absurd hn h
    · rfl
  refine ⟨he, ?_⟩
  rw [he, (showStatus_frame _ _ _).1, initBody_error _ h]
  exact construct_initialized doc storage

/-- C11 at a concrete input: the sample page with `three-setup.js` loaded, where
`new ThreeSetup()` throws a TypeError inside `initializeComponents` after the
menu has been attached and the progress has reached 90. -/
theorem C11_failed_startup_witness :
    (TryzeApp.initBody
      { TryzeApp.construct samplePageWithThree none with arPending := false }).error
        = some .typeError
    ∧ sampleFailed.app.isInitialized = false
    ∧ sampleFailed.app.loadingProgress = .fin 90
    ∧ sampleFailed.app.menu.isSome = true :=
  ⟨by decide,
   (C11_failed_startup_is_caught samplePageWithThree none (by decide)).2,
   by decide, by decide⟩

/-- C12, counterexample: on the sample page with `three-setup.js` loaded the
startup fails, the failure status is shown, and an auto-dismiss timer for it is
pending at 5000 ms (behind the one at 2000 ms left by the initial selection);
once the first pending timer has fired the status line is hidden while its text is
still the failure message, and it stays so after the second: no other status
replaced it. -/
theorem C12_error_status_has_dismiss_timer :
    sampleFailed.doc.statusText
      = some "Failed to initialize AR experience. Please refresh and try again."
    ∧ sampleFailed.doc.statusMessage.map (fun sm => sm.hidden) = some false
    ∧ (pending sampleFailed .statusHide).map (fun t => t.due) = [2000, 5000]
    ∧ (fireTimers 1 sampleFailed).doc.statusText
        = some "Failed to initialize AR experience. Please refresh and try again."
    ∧ (fireTimers 1 sampleFailed).doc.statusMessage.map (fun sm => sm.hidden) = some true
    ∧ (fireTimers 2 sampleFailed).doc.statusText
        = some "Failed to initialize AR experience. Please refresh and try again."
    ∧ (fireTimers 2 sampleFailed).doc.statusMessage.map (fun sm => sm.hidden) = some true := by
  decide

/-- C12, amended: when the `try` block of `init()` throws on a page that has the
status line, the failure message is displayed (text set, `hidden` removed) with
duration 5000: exactly one timer is added to the queue, an auto-dismiss due 5000
ms later, and that callback hides the status line without throwing. The error
status is therefore not persistent. -/
theorem C12_error_status_hides_after_5000 (doc : Document) (storage : Option StoredText)
    (hm : doc.statusMessage.isSome = true) (ht : doc.statusText.isSome = true)
    (h : (TryzeApp.initBody
      { TryzeApp.construct doc storage with arPending := false }).error ≠ none) :
    (TryzeApp.initResume (TryzeApp.construct doc storage)).doc.statusText
      = some "Failed to initialize AR experience. Please refresh and try again."
    ∧ (TryzeApp.initResume (TryzeApp.construct doc storage)).doc.statusMessage.map
        (fun sm => sm.hidden) = some false
    ∧ (TryzeApp.initResume (TryzeApp.construct doc storage)).timers
        = (TryzeApp.initBody
            { TryzeApp.construct doc storage with arPending := false }).world.timers
          ++ [{ due := (TryzeApp.initResume (TryzeApp.construct doc storage)).now + 5000,
                cb := .statusHide }]
    ∧ (runCallback (TryzeApp.initResume (TryzeApp.construct doc storage))
        .statusHide).world.doc.statusMessage.map (fun sm => sm.hidden) = some true
    ∧ (runCallback (TryzeApp.initResume (TryzeApp.construct doc storage))
        .statusHide).error = none := by
  have he : TryzeApp.initResume (TryzeApp.construct doc storage)
      = TryzeApp.showStatus
          (TryzeApp.initBody { TryzeApp.construct doc storage with arPending := false }).world
          "Failed to initialize AR experience. Please refresh and try again." 5000 := by
    unfold TryzeApp.initResume
    dsimp only
    split
    · rename_i hn; exact absurd hn h
    · rfl
  have hs : hasStatusLine
      (TryzeApp.initBody { TryzeApp.construct doc storage with arPending := false }).world
        = true := by
    rw [initBody_statusLine]
    show hasStatusLine (TryzeApp.construct doc storage) = true
    rw [construct_statusLine, hm, ht]; rfl
  rw [he]
  generalize (TryzeApp.initBody
    { TryzeApp.construct doc storage with arPending := false }).world = x at hs
  unfold hasStatusLine at hs
  cases hsm : x.doc.statusMessage with
  | none => simp [hsm] at hs
  | some sm =>
    cases hst : x.doc.statusText with
    | none => simp [hst] at hs
    | some t => simp [TryzeApp.showStatus, hsm, hst, setTimeout, runCallback]

/-- C12 (amended) at a concrete input: the sample page with `three-setup.js`
loaded. -/
theorem C12_error_status_witness :
    (TryzeApp.initResume (TryzeApp.construct samplePageWithThree none)).doc.statusText
      = some "Failed to initialize AR experience. Please refresh and try again."
    ∧ (TryzeApp.initResume (TryzeApp.construct samplePageWithThree none)).timers
        = (TryzeApp.initBody
            { TryzeApp.construct samplePageWithThree none with arPending := false }).world.timers
          ++ [{ due := (TryzeApp.initResume
                  (TryzeApp.construct samplePageWithThree none)).now + 5000,
                cb := .statusHide }] :=
  have h := C12_error_status_hides_after_5000 samplePageWithThree none (by decide) (by decide)
    (by decide)
  ⟨h.1, h.2.2.1⟩

/-! ## The catalog (C25) -/

/-- No selection touches `window.productData`. -/
theorem selectProduct_productData (w : World) (v : Value) :
    (TryzeApp.selectProduct w v).world.productData = w.productData
    ∧ (MenuComponent.selectProduct w v).world.productData = w.productData := by
  refine selectProduct_keeps (fun x => x.productData) (fun _ _ => rfl) ?_ ?_ ?_ ?_ w v
  · intro x v; unfold TryzeApp.updateARScene; repeat' split
    all_goals rfl
  · intro x v
    refine updateProduct_keeps (fun x => x.productData) (fun _ _ => rfl) ?_ ?_ x v
    · refine renderProductInfo_keeps (fun x => x.productData) ?_ ?_ ?_
      · intro y t b s; unfold ProductOverlay.animateTextUpdate; repeat' split
        all_goals rfl
      · intro y u; unfold ProductOverlay.updateProductImage; repeat' split
        all_goals rfl
      · intro y u; unfold ProductOverlay.addProductDetails; repeat' split
        all_goals rfl
    · refine loadProductDetails_keeps (fun x => x.productData) ?_ (fun _ _ _ => rfl)
      intro y; unfold ProductOverlay.showLoadingState; repeat' split
      all_goals rfl
  · intro x v; unfold MenuComponent.updateSelectedProduct; repeat' split
    all_goals rfl
  · intro x m d; unfold TryzeApp.showStatus; repeat' split
    all_goals rfl

/-- The catalog that `loadProducts()` stores in `window.productData`. -/
theorem loadProducts_productData (w : World) :
    (TryzeApp.loadProducts w).world.productData = some products := by
  have hne : products ≠ [] := by decide
  have hLP : TryzeApp.loadProducts w
      = (if ({ w with productData := some products } : World).app.menu.isSome then
          MenuComponent.loadProducts { w with productData := some products } products
        else Outcome.ok { w with productData := some products }).andThen
          (fun w2 => TryzeApp.selectProduct w2 (.product (products.head hne))) := rfl
  rw [hLP, Outcome.andThen_keeps (fun x => x.productData) _ _
    (fun z => (selectProduct_productData z _).1)]
  split
  · unfold MenuComponent.loadProducts MenuComponent.renderProductList
    split
    · rfl
    · dsimp only; split <;> rfl
  · rfl

/-- C25: whatever the state, `loadProducts()` stores the same list in
`window.productData` (also when the initial selection throws); that list has
4 products with the ids 1, 2, 3, 4 in this order, pairwise distinct and
positive, every price is non-negative and every rating lies in `[0, 5]`. -/
theorem C25_catalog_is_fixed (w w2 : World) :
    (TryzeApp.loadProducts w).world.productData = some products
    ∧ (TryzeApp.loadProducts w2).world.productData = (TryzeApp.loadProducts w).world.productData
    ∧ products.length = 4
    ∧ products.map (fun p => p.id) = [1, 2, 3, 4]
    ∧ (products.map (fun p => p.id)).Nodup
    ∧ (∀ p ∈ products, 0 < p.id ∧ 0 ≤ p.price ∧ 0 ≤ p.rating ∧ p.rating ≤ 5) := by
  refine ⟨loadProducts_productData w, ?_, rfl, rfl, by decide, ?_⟩
  · rw [loadProducts_productData, loadProducts_productData]
  · intro p hp
    simp only [products, List.mem_cons, List.mem_singleton, List.not_mem_nil, or_false] at hp
    rcases hp with rfl | rfl | rfl | rfl <;> norm_num

/-! ## Orientation changes (C27) -/

/-- A burst of orientation changes only appends timers, one per event. -/
theorem run_orientationBurst (k : Nat) (w : World) :
    run w (orientationBurst k)
      = { w with timers := w.timers
            ++ List.replicate k { due := w.now + 200, cb := .orientationResize } } := by
  induction k generalizing w with
  | zero => simp [orientationBurst, run]
  | succ k ih =>
    have h : run w (orientationBurst (k + 1))
        = run (TryzeApp.handleOrientationChange w) (orientationBurst k) := rfl
    rw [h, ih]
    simp [TryzeApp.handleOrientationChange, setTimeout, List.replicate_succ]

/-- Among equal timers the first one is due first. -/
theorem popTimer_replicate (k : Nat) (t : Timer) :
    popTimer (List.replicate (k + 1) t) = some (t, List.replicate k t) := by
  induction k with
  | zero => rfl
  | succ k ih =>
    rw [List.replicate_succ, popTimer, ih]
    simp

/-- With a scene renderer attached, `k` pending resize callbacks make `k` calls of
its resize handler. -/
theorem fireTimers_resizes (k : Nat) (t : Timer) (x : World)
    (hcb : t.cb = .orientationResize) (ht : x.timers = List.replicate k t)
    (h3 : x.app.threeSetup = true) :
    (fireTimers k x).resizes = x.resizes + k ∧ (fireTimers k x).timers = [] := by
  induction k generalizing x with
  | zero => exact ⟨rfl, ht⟩
  | succ k ih =>
    have hf : fireNext x
        = { x with timers := List.replicate k t, now := Nat.max x.now t.due,
                   resizes := x.resizes + 1 } := by
      unfold fireNext
      rw [ht, popTimer_replicate]
      simp [hcb, runCallback, settle, TryzeApp.handleResize, ThreeSetup.handleResize, h3]
    have := ih (fireNext x) (by rw [hf]) (by rw [hf]; exact h3)
    refine ⟨?_, this.2⟩
    show (fireTimers k (fireNext x)).resizes = _
    rw [this.1, hf]
    simp only []
    omega

/-- C27, counterexample: three `orientationchange` events in a row on the started
sample page leave three resize callbacks pending, all due 200 ms later; with a
scene renderer attached no resize has happened when the events return, one has
happened after the first timer and three after all three have fired. -/
theorem C27_burst_of_three_resizes_three_times :
    sampleQuiet.timers = []
    ∧ (pending (run sampleQuiet (orientationBurst 3)) .orientationResize).map (fun t => t.due)
        = [sampleQuiet.now + 200, sampleQuiet.now + 200, sampleQuiet.now + 200]
    ∧ sampleWithRenderer.resizes = 0
    ∧ (run sampleWithRenderer (orientationBurst 3)).resizes = 0
    ∧ (fireTimers 1 (run sampleWithRenderer (orientationBurst 3))).resizes = 1
    ∧ (fireTimers 3 (run sampleWithRenderer (orientationBurst 3))).resizes = 3
    ∧ (fireTimers 3 (run sampleWithRenderer (orientationBurst 3))).timers = [] := by
  decide

/-- C27, amended: `handleOrientationChange()` never resizes synchronously; each
call appends one timer due 200 ms later that runs `handleResize()`, and no
timer is cancelled: after a burst of `k` events `k` such timers are pending, and
once they have fired (from a state with no other timer and with a scene
renderer attached) its resize handler has been called `k` times. -/
theorem C27_each_orientation_change_resizes_once (w : World) (k : Nat) :
    (TryzeApp.handleOrientationChange w).resizes = w.resizes
    ∧ (TryzeApp.handleOrientationChange w).timers
        = w.timers ++ [{ due := w.now + 200, cb := .orientationResize }]
    ∧ (run w (orientationBurst k)).resizes = w.resizes
    ∧ (run w (orientationBurst k)).timers
        = w.timers ++ List.replicate k { due := w.now + 200, cb := .orientationResize }
    ∧ (w.timers = [] → w.app.threeSetup = true →
        (fireTimers k (run w (orientationBurst k))).resizes = w.resizes + k
        ∧ (fireTimers k (run w (orientationBurst k))).timers = []) := by
  refine ⟨rfl, rfl, ?_, ?_, ?_⟩
  · rw [run_orientationBurst]
  · rw [run_orientationBurst]
  · intro ht h3
    have := fireTimers_resizes k { due := w.now + 200, cb := .orientationResize }
      (run w (orientationBurst k)) rfl (by rw [run_orientationBurst, ht]; rfl)
      (by rw [run_orientationBurst]; exact h3)
    rw [run_orientationBurst] at this ⊢
    exact this

/-- C27 (amended) at a concrete input: a burst of two events, two resize calls. -/
theorem C27_orientation_witness :
    (fireTimers 2 (run sampleWithRenderer (orientationBurst 2))).resizes = 2
    ∧ (fireTimers 2 (run sampleWithRenderer (orientationBurst 2))).timers = [] :=
  (C27_each_orientation_change_resizes_once sampleWithRenderer 2).2.2.2.2 (by decide) (by decide)

/-! ## The panel's hidden class (C29) -/

/-- C29 fails on the code: from any state with the panel attached, its element on
the page and no timer pending, `hide()` followed at once by `show()` leaves the
timer of `hide()` pending (`show()` does not cancel it); when it fires, no timer
is pending any more, `isVisible` is true and the element carries the `hidden`
class. -/
theorem C29_stale_hide_timer_hides_shown_panel (w : World) (o : ProductOverlay)
    (el : OverlayElement) (ho : w.app.productOverlay = some o) (hel : w.doc.overlay = some el)
    (ht : w.timers = []) :
    (ProductOverlay.hide w).error = none
    ∧ (ProductOverlay.show (ProductOverlay.hide w).world).error = none
    ∧ (ProductOverlay.show (ProductOverlay.hide w).world).world.timers
        = [{ due := w.now + 300, cb := .overlayAddHidden }]
    ∧ (ProductOverlay.show (ProductOverlay.hide w).world).world.app.productOverlay
        = some { o with isVisible := true }
    ∧ (ProductOverlay.show (ProductOverlay.hide w).world).world.doc.overlay
        = some { el with hidden := false }
    ∧ (fireNext (ProductOverlay.show (ProductOverlay.hide w).world).world).timers = []
    ∧ (fireNext (ProductOverlay.show (ProductOverlay.hide w).world).world).app.productOverlay
        = some { o with isVisible := true }
    ∧ (fireNext (ProductOverlay.show (ProductOverlay.hide w).world).world).doc.overlay
        = some { el with hidden := true } := by
  simp [ProductOverlay.hide, ProductOverlay.show, ho, hel, ht, setTimeout, fireNext, popTimer,
    runCallback, settle]

/-- C29 at a concrete input: the started sample page, whose panel element is
hidden and whose `isVisible` is false. -/
theorem C29_stale_hide_timer_witness :
    sampleQuiet.app.productOverlay = some { isVisible := false, currentProduct := .null }
    ∧ sampleQuiet.doc.overlay.map (fun e => e.hidden) = some true
    ∧ sampleQuiet.timers = []
    ∧ (fireNext (ProductOverlay.show (ProductOverlay.hide sampleQuiet).world).world).timers = []
    ∧ (fireNext (ProductOverlay.show
        (ProductOverlay.hide sampleQuiet).world).world).app.productOverlay
          = some { isVisible := true, currentProduct := .null }
    ∧ (fireNext (ProductOverlay.show
        (ProductOverlay.hide sampleQuiet).world).world).doc.overlay.map (fun e => e.hidden)
          = some true := by
  have h := C29_stale_hide_timer_hides_shown_panel sampleQuiet
    { isVisible := false, currentProduct := .null }
    { hidden := true, hasContent := true, hasDetails := true, image := none, extra := none,
      loadingNodes := 0 } (by decide) (by decide) (by decide)
  refine ⟨by decide, by decide, by decide, h.2.2.2.2.2.1, h.2.2.2.2.2.2.1, ?_⟩
  rw [h.2.2.2.2.2.2.2]; rfl

/-! ## Termination and exceptions of a selection (C28) -/

/-- An outcome that is a normal return or a TypeError. -/
theorem Outcome.andThen_typeError {o : Outcome} {f : World → Outcome}
    (ho : o.error = none ∨ o.error = some .typeError)
    (hf : ∀ x, (f x).error = none ∨ (f x).error = some .typeError) :
    (o.andThen f).error = none ∨ (o.andThen f).error = some .typeError := by
  unfold Outcome.andThen
  split
  · exact hf _
  · exact ho

/-- The only exception `updateARScene` throws is a TypeError. -/
theorem updateARScene_typeError (w : World) (v : Value) :
    (TryzeApp.updateARScene w v).error = none
    ∨ (TryzeApp.updateARScene w v).error = some .typeError := by
  unfold TryzeApp.updateARScene; repeat' split
  all_goals simp

/-- The only exception `updateProduct` throws is a TypeError. -/
theorem updateProduct_typeError (w : World) (v : Value) :
    (ProductOverlay.updateProduct w v).error = none
    ∨ (ProductOverlay.updateProduct w v).error = some .typeError := by
  unfold ProductOverlay.updateProduct
  split
  · simp
  · dsimp only
    refine Outcome.andThen_typeError ?_ ?_
    · unfold ProductOverlay.renderProductInfo
      split
      · simp
      · split
        · simp
        · dsimp only
          refine Outcome.andThen_typeError ?_ ?_
          · unfold ProductOverlay.updateProductImage; repeat' split
            all_goals simp
          · intro x; unfold ProductOverlay.addProductDetails; repeat' split
            all_goals simp
    · intro x
      unfold ProductOverlay.loadProductDetails
      refine Outcome.andThen_typeError ?_ ?_
      · unfold ProductOverlay.showLoadingState; repeat' split
        all_goals simp
      · intro y; simp

/-- The only exception `updateSelectedProduct` throws is a TypeError. -/
theorem updateSelectedProduct_typeError (w : World) (v : Value) :
    (MenuComponent.updateSelectedProduct w v).error = none
    ∨ (MenuComponent.updateSelectedProduct w v).error = some .typeError := by
  unfold MenuComponent.updateSelectedProduct; repeat' split
  all_goals simp

/-- Every exception of a selection is a TypeError. -/
theorem selectProductFuel_typeError (fuel : Nat) :
    (∀ w v o, TryzeApp.selectProductFuel fuel w v = some o →
      o.error = none ∨ o.error = some .typeError)
    ∧ (∀ w v o, MenuComponent.selectProductFuel fuel w v = some o →
      o.error = none ∨ o.error = some .typeError) := by
  induction fuel with
  | zero =>
    constructor <;> intro w v o h
    · simp [TryzeApp.selectProductFuel] at h
    · simp [MenuComponent.selectProductFuel] at h
  | succ n ih =>
    obtain ⟨ihA, ihM⟩ := ih
    constructor
    · intro w v o h
      have key : ∀ (x : Value), x.getId.isSome →
          TryzeApp.selectProductFuel (n + 1) w x = some o →
          o.error = none ∨ o.error = some .typeError := by
        intro x hx hsel
        rw [selectProductFuel_succ n w x hx] at hsel
        dsimp only at hsel
        have h3 : ((TryzeApp.updateARScene
            { w with app := { w.app with currentProduct := x } } x).andThen (fun w2 =>
             if w2.app.productOverlay.isSome then ProductOverlay.updateProduct w2 x
             else .ok w2)).error = none ∨ ((TryzeApp.updateARScene
            { w with app := { w.app with currentProduct := x } } x).andThen (fun w2 =>
             if w2.app.productOverlay.isSome then ProductOverlay.updateProduct w2 x
             else .ok w2)).error = some .typeError := by
          refine Outcome.andThen_typeError (updateARScene_typeError _ _) ?_
          intro y; split
          · exact updateProduct_typeError _ _
          · simp
        split at hsel
        · cases hsel; exact h3
        · split at hsel
          · cases hsel
          · rename_i o4 h4
            cases hsel
            refine Outcome.andThen_typeError ?_ (by intro y; simp)
            split at h4
            · exact ihM _ _ _ h4
            · cases h4; simp
      cases v with
      | undefined => simp only [TryzeApp.selectProductFuel] at h; cases h; simp
      | null => simp only [TryzeApp.selectProductFuel] at h; cases h; simp
      | num k => exact key (.num k) rfl h
      | product p => exact key (.product p) rfl h
    · intro w v o h
      rw [MenuComponent.selectProductFuel] at h
      split at h
      · cases h; simp
      · cases h; simp
      · rename_i m id hm hid
        dsimp only at h
        split at h
        · cases h; exact updateSelectedProduct_typeError _ _
        · split at h
          · exact ihA _ _ _ h
          · cases h; exact updateSelectedProduct_typeError _ _

/-- With the controller registered and a menu attached, a selection made from the
menu does not return normally. -/
theorem menuSelect_registered_throws (w : World) (p : Product)
    (hr : w.registered = true) (hm : w.app.menu.isSome = true) :
    (MenuComponent.selectProduct w (.product p)).error ≠ none := by
  have h := menuSelectProduct_eq w (.product p)
  intro hok
  generalize MenuComponent.selectProduct w (.product p) = o at h hok
  rw [show selectFuel = 5 + 1 from rfl, MenuComponent.selectProductFuel] at h
  obtain ⟨m, hm⟩ := Option.isSome_iff_exists.mp hm
  rw [hm] at h
  simp only [Value.getId] at h
  split at h
  · rename_i e he
    obtain rfl := Option.some.inj h
    rw [he] at hok; cases hok
  · rename_i he
    simp only [updateSelectedProduct_frame, hr, if_true] at h
    have := (selectProductFuel_product_ok _ _ _ _ h hok).2 (by simp)
    simp only [updateSelectedProduct_frame, hr] at this
    cases this.1

/-- C28 fails on the code: the calls between the two `selectProduct` methods do
stop (a call depth of 4 from the controller and 5 from the menu is never
exceeded, whatever the argument), but with the controller registered as
`window.tryzeApp` and a menu attached, a selection of any product `p` started
from either side ends with a TypeError instead of returning normally. -/
theorem C28_selection_ends_in_type_error (w : World) (p : Product)
    (hr : w.registered = true) (hm : w.app.menu.isSome = true) :
    (∀ n v, (TryzeApp.selectProductFuel (n + 4) w v).isSome = true
      ∧ (MenuComponent.selectProductFuel (n + 5) w v).isSome = true)
    ∧ (TryzeApp.selectProduct w (.product p)).error = some .typeError
    ∧ (MenuComponent.selectProduct w (.product p)).error = some .typeError := by
  refine ⟨fun n v => ⟨appSelect_total n w v, menuSelect_total n w v⟩, ?_, ?_⟩
  · rcases (selectProductFuel_typeError selectFuel).1 w _ _ (selectProduct_eq w (.product p))
      with h | h
    · have := (selectProductFuel_product_ok _ _ _ _ (selectProduct_eq w (.product p)) h).2 hm
      rw [hr] at this; cases this.1
    · exact h
  · rcases (selectProductFuel_typeError selectFuel).2 w _ _ (menuSelectProduct_eq w (.product p))
      with h | h
    · exact absurd h (menuSelect_registered_throws w p hr hm)
    · exact h

/-- C28 at a concrete input: the listed sample page and the first catalog product. -/
theorem C28_selection_witness :
    sampleListed.registered = true ∧ sampleListed.app.menu.isSome = true
    ∧ (TryzeApp.selectProduct sampleListed (.product (products.head (by decide)))).error
        = some .typeError
    ∧ (MenuComponent.selectProduct sampleListed (.product (products.head (by decide)))).error
        = some .typeError :=
  ⟨by decide, by decide,
    (C28_selection_ends_in_type_error sampleListed (products.head (by decide))
      (by decide) (by decide)).2.1,
    (C28_selection_ends_in_type_error sampleListed (products.head (by decide))
      (by decide) (by decide)).2.2⟩

/-! ## The current product over event sequences (C24) -/

/-- A selection never leaves `null` / `undefined` as the current product when
there was a current product before. -/
theorem selectProductFuel_nullish (fuel : Nat) :
    (∀ w v o, TryzeApp.selectProductFuel fuel w v = some o →
      w.app.currentProduct.isNullish = false → o.world.app.currentProduct.isNullish = false)
    ∧ (∀ w v o, MenuComponent.selectProductFuel fuel w v = some o →
      w.app.currentProduct.isNullish = false → o.world.app.currentProduct.isNullish = false) := by
  induction fuel with
  | zero =>
    constructor <;> intro w v o h
    · simp [TryzeApp.selectProductFuel] at h
    · simp [MenuComponent.selectProductFuel] at h
  | succ n ih =>
    obtain ⟨ihA, ihM⟩ := ih
    constructor
    · intro w v o h hw
      have key : ∀ (x : Value), x.getId.isSome → x.isNullish = false →
          TryzeApp.selectProductFuel (n + 1) w x = some o →
          o.world.app.currentProduct.isNullish = false := by
        intro x hx hxn hsel
        rw [selectProductFuel_succ n w x hx] at hsel
        dsimp only at hsel
        have h3 := (select_prefix_selection w x).1
        split at hsel
        · cases hsel; rw [h3]; exact hxn
        · split at hsel
          · cases hsel
          · rename_i o4 h4
            cases hsel
            rw [Outcome.andThen_keeps (fun y => y.app.currentProduct.isNullish) _ _
              (by intro y; simp)]
            split at h4
            · exact ihM _ _ _ h4 (by rw [h3]; exact hxn)
            · cases h4; simp only [Outcome.ok_world]; rw [h3]; exact hxn
      cases v with
      | undefined => simp only [TryzeApp.selectProductFuel] at h; cases h; exact hw
      | null => simp only [TryzeApp.selectProductFuel] at h; cases h; exact hw
      | num k => exact key (.num k) rfl rfl h
      | product p => exact key (.product p) rfl rfl h
    · intro w v o h hw
      rw [MenuComponent.selectProductFuel] at h
      split at h
      · cases h; exact hw
      · cases h; exact hw
      · rename_i m id hm hid
        dsimp only at h
        split at h
        · cases h; simp only [updateSelectedProduct_frame]; exact hw
        · split at h
          · exact ihA _ _ _ h (by simp only [updateSelectedProduct_frame]; exact hw)
          · cases h; simp only [updateSelectedProduct_frame]; exact hw

/-- The status line, the panel, the progress and the keyboard shortcuts leave the
current product alone. -/
theorem showStatus_quiet (w : World) (m : String) (d : Nat) :
    currentAndPending (TryzeApp.showStatus w m d) = currentAndPending w := by
  unfold TryzeApp.showStatus; repeat' split
  all_goals rfl

theorem hide_quiet (w : World) :
    currentAndPending (ProductOverlay.hide w).world = currentAndPending w := by
  unfold ProductOverlay.hide
  split
  · rfl
  · dsimp only; split <;> rfl

theorem show_quiet (w : World) :
    currentAndPending (ProductOverlay.show w).world = currentAndPending w := by
  unfold ProductOverlay.show
  split
  · rfl
  · dsimp only; split <;> rfl

theorem updateLoadingProgress_quiet (w : World) (x : JSNumber) :
    currentAndPending (TryzeApp.updateLoadingProgress w x) = currentAndPending w := by
  unfold TryzeApp.updateLoadingProgress
  dsimp only
  split <;> rfl

theorem settle_quiet (o : Outcome) : currentAndPending (settle o) = currentAndPending o.world := by
  unfold settle reportError
  repeat' split
  all_goals first | rfl | exact showStatus_quiet _ _ _

theorem handleKeyboard_quiet (w : World) (e : KeyEvent) :
    currentAndPending (TryzeApp.handleKeyboard w e).1 = currentAndPending w := by
  have hh : ∀ x : World, currentAndPending (if x.app.productOverlay.isSome then
      (ProductOverlay.hide x).world else x) = currentAndPending x := by
    intro x; split
    · exact hide_quiet x
    · rfl
  have hr : currentAndPending (TryzeApp.resetView w) = currentAndPending w := by
    unfold TryzeApp.resetView
    dsimp only
    rw [showStatus_quiet]
    split <;> rfl
  have hc : currentAndPending (TryzeApp.captureScreen w) = currentAndPending w := by
    unfold TryzeApp.captureScreen
    repeat' split
    all_goals rw [showStatus_quiet]
    rfl
  have ht : currentAndPending (toggleHelp w) = currentAndPending w := by
    unfold toggleHelp; split <;> rfl
  unfold TryzeApp.handleKeyboard
  split
  · rfl
  · split
    · dsimp only
      split
      · exact hh w
      · exact hh w
    · split
      · split
        · exact hr
        · rfl
      · split
        · split
          · exact hc
          · rfl
        · split
          · split
            · exact ht
            · rfl
          · rfl

theorem resolveAR_quiet (w : World) (hp : w.arPending = false) : TryzeApp.resolveAR w = w := by
  unfold TryzeApp.resolveAR
  rw [hp]; rfl

theorem runCallback_quiet (w : World) (cb : Callback) (hp : w.arPending = false) :
    currentAndPending (runCallback w cb).world = currentAndPending w := by
  cases cb with
  | arFallbackResolve =>
    show currentAndPending (TryzeApp.resolveAR w) = _
    rw [resolveAR_quiet w hp]
  | finishLoading =>
    show currentAndPending (TryzeApp.showInitialInstructions (TryzeApp.hideLoadingScreen w)) = _
    unfold TryzeApp.hideLoadingScreen
    split <;> rfl
  | instruction i => exact showStatus_quiet _ _ _
  | statusHide => rfl
  | overlayShow => exact show_quiet w
  | statusBackgroundReset => rfl
  | orientationResize =>
    show currentAndPending (TryzeApp.handleResize w) = _
    unfold TryzeApp.handleResize
    split <;> rfl
  | textUpdate t s => cases t <;> rfl
  | detailsLoaded =>
    show currentAndPending (ProductOverlay.hideLoadingState w).world = _
    unfold ProductOverlay.hideLoadingState
    split <;> rfl
  | overlayAddHidden => unfold runCallback; dsimp only; split <;> rfl

/-- Once `init` has resumed, an event that is not a selection leaves the current
product alone. -/
theorem step_quiet (w : World) (e : Event) (hp : w.arPending = false)
    (hs : ∀ v, e ≠ .select v) (hms : ∀ p, e ≠ .menuSelect p) :
    currentAndPending (step w e) = currentAndPending w := by
  cases e with
  | markerFound =>
    show currentAndPending (TryzeApp.onMarkerFound w) = _
    unfold TryzeApp.onMarkerFound TryzeApp.addMarkerFoundEffects
    dsimp only
    have h1 : ∀ x : World, currentAndPending
        (if x.app.productOverlay.isSome && x.app.currentProduct.truthy then
          setTimeout x .overlayShow 500 else x) = currentAndPending x := by
      intro x; split <;> rfl
    split
    · show currentAndPending (if _ then _ else _) = _
      rw [h1, showStatus_quiet]; rfl
    · rw [h1, showStatus_quiet]; rfl
  | markerLost =>
    show currentAndPending (TryzeApp.onMarkerLost w) = _
    unfold TryzeApp.onMarkerLost
    dsimp only
    split
    · rw [hide_quiet, showStatus_quiet]; rfl
    · rw [showStatus_quiet]; rfl
  | select v => exact absurd rfl (hs v)
  | menuSelect p => exact absurd rfl (hms p)
  | progress x => exact updateLoadingProgress_quiet w x
  | modelProgress l t =>
    show currentAndPending (ThreeSetup.onProgress w l t) = _
    unfold ThreeSetup.onProgress; dsimp only
    split
    · exact updateLoadingProgress_quiet _ _
    · rfl
  | keydown e => exact handleKeyboard_quiet w e
  | resize =>
    show currentAndPending (TryzeApp.handleResize w) = _
    unfold TryzeApp.handleResize
    split <;> rfl
  | orientationChange => rfl
  | sceneLoaded =>
    show currentAndPending (if w.doc.aframe && w.doc.arScene then TryzeApp.resolveAR w else w) = _
    rw [resolveAR_quiet w hp]; simp
  | timer =>
    show currentAndPending (fireNext w) = _
    unfold fireNext
    split
    · rfl
    · rename_i t rest _
      rw [settle_quiet]
      exact (runCallback_quiet { w with timers := rest, now := Nat.max w.now t.due } t.cb hp)

/-- One event keeps `init` resumed and keeps a current product present. -/
theorem step_present (w : World) (e : Event) (hp : w.arPending = false)
    (hc : w.app.currentProduct.isNullish = false) :
    (step w e).arPending = false ∧ (step w e).app.currentProduct.isNullish = false := by
  have hq : (∀ v, e ≠ .select v) → (∀ p, e ≠ .menuSelect p) →
      (step w e).arPending = false ∧ (step w e).app.currentProduct.isNullish = false := by
    intro hs hms
    have := step_quiet w e hp hs hms
    unfold currentAndPending at this
    simp only [Prod.mk.injEq] at this
    rw [this.1, this.2]
    exact ⟨hp, hc⟩
  have hsettle : ∀ o : Outcome, (settle o).arPending = o.world.arPending
      ∧ (settle o).app.currentProduct = o.world.app.currentProduct := by
    intro o
    have := settle_quiet o
    unfold currentAndPending at this
    simp only [Prod.mk.injEq] at this
    exact ⟨this.2, this.1⟩
  cases e with
  | select v =>
    show (settle (TryzeApp.selectProduct w v)).arPending = false
      ∧ (settle (TryzeApp.selectProduct w v)).app.currentProduct.isNullish = false
    rw [(hsettle _).1, (hsettle _).2, (selectProduct_setup w v).2.2.2.2.1]
    exact ⟨hp, (selectProductFuel_nullish selectFuel).1 w v _ (selectProduct_eq w v) hc⟩
  | menuSelect p =>
    show (settle (MenuComponent.selectProduct w (.product p))).arPending = false
      ∧ (settle (MenuComponent.selectProduct w (.product p))).app.currentProduct.isNullish = false
    rw [(hsettle _).1, (hsettle _).2, (menuSelectProduct_setup w _).2.2.2.2.1]
    exact ⟨hp, (selectProductFuel_nullish selectFuel).2 w _ _ (menuSelectProduct_eq w _) hc⟩
  | markerFound => exact hq (by intro v h; cases h) (by intro v h; cases h)
  | markerLost => exact hq (by intro v h; cases h) (by intro v h; cases h)
  | progress x => exact hq (by intro v h; cases h) (by intro v h; cases h)
  | modelProgress l t => exact hq (by intro v h; cases h) (by intro v h; cases h)
  | keydown k => exact hq (by intro v h; cases h) (by intro v h; cases h)
  | resize => exact hq (by intro v h; cases h) (by intro v h; cases h)
  | orientationChange => exact hq (by intro v h; cases h) (by intro v h; cases h)
  | sceneLoaded => exact hq (by intro v h; cases h) (by intro v h; cases h)
  | timer => exact hq (by intro v h; cases h) (by intro v h; cases h)

theorem run_present (es : List Event) (w : World) (hp : w.arPending = false)
    (hc : w.app.currentProduct.isNullish = false) :
    (run w es).arPending = false ∧ (run w es).app.currentProduct.isNullish = false := by
  induction es generalizing w with
  | nil => exact ⟨hp, hc⟩
  | cons e es ih =>
    rw [run_cons]
    exact ih _ (step_present w e hp hc).1 (step_present w e hp hc).2

/-- C24 fails on the code: once `init` has resumed and a current product is
present, no sequence of events (selections from either side, marker events,
keys, progress, resizes, timer callbacks) makes `currentProduct` `null` or
`undefined`, and an event that is not a selection leaves it unchanged; but it
does not stay a product record: on the started sample page, selecting any
catalog product `p` from the controller or from the menu leaves the number
`p.id` as `currentProduct`. -/
theorem C24_current_product_becomes_an_id (w : World) (es : List Event) (e : Event)
    (hp : w.arPending = false) (hc : w.app.currentProduct.isNullish = false) :
    (run w es).app.currentProduct.isNullish = false
    ∧ ((∀ v, e ≠ .select v) → (∀ p, e ≠ .menuSelect p) →
        (step w e).app.currentProduct = w.app.currentProduct)
    ∧ (∀ p ∈ products,
        (step sampleStarted (.select (.product p))).app.currentProduct = .num p.id
        ∧ (step sampleStarted (.menuSelect p)).app.currentProduct = .num p.id
        ∧ ∀ q : Product, (step sampleStarted (.select (.product p))).app.currentProduct
            ≠ .product q) := by
  refine ⟨(run_present es w hp hc).2, ?_, ?_⟩
  · intro hs hms
    have := step_quiet w e hp hs hms
    unfold currentAndPending at this
    simp only [Prod.mk.injEq] at this
    exact this.1
  · have h : ∀ p ∈ products,
        (step sampleStarted (.select (.product p))).app.currentProduct = .num p.id
        ∧ (step sampleStarted (.menuSelect p)).app.currentProduct = .num p.id := by
      decide
    intro p hp
    refine ⟨(h p hp).1, (h p hp).2, ?_⟩
    intro q hq
    rw [(h p hp).1] at hq
    cases hq

/-- C24 at concrete inputs: the started sample page, a sequence of events with a
failing selection, and a timer callback. -/
theorem C24_current_product_witness :
    sampleStarted.arPending = false
    ∧ sampleStarted.app.currentProduct = .product (products.head (by decide))
    ∧ (run sampleStarted [.markerFound, .timer, .select .null, .keydown
        { key := "Escape", ctrlKey := false, metaKey := false, defaultPrevented := false },
        .markerLost]).app.currentProduct.isNullish = false
    ∧ (step sampleStarted .timer).app.currentProduct = sampleStarted.app.currentProduct :=
  ⟨by decide, rfl,
    (C24_current_product_becomes_an_id sampleStarted _ .timer (by decide) (by decide)).1,
    (C24_current_product_becomes_an_id sampleStarted [] .timer (by decide) (by decide)).2.1
      (by intro v h; cases h) (by intro v h; cases h)⟩

/-! ## Startup on a page with elements missing (C23, C26) -/

/-- A selection made by the controller while no menu is attached keeps whatever
the scene update, the panel update and the status line keep. -/
theorem selectProduct_no_menu {α : Type} (π : World → α)
    (happ : ∀ (w : World) (a : TryzeApp), π { w with app := a } = π w)
    (hAR : ∀ w v, π (TryzeApp.updateARScene w v).world = π w)
    (hUP : ∀ w v, π (ProductOverlay.updateProduct w v).world = π w)
    (hSS : ∀ w m d, π (TryzeApp.showStatus w m d) = π w) (w : World) (v : Value)
    (hm : w.app.menu = none) :
    π (TryzeApp.selectProduct w v).world = π w := by
  have h := selectProduct_eq w v
  generalize TryzeApp.selectProduct w v = o at h
  have key : ∀ (x : Value), x.getId.isSome →
      TryzeApp.selectProductFuel selectFuel w x = some o → π o.world = π w := by
    intro x hx hsel
    rw [show selectFuel = 5 + 1 from rfl, selectProductFuel_succ 5 w x hx] at hsel
    dsimp only at hsel
    have h3 : π ((TryzeApp.updateARScene
        { w with app := { w.app with currentProduct := x } } x).andThen (fun w2 =>
         if w2.app.productOverlay.isSome then ProductOverlay.updateProduct w2 x
         else .ok w2)).world = π w := by
      rw [Outcome.andThen_keeps π _ _ (by intro y; split <;> [exact hUP _ _; rfl])]
      rw [hAR, happ]
    have hm3 := (select_prefix_selection w x).2
    split at hsel
    · cases hsel; exact h3
    · split at hsel
      · cases hsel
      · rename_i o4 h4
        cases hsel
        rw [Outcome.andThen_keeps π _ _ (by intro y; exact hSS _ _ _)]
        split at h4
        · rename_i hmenu
          rw [hm3, hm] at hmenu
          cases hmenu
        · cases h4; exact h3
  cases v with
  | undefined => simp only [selectFuel, TryzeApp.selectProductFuel] at h; cases h; rfl
  | null => simp only [selectFuel, TryzeApp.selectProductFuel] at h; cases h; rfl
  | num k => exact key (.num k) rfl h
  | product p => exact key (.product p) rfl h

/-- With neither a menu nor a panel attached, selecting a product returns
normally, whatever elements the page has. -/
theorem selectProduct_bare (w : World) (p : Product) (hm : w.app.menu = none)
    (ho : w.app.productOverlay = none) :
    (TryzeApp.selectProduct w (.product p)).error = none := by
  have h := selectProduct_eq w (.product p)
  generalize TryzeApp.selectProduct w (.product p) = o at h
  rw [show selectFuel = 5 + 1 from rfl, selectProductFuel_succ 5 w (.product p) rfl] at h
  dsimp only at h
  have e1 : (TryzeApp.updateARScene
      { w with app := { w.app with currentProduct := .product p } } (.product p)).error = none := by
    unfold TryzeApp.updateARScene; split <;> simp
  rw [Outcome.andThen_ok e1] at h
  simp only [updateARScene_frame, ho, hm, Option.isSome_none, Bool.false_eq_true, if_false,
    Outcome.ok_error, Outcome.ok_world] at h
  obtain rfl := Option.some.inj h
  rfl

/-- A selection made while no menu is attached leaves the page's product list
alone. -/
theorem selectProduct_no_menu_list (w : World) (v : Value) (hm : w.app.menu = none) :
    (TryzeApp.selectProduct w v).world.doc.productList = w.doc.productList := by
  refine selectProduct_no_menu (fun x => x.doc.productList) (fun _ _ => rfl) ?_ ?_ ?_ w v hm
  · intro x v; unfold TryzeApp.updateARScene; repeat' split
    all_goals rfl
  · intro x v
    refine updateProduct_keeps (fun x => x.doc.productList) (fun _ _ => rfl) ?_ ?_ x v
    · refine renderProductInfo_keeps (fun x => x.doc.productList) ?_ ?_ ?_
      · intro y t b s; unfold ProductOverlay.animateTextUpdate; repeat' split
        all_goals rfl
      · intro y u; unfold ProductOverlay.updateProductImage; repeat' split
        all_goals rfl
      · intro y u; unfold ProductOverlay.addProductDetails; repeat' split
        all_goals rfl
    · refine loadProductDetails_keeps (fun x => x.doc.productList) ?_ (fun _ _ _ => rfl)
      intro y; unfold ProductOverlay.showLoadingState; repeat' split
      all_goals rfl
  · intro x m d; unfold TryzeApp.showStatus; repeat' split
    all_goals rfl

/-- No selection changes what `initializeComponents` reads. -/
theorem selectProduct_inputs (w : World) (v : Value) :
    componentInputs (TryzeApp.selectProduct w v).world = componentInputs w := by
  refine (selectProduct_keeps componentInputs (fun _ _ => rfl) ?_ ?_ ?_ ?_ w v).1
  · intro x v; unfold TryzeApp.updateARScene; repeat' split
    all_goals rfl
  · intro x v
    refine updateProduct_keeps componentInputs (fun _ _ => rfl) ?_ ?_ x v
    · refine renderProductInfo_keeps componentInputs ?_ ?_ ?_
      · intro y t b s; unfold ProductOverlay.animateTextUpdate; repeat' split
        all_goals rfl
      · intro y u; unfold ProductOverlay.updateProductImage; repeat' split
        all_goals rfl
      · intro y u; unfold ProductOverlay.addProductDetails; repeat' split
        all_goals rfl
    · refine loadProductDetails_keeps componentInputs ?_ (fun _ _ _ => rfl)
      intro y; unfold ProductOverlay.showLoadingState; repeat' split
      all_goals rfl
  · intro x v; unfold MenuComponent.updateSelectedProduct; repeat' split
    all_goals rfl
  · intro x m d; unfold TryzeApp.showStatus; repeat' split
    all_goals rfl

/-- A progress update changes neither what `initializeComponents` reads nor the
product list nor `window.productData`. -/
theorem updateLoadingProgress_inputs (w : World) (x : JSNumber) :
    componentInputs (TryzeApp.updateLoadingProgress w x) = componentInputs w
    ∧ (TryzeApp.updateLoadingProgress w x).doc.productList = w.doc.productList
    ∧ (TryzeApp.updateLoadingProgress w x).productData = w.productData := by
  unfold TryzeApp.updateLoadingProgress
  dsimp only
  split <;> exact ⟨rfl, rfl, rfl⟩

/-- The state in which `init` resumes: nothing attached, nothing initialized. -/
theorem construct_bare (doc : Document) (storage : Option StoredText) :
    (TryzeApp.construct doc storage).app.menu = none
    ∧ (TryzeApp.construct doc storage).app.productOverlay = none
    ∧ componentInputs (TryzeApp.construct doc storage)
        = (doc.menuClass, doc.menu, doc.overlayClass, doc.arControllerClass, doc.three,
            doc.threeSetupClass, storage)
    ∧ (TryzeApp.construct doc storage).doc.productList = doc.productList := by
  have h1 : ∀ x : World, (TryzeApp.showLoadingScreen x).app = x.app
      ∧ componentInputs (TryzeApp.showLoadingScreen x) = componentInputs x
      ∧ (TryzeApp.showLoadingScreen x).doc.productList = x.doc.productList := by
    intro x; unfold TryzeApp.showLoadingScreen; split <;> exact ⟨rfl, rfl, rfl⟩
  unfold TryzeApp.construct
  dsimp only
  split
  · refine ⟨?_, ?_, ?_, ?_⟩
    · simp [(updateLoadingProgress_app _ _).1, (h1 _).1, TryzeApp.fresh]
    · simp [(updateLoadingProgress_app _ _).1, (h1 _).1, TryzeApp.fresh]
    · show componentInputs (TryzeApp.updateLoadingProgress _ _) = _
      rw [(updateLoadingProgress_inputs _ _).1, (h1 _).2.1]; rfl
    · show (TryzeApp.updateLoadingProgress _ _).doc.productList = _
      rw [(updateLoadingProgress_inputs _ _).2.1, (h1 _).2.2]
  · refine ⟨?_, ?_, ?_, ?_⟩
    · simp [(updateLoadingProgress_app _ _).1, (h1 _).1, TryzeApp.fresh]
    · simp [(updateLoadingProgress_app _ _).1, (h1 _).1, TryzeApp.fresh]
    · show componentInputs (TryzeApp.updateLoadingProgress _ _) = _
      rw [(updateLoadingProgress_inputs _ _).1, (h1 _).2.1]; rfl
    · show (TryzeApp.updateLoadingProgress _ _).doc.productList = _
      rw [(updateLoadingProgress_inputs _ _).2.1, (h1 _).2.2]

/-- At startup `loadProducts()` runs before any component is attached: it returns
normally and leaves the page's product list as it was. -/
theorem loadProducts_bare (w : World) (hm : w.app.menu = none)
    (ho : w.app.productOverlay = none) :
    (TryzeApp.loadProducts w).error = none
    ∧ (TryzeApp.loadProducts w).world.app.menu = none
    ∧ (TryzeApp.loadProducts w).world.doc.productList = w.doc.productList
    ∧ componentInputs (TryzeApp.loadProducts w).world = componentInputs w := by
  have hne : products ≠ [] := by decide
  have hLP : TryzeApp.loadProducts w
      = TryzeApp.selectProduct { w with productData := some products }
          (.product (products.head hne)) := by
    have : TryzeApp.loadProducts w
      = (if ({ w with productData := some products } : World).app.menu.isSome then
          MenuComponent.loadProducts { w with productData := some products } products
        else Outcome.ok { w with productData := some products }).andThen
          (fun w2 => TryzeApp.selectProduct w2 (.product (products.head hne))) := rfl
    rw [this]
    simp [hm, Outcome.andThen, Outcome.ok]
  rw [hLP]
  refine ⟨selectProduct_bare _ _ hm ho, ?_, ?_, ?_⟩
  · have := (selectProduct_setup { w with productData := some products }
      (.product (products.head hne))).2.2.2.2.2.1
    simp only [hm, Option.isSome_none] at this
    cases hh : (TryzeApp.selectProduct { w with productData := some products }
      (.product (products.head hne))).world.app.menu with
    | none => rfl
    | some m => rw [hh] at this; cases this
  · exact selectProduct_no_menu_list _ _ hm
  · exact selectProduct_inputs _ _


/-- With `menu.js` loaded, no stored menu state, no `three-setup.js` and `THREE`
present when `ar.js` is loaded, `initializeComponents()` throws exactly when the
`#menu` element is missing. -/
theorem initializeComponents_menu_element (x : World) (hmc : x.doc.menuClass = true)
    (h3 : x.doc.threeSetupClass = false)
    (hT : x.doc.arControllerClass = true → x.doc.three = true) (hs : x.storage = none) :
    (x.doc.menu.isSome = true → (TryzeApp.initializeComponents x).error = none)
    ∧ (x.doc.menu = none → (TryzeApp.initializeComponents x).error = some .typeError
        ∧ (TryzeApp.initializeComponents x).world.app.menu = x.app.menu) := by
  constructor
  · intro hsome
    obtain ⟨el, hel⟩ := Option.isSome_iff_exists.mp hsome
    cases hoc : x.doc.overlayClass <;> cases hac : x.doc.arControllerClass <;>
      simp [TryzeApp.initializeComponents, MenuComponent.construct, hmc, hs, h3, hel, hoc, hac,
        Outcome.andThen, Outcome.ok, Outcome.throw]
    all_goals simp [hT hac, h3]
  · intro hnone
    simp [TryzeApp.initializeComponents, MenuComponent.construct, hmc, hnone,
      Outcome.andThen, Outcome.ok, Outcome.throw]

/-- The menu that `initializeComponents()` attaches has an empty product list, and
the call leaves the page's list and `window.productData` alone. -/
theorem initializeComponents_menu (x : World) :
    (TryzeApp.initializeComponents x).world.doc.productList = x.doc.productList
    ∧ (TryzeApp.initializeComponents x).world.productData = x.productData
    ∧ ((TryzeApp.initializeComponents x).error = none → x.doc.menuClass = true →
        ∃ m, (TryzeApp.initializeComponents x).world.app.menu = some m ∧ m.products = []
          ∧ m.selectedProductId = .null) := by
  have hc : ∀ y : World, (MenuComponent.construct y).1.world.doc.productList = y.doc.productList
      ∧ (MenuComponent.construct y).1.world.productData = y.productData
      ∧ (MenuComponent.construct y).2.products = []
      ∧ (MenuComponent.construct y).2.selectedProductId = .null := by
    intro y
    unfold MenuComponent.construct
    dsimp only
    split
    · exact ⟨rfl, rfl, rfl, rfl⟩
    · split
      · exact ⟨rfl, rfl, rfl, rfl⟩
      · exact ⟨rfl, rfl, rfl, rfl⟩
      · exact ⟨rfl, rfl, rfl, rfl⟩
      · refine ⟨?_, ?_, rfl, rfl⟩
        · unfold MenuComponent.updateUI
          split
          · rfl
          · dsimp only
            split
            · rfl
            · split <;> rfl
        · unfold MenuComponent.updateUI
          split
          · rfl
          · dsimp only
            split
            · rfl
            · split <;> rfl
  have keep : ∀ {α : Type} (π : World → α), (∀ (w : World) (a : TryzeApp), π { w with app := a } = π w) →
      (∀ y, π (MenuComponent.construct y).1.world = π y) →
      π (TryzeApp.initializeComponents x).world = π x := by
    intro α π happ hcon
    unfold TryzeApp.initializeComponents
    dsimp only
    rw [Outcome.andThen_keeps π _ _ (by intro y; split <;> rfl)]
    rw [Outcome.andThen_keeps π _ _ (by intro y; split <;> [split; skip] <;> first | rfl | exact happ _ _)]
    rw [Outcome.andThen_keeps π _ _ (by intro y; split <;> first | rfl | exact happ _ _)]
    split
    · rw [Outcome.andThen_keeps π _ _ (by intro y; exact happ _ _)]
      exact hcon x
    · rfl
  refine ⟨keep (fun y => y.doc.productList) (fun _ _ => rfl) (fun y => (hc y).1),
    keep (fun y => y.productData) (fun _ _ => rfl) (fun y => (hc y).2.1), ?_⟩
  intro h hmc
  unfold TryzeApp.initializeComponents at h ⊢
  dsimp only at h ⊢
  rw [Outcome.andThen_keeps (fun y : World => y.app.menu) _ _ (by intro y; split <;> rfl)]
  rw [Outcome.andThen_keeps (fun y : World => y.app.menu) _ _
    (by intro y; split <;> [split; skip] <;> rfl)]
  rw [Outcome.andThen_keeps (fun y : World => y.app.menu) _ _ (by intro y; split <;> rfl)]
  obtain ⟨h3, _⟩ := Outcome.andThen_of_ok h
  obtain ⟨h2, _⟩ := Outcome.andThen_of_ok h3
  obtain ⟨h1, _⟩ := Outcome.andThen_of_ok h2
  rw [if_pos hmc] at h1 ⊢
  obtain ⟨_, e0⟩ := Outcome.andThen_of_ok h1
  rw [e0]
  exact ⟨_, rfl, (hc x).2.2.1, (hc x).2.2.2⟩


/-- The `try` block of `init`, reduced to its `initializeComponents()` call: the
steps before it cannot throw at startup, when nothing is attached yet. -/
theorem initBody_startup (doc : Document) (storage : Option StoredText) :
    ∃ x : World,
      componentInputs x = (doc.menuClass, doc.menu, doc.overlayClass, doc.arControllerClass,
        doc.three, doc.threeSetupClass, storage)
      ∧ x.doc.productList = doc.productList
      ∧ x.productData = some products
      ∧ x.app.menu = none
      ∧ TryzeApp.initBody { TryzeApp.construct doc storage with arPending := false }
          = (TryzeApp.initializeComponents x).andThen (fun w6 =>
              .ok { setTimeout (TryzeApp.updateLoadingProgress w6 (.fin 100)) .finishLoading 1000
                    with app := { (setTimeout (TryzeApp.updateLoadingProgress w6 (.fin 100))
                      .finishLoading 1000).app with isInitialized := true } }) := by
  obtain ⟨cm, co, ci, cl⟩ := construct_bare doc storage
  have hm3 : (TryzeApp.updateLoadingProgress (TryzeApp.updateLoadingProgress
      (TryzeApp.updateLoadingProgress { TryzeApp.construct doc storage with arPending := false }
        (.fin 30)) (.fin 50)) (.fin 70)).app.menu = none := by
    simp only [(updateLoadingProgress_app _ _).1]; exact cm
  have ho3 : (TryzeApp.updateLoadingProgress (TryzeApp.updateLoadingProgress
      (TryzeApp.updateLoadingProgress { TryzeApp.construct doc storage with arPending := false }
        (.fin 30)) (.fin 50)) (.fin 70)).app.productOverlay = none := by
    simp only [(updateLoadingProgress_app _ _).1]; exact co
  obtain ⟨le, lm, ll, li⟩ := loadProducts_bare _ hm3 ho3
  refine ⟨TryzeApp.updateLoadingProgress (TryzeApp.loadProducts (TryzeApp.updateLoadingProgress
      (TryzeApp.updateLoadingProgress (TryzeApp.updateLoadingProgress
        { TryzeApp.construct doc storage with arPending := false }
        (.fin 30)) (.fin 50)) (.fin 70))).world (.fin 90), ?_, ?_, ?_, ?_, ?_⟩
  · rw [(updateLoadingProgress_inputs _ _).1, li]
    simp only [(updateLoadingProgress_inputs _ _).1]
    exact ci
  · rw [(updateLoadingProgress_inputs _ _).2.1, ll]
    simp only [(updateLoadingProgress_inputs _ _).2.1]
    exact cl
  · rw [(updateLoadingProgress_inputs _ _).2.2, loadProducts_productData]
  · rw [(updateLoadingProgress_app _ _).1]; exact lm
  · unfold TryzeApp.initBody
    dsimp only
    rw [Outcome.andThen_ok le]

/-- C23 fails on the code: on a page with `menu.js` loaded, no stored menu state,
no `three-setup.js` and `THREE` present when `ar.js` is loaded, the startup
ends with `isInitialized = true` exactly when the `#menu` element is on the
page, whatever other elements are missing. Without `#menu` the constructor of
`MenuComponent` throws a TypeError, no menu is attached and `isInitialized`
stays false. -/
theorem C23_startup_fails_without_menu_element (doc : Document) (storage : Option StoredText)
    (hmc : doc.menuClass = true) (h3 : doc.threeSetupClass = false)
    (hT : doc.arControllerClass = true → doc.three = true) (hs : storage = none) :
    ((TryzeApp.initResume (TryzeApp.construct doc storage)).app.isInitialized = true
      ↔ doc.menu.isSome = true)
    ∧ (doc.menu = none →
        (TryzeApp.initBody { TryzeApp.construct doc storage with arPending := false }).error
          = some .typeError
        ∧ (TryzeApp.initResume (TryzeApp.construct doc storage)).app.menu = none
        ∧ (TryzeApp.initResume (TryzeApp.construct doc storage)).app.isInitialized = false) := by
  obtain ⟨x, hin, _, _, hxm, hb⟩ := initBody_startup doc storage
  unfold componentInputs at hin
  simp only [Prod.mk.injEq] at hin
  obtain ⟨i1, i2, _, i4, i5, i6, i7⟩ := hin
  obtain ⟨hyes, hno⟩ := initializeComponents_menu_element x (by rw [i1]; exact hmc)
    (by rw [i6]; exact h3) (by rw [i4, i5]; exact hT) (by rw [i7]; exact hs)
  have hfail : doc.menu = none →
      (TryzeApp.initBody { TryzeApp.construct doc storage with arPending := false }).error
        = some .typeError
      ∧ (TryzeApp.initResume (TryzeApp.construct doc storage)).app.menu = none
      ∧ (TryzeApp.initResume (TryzeApp.construct doc storage)).app.isInitialized = false := by
    intro hnone
    obtain ⟨he, hmenu⟩ := hno (by rw [i2]; exact hnone)
    have hbe : TryzeApp.initBody { TryzeApp.construct doc storage with arPending := false }
        = TryzeApp.initializeComponents x := by
      rw [hb, Outcome.andThen_err he]
    have hr : TryzeApp.initResume (TryzeApp.construct doc storage)
        = TryzeApp.showStatus (TryzeApp.initializeComponents x).world
            "Failed to initialize AR experience. Please refresh and try again." 5000 := by
      unfold TryzeApp.initResume
      dsimp only
      rw [hbe, he]
    refine ⟨by rw [hbe]; exact he, ?_, ?_⟩
    · rw [hr, (showStatus_frame _ _ _).1, hmenu, hxm]
    · rw [hr, (showStatus_frame _ _ _).1, ← hbe]
      rw [initBody_error _ (by rw [hbe, he]; simp)]
      exact construct_initialized doc storage
  refine ⟨⟨?_, ?_⟩, hfail⟩
  · intro hi
    cases hmenu : doc.menu with
    | some el => rfl
    | none =>
      rw [(hfail hmenu).2.2] at hi
      cases hi
  · intro hsome
    have hic := hyes (by rw [i2]; exact hsome)
    have hok : (TryzeApp.initBody
        { TryzeApp.construct doc storage with arPending := false }).error = none := by
      rw [hb, Outcome.andThen_ok hic]; rfl
    have hr : TryzeApp.initResume (TryzeApp.construct doc storage)
        = (TryzeApp.initBody
            { TryzeApp.construct doc storage with arPending := false }).world := by
      unfold TryzeApp.initResume
      dsimp only
      rw [hok]
    rw [hr]
    exact (initBody_ok _ hok).1

/-- C23 at concrete inputs: the sample page without `#menu` fails to start and
shows the failure status; the sample page without any of the other mount
points starts; the sample page without `#menuToggle` starts with an empty
storage slot and fails when a menu state is stored. -/
theorem C23_startup_witness :
    (TryzeApp.initResume (TryzeApp.construct samplePageWithoutMenu none)).app.isInitialized = false
    ∧ (TryzeApp.initResume (TryzeApp.construct samplePageWithoutMenu none)).app.menu = none
    ∧ (TryzeApp.initResume (TryzeApp.construct samplePageWithoutMenu none)).doc.statusText
        = some "Failed to initialize AR experience. Please refresh and try again."
    ∧ (TryzeApp.initResume (TryzeApp.construct samplePageBare none)).app.isInitialized = true
    ∧ (TryzeApp.initResume (TryzeApp.construct samplePageWithoutToggle none)).app.isInitialized
        = true
    ∧ (TryzeApp.initResume (TryzeApp.construct samplePageWithoutToggle
        (some (.record (some true) .null)))).app.isInitialized = false :=
  ⟨((C23_startup_fails_without_menu_element samplePageWithoutMenu none rfl rfl (by decide)
      rfl).2 rfl).2.2,
   ((C23_startup_fails_without_menu_element samplePageWithoutMenu none rfl rfl (by decide)
      rfl).2 rfl).2.1,
   by decide, by decide, by decide, by decide⟩

/-- C26 fails on the code: after a startup that completes on a page with `menu.js`
loaded, `window.productData` holds the 4 products, but the attached menu's
`products` list is empty (so it is not the catalog) and the page's `#productList`
is as the page delivered it: `init` runs `loadProducts()` before
`initializeComponents()` attaches the menu, and nothing hands the catalog to
the menu afterwards. -/
theorem C26_menu_is_attached_without_the_catalog (doc : Document)
    (storage : Option StoredText) (hmc : doc.menuClass = true)
    (hok : (TryzeApp.initBody
      { TryzeApp.construct doc storage with arPending := false }).error = none) :
    (TryzeApp.initResume (TryzeApp.construct doc storage)).app.isInitialized = true
    ∧ (TryzeApp.initResume (TryzeApp.construct doc storage)).productData = some products
    ∧ (∃ m, (TryzeApp.initResume (TryzeApp.construct doc storage)).app.menu = some m
        ∧ m.products = [] ∧ m.products ≠ products)
    ∧ (TryzeApp.initResume (TryzeApp.construct doc storage)).doc.productList
        = doc.productList := by
  have hr : TryzeApp.initResume (TryzeApp.construct doc storage)
      = (TryzeApp.initBody { TryzeApp.construct doc storage with arPending := false }).world := by
    unfold TryzeApp.initResume
    dsimp only
    rw [hok]
  obtain ⟨x, hin, hl, hd, _, hb⟩ := initBody_startup doc storage
  unfold componentInputs at hin
  simp only [Prod.mk.injEq] at hin
  obtain ⟨kl, kd, km⟩ := initializeComponents_menu x
  rw [hb] at hok
  obtain ⟨hic, he⟩ := Outcome.andThen_of_ok hok
  obtain ⟨m, hm, hp, _⟩ := km hic (by rw [hin.1]; exact hmc)
  have hi := (initBody_ok _ (by rw [hb]; exact hok)).1
  rw [hr, hb, he]
  rw [hb, he] at hi
  refine ⟨hi, ?_, ⟨m, ?_, hp, ?_⟩, ?_⟩
  · simp only [Outcome.ok_world]
    show (TryzeApp.updateLoadingProgress _ _).productData = _
    rw [(updateLoadingProgress_inputs _ _).2.2, kd, hd]
  · simp only [Outcome.ok_world, setTimeout_frame, (updateLoadingProgress_app _ _).1]
    exact hm
  · rw [hp]; decide
  · simp only [Outcome.ok_world]
    show (TryzeApp.updateLoadingProgress _ _).doc.productList = _
    rw [(updateLoadingProgress_inputs _ _).2.1, kl, hl]

/-- C26 at a concrete input: on the sample page the started controller has an
empty menu and an empty rendered list, also after every timer has fired. -/
theorem C26_menu_witness :
    sampleStarted.app.isInitialized = true
    ∧ sampleStarted.productData = some products
    ∧ sampleStarted.app.menu = some { isOpen := false, products := [], selectedProductId := .null }
    ∧ sampleStarted.doc.productList = some []
    ∧ (fireTimers 8 sampleStarted).timers = []
    ∧ (fireTimers 8 sampleStarted).app.menu
        = some { isOpen := false, products := [], selectedProductId := .null }
    ∧ (fireTimers 8 sampleStarted).doc.productList = some [] := by
  have h := C26_menu_is_attached_without_the_catalog samplePage none rfl (by decide)
  refine ⟨h.1, h.2.1, by decide, h.2.2.2, by decide, by decide, by decide⟩

/-! ## Swipe gestures (C16) -/

/-- The integer logarithm from the two powers that enclose a positive number. -/
theorem log_two_eq (q : ℚ) (n : ℤ) (h0 : 0 < q) (h1 : (2 : ℚ) ^ n ≤ q)
    (h2 : q < (2 : ℚ) ^ (n + 1)) : Int.log 2 q = n := by
  apply le_antisymm
  · have := (Int.lt_zpow_iff_log_lt (b := 2) (by norm_num) h0 (x := n + 1)).mp
      (by exact_mod_cast h2)
    omega
  · exact (Int.zpow_le_iff_le_log (b := 2) (by norm_num) h0).mp (by exact_mod_cast h1)

/-- An integer is its own rounding. -/
theorem roundHalfEven_intCast (z : ℤ) : roundHalfEven (z : ℚ) = z := by
  unfold roundHalfEven
  simp

/-- The difference of two integers below `2^53` in magnitude is a double, so the
subtraction returns it unchanged. -/
theorem roundDouble_intCast (z : ℤ) (hz : |z| < 2 ^ 53) : roundDouble (z : ℚ) = z := by
  unfold roundDouble
  by_cases h0 : z = 0
  · simp [h0]
  · have hq0 : (z : ℚ) ≠ 0 := by exact_mod_cast h0
    rw [if_neg hq0]
    have habs : (0 : ℚ) < |(z : ℚ)| := abs_pos.mpr hq0
    have h53 : |(z : ℚ)| < (2 : ℚ) ^ (53 : ℕ) := by
      have : ((|z| : ℤ) : ℚ) < ((2 ^ 53 : ℤ) : ℚ) := Int.cast_lt.mpr hz
      rw [Int.cast_abs] at this
      push_cast at this
      exact this
    have hlt : |(z : ℚ)| < (2 : ℚ) ^ (53 : ℤ) := by
      rw [show (53 : ℤ) = ((53 : ℕ) : ℤ) from rfl, zpow_natCast]
      exact h53
    have hlog : Int.log 2 |(z : ℚ)| < 53 :=
      (Int.lt_zpow_iff_log_lt (b := 2) (by norm_num) habs).mp (by exact_mod_cast hlt)
    have hge : (0 : ℤ) ≤ Int.log 2 |(z : ℚ)| := by
      refine (Int.zpow_le_iff_le_log (b := 2) (by norm_num) habs).mp ?_
      have h1 : (1 : ℤ) ≤ |z| := Int.one_le_abs h0
      have : ((1 : ℤ) : ℚ) ≤ ((|z| : ℤ) : ℚ) := by exact_mod_cast h1
      rw [Int.cast_abs] at this
      simpa using this
    obtain ⟨k, hk⟩ : ∃ k : ℕ, doubleQuantum (z : ℚ) = -(k : ℤ) := by
      refine ⟨(-doubleQuantum (z : ℚ)).toNat, ?_⟩
      have : doubleQuantum (z : ℚ) ≤ 0 := by
        unfold doubleQuantum
        exact max_le (by omega) (by norm_num)
      rw [Int.toNat_of_nonneg (by omega)]
      ring
    simp only [hk]
    have hdiv : (z : ℚ) / (2 : ℚ) ^ (-(k : ℤ)) = ((z * 2 ^ k : ℤ) : ℚ) := by
      rw [zpow_neg, zpow_natCast]
      push_cast
      field_simp
    rw [hdiv, roundHalfEven_intCast]
    have hval : ((z * 2 ^ k : ℤ) : ℚ) * (2 : ℚ) ^ (-(k : ℤ)) = (z : ℚ) := by
      rw [zpow_neg, zpow_natCast]
      push_cast
      field_simp
    rw [hval]
    have hb : |(z : ℚ)| < 2 ^ 1024 :=
      lt_trans h53 (pow_lt_pow_right₀ (by norm_num) (by norm_num))
    have hb2 := abs_lt.mp hb
    rw [if_neg (not_le.mpr hb2.2), if_neg (not_le.mpr hb2.1)]

/-- The difference `223.8 - 73.8` of doubles is the double 150. -/
theorem roundDouble_example_y :
    roundDouble ((3937131236740301 / 2 ^ 44 : ℚ) - 5193213320311603 / 2 ^ 46) = 150 := by
  have hpos : (0 : ℚ) < (3937131236740301 / 2 ^ 44 : ℚ) - 5193213320311603 / 2 ^ 46 := by norm_num
  have hq : doubleQuantum ((3937131236740301 / 2 ^ 44 : ℚ) - 5193213320311603 / 2 ^ 46)
      = -45 := by
    unfold doubleQuantum
    rw [abs_of_pos hpos, log_two_eq _ 7 hpos (by norm_num) (by norm_num)]
    norm_num
  have hr : roundHalfEven (((3937131236740301 / 2 ^ 44 : ℚ) - 5193213320311603 / 2 ^ 46)
      / 2 ^ (-45 : ℤ)) = 5277655813324800 := by
    unfold roundHalfEven
    have hf : ⌊((3937131236740301 / 2 ^ 44 : ℚ) - 5193213320311603 / 2 ^ 46) / 2 ^ (-45 : ℤ)⌋
        = 5277655813324800 := by
      rw [Int.floor_eq_iff]
      norm_num [zpow_neg]
    simp only [hf]
    norm_num [zpow_neg]
  unfold roundDouble
  rw [if_neg (ne_of_gt hpos)]
  simp only [hq, hr]
  norm_num [zpow_neg]

/-- The difference `270.5 - 120.5` of doubles is the double 150. -/
theorem roundDouble_example_x : roundDouble ((541 / 2 : ℚ) - 241 / 2) = 150 := by
  have h := roundDouble_intCast 150 (by norm_num)
  have e : ((541 / 2 : ℚ) - 241 / 2) = ((150 : ℤ) : ℚ) := by norm_num
  rw [e, h]; norm_num

/-- C16, counterexample: the touch from `(270.5, 223.8)` to `(120.5, 73.8)`, the
coordinates being the doubles nearest to these decimals. The exact differences
satisfy `|deltaY| > |deltaX|`, `|deltaY| > 50` and `deltaY > 0` (the exact
`deltaY` is `150 + 2^-46`, `deltaX` is 150), yet on the open menu of the sample
page the listener returns with the whole state unchanged: the menu stays open
and nothing is written, because the subtraction of doubles gives 150 for both. -/
theorem C16_rounded_difference_ignores_swipe :
    |(3937131236740301 / 2 ^ 44 : ℚ) - 5193213320311603 / 2 ^ 46| > |(541 / 2 : ℚ) - 241 / 2|
    ∧ |(3937131236740301 / 2 ^ 44 : ℚ) - 5193213320311603 / 2 ^ 46| > 50
    ∧ (3937131236740301 / 2 ^ 44 : ℚ) - 5193213320311603 / 2 ^ 46 > 0
    ∧ (MenuComponent.open sampleQuiet).world.app.menu
        = some { isOpen := true, products := [], selectedProductId := .null }
    ∧ MenuComponent.onTouchEnd (MenuComponent.open sampleQuiet).world
        (541 / 2) (3937131236740301 / 2 ^ 44) (241 / 2) (5193213320311603 / 2 ^ 46)
        = Outcome.ok (MenuComponent.open sampleQuiet).world := by
  refine ⟨?_, ?_, by norm_num, by decide, ?_⟩
  · rw [abs_of_pos (by norm_num), abs_of_pos (by norm_num)]; norm_num
  · rw [abs_of_pos (by norm_num)]; norm_num
  · unfold MenuComponent.onTouchEnd
    simp only [roundDouble_example_y, roundDouble_example_x]
    norm_num

/-- C16, amended: for every touch gesture, with `deltaY` and `deltaX` the
differences `startY - endY` and `startX - endX` as double arithmetic returns
them: when `|deltaY| > |deltaX|` and `|deltaY| > 50` the menu ends closed for
`deltaY > 0` and open for `deltaY < 0`; otherwise the listener returns with the
whole state, `isOpen` and the storage slot included, unchanged. For integer
coordinates whose difference is below `2^53` in magnitude the differences are
exact. -/
theorem C16_swipe_gesture_in_doubles (w : World) (m : MenuComponent)
    (startX startY endX endY : ℚ) (hm : w.app.menu = some m) :
    (|roundDouble (startY - endY)| > |roundDouble (startX - endX)| →
      |roundDouble (startY - endY)| > 50 → roundDouble (startY - endY) > 0 →
      (MenuComponent.onTouchEnd w startX startY endX endY).world.app.menu
        = some { m with isOpen := false })
    ∧ (|roundDouble (startY - endY)| > |roundDouble (startX - endX)| →
      |roundDouble (startY - endY)| > 50 → roundDouble (startY - endY) < 0 →
      (MenuComponent.onTouchEnd w startX startY endX endY).world.app.menu
        = some { m with isOpen := true })
    ∧ (¬ (|roundDouble (startY - endY)| > |roundDouble (startX - endX)|
          ∧ |roundDouble (startY - endY)| > 50) →
      MenuComponent.onTouchEnd w startX startY endX endY = Outcome.ok w)
    ∧ (∀ a b : ℤ, |a - b| < 2 ^ 53 → roundDouble ((a : ℚ) - (b : ℚ)) = (a : ℚ) - (b : ℚ)) := by
  refine ⟨?_, ?_, ?_, ?_⟩
  · intro h1 h2 h3
    unfold MenuComponent.onTouchEnd
    dsimp only
    rw [if_pos ⟨h1, h2⟩, if_pos h3, close_app w m hm]
  · intro h1 h2 h3
    unfold MenuComponent.onTouchEnd
    dsimp only
    rw [if_pos ⟨h1, h2⟩, if_neg (not_lt.mpr (le_of_lt h3)), open_app w m hm]
  · intro h
    unfold MenuComponent.onTouchEnd
    dsimp only
    rw [if_neg h]
  · intro a b hab
    have := roundDouble_intCast (a - b) hab
    push_cast at this
    exact this

/-- C16 (amended) at a concrete input: a swipe down by 100 px opens the closed
menu. -/
theorem C16_swipe_gesture_witness :
    sampleQuiet.app.menu = some { isOpen := false, products := [], selectedProductId := .null }
    ∧ roundDouble ((100 : ℚ) - 200) = -100
    ∧ roundDouble ((10 : ℚ) - 20) = -10
    ∧ (MenuComponent.onTouchEnd sampleQuiet 10 100 20 200).world.app.menu
        = some { isOpen := true, products := [], selectedProductId := .null } := by
  have hy : roundDouble ((100 : ℚ) - 200) = -100 := by
    have := roundDouble_intCast (-100) (by norm_num)
    have e : ((100 : ℚ) - 200) = ((-100 : ℤ) : ℚ) := by norm_num
    rw [e, this]; norm_num
  have hx : roundDouble ((10 : ℚ) - 20) = -10 := by
    have := roundDouble_intCast (-10) (by norm_num)
    have e : ((10 : ℚ) - 20) = ((-10 : ℤ) : ℚ) := by norm_num
    rw [e, this]; norm_num
  exact ⟨by decide, hy, hx,
    (C16_swipe_gesture_in_doubles sampleQuiet
      { isOpen := false, products := [], selectedProductId := .null }
      10 100 20 200 (by decide)).2.1 (by rw [hy, hx]; norm_num) (by rw [hy]; norm_num)
      (by rw [hy]; norm_num)⟩

/-! ## Keyboard shortcuts: what the handlers do (C19) -/

/-- What `resetView()` does: the box of the product entity gets the default
rotation, position and scale, and the status line shows the confirmation with
a 2000 ms timer. -/
theorem resetView_effect (w : World) :
    (TryzeApp.resetView w).doc.productEntity
      = w.doc.productEntity.map (fun e => { e with box := e.box.map (fun b =>
          { b with rotation := "0 0 0", position := "0 0.5 0", scale := "0.5 0.5 0.5" }) })
    ∧ (hasStatusLine w = true →
        (TryzeApp.resetView w).doc.statusText = some "View reset to default position"
        ∧ (TryzeApp.resetView w).doc.statusMessage.map (fun sm => sm.hidden) = some false
        ∧ (TryzeApp.resetView w).timers
            = w.timers ++ [{ due := w.now + 2000, cb := .statusHide }]) := by
  unfold TryzeApp.resetView hasStatusLine
  cases hpe : w.doc.productEntity <;> cases hsm : w.doc.statusMessage <;>
    cases hst : w.doc.statusText <;>
    simp [TryzeApp.showStatus, setTimeout, hpe, hsm, hst]

/-- What `captureScreen()` does: with a canvas whose `toDataURL` works, one
download is started and confirmed; without a canvas, or when `toDataURL`
throws, nothing is downloaded and the status line says so. -/
theorem captureScreen_effect (w : World) :
    (w.doc.canvas = some false →
      (TryzeApp.captureScreen w).downloads = w.downloads ++ [w.now]
      ∧ (hasStatusLine w = true →
          (TryzeApp.captureScreen w).doc.statusText = some "Screenshot saved successfully! 📸"))
    ∧ (w.doc.canvas = none →
      (TryzeApp.captureScreen w).downloads = w.downloads
      ∧ (hasStatusLine w = true →
          (TryzeApp.captureScreen w).doc.statusText = some "Unable to capture screenshot"))
    ∧ (w.doc.canvas = some true →
      (TryzeApp.captureScreen w).downloads = w.downloads
      ∧ (hasStatusLine w = true →
          (TryzeApp.captureScreen w).doc.statusText
            = some "Screenshot failed. Please try again.")) := by
  unfold TryzeApp.captureScreen hasStatusLine
  refine ⟨?_, ?_, ?_⟩ <;> intro hc <;>
    cases hsm : w.doc.statusMessage <;> cases hst : w.doc.statusText <;>
    simp [TryzeApp.showStatus, setTimeout, hc, hsm, hst]

/-- C19: on an initialized controller, a keydown of r/R, s/S or h/H with
`ctrlKey` or `metaKey` set calls `preventDefault` on the event and performs
`resetView`, `captureScreen`, or a toggle of the help modal's `hidden` class,
respectively: after Ctrl/Meta+R the box of the product entity has the default
rotation, position and scale and the status line confirms with a 2000 ms
timer; after Ctrl/Meta+S one download is started when the canvas can be read,
and none when there is no canvas or `toDataURL` throws, the status line saying
which; after Ctrl/Meta+H the modal's `hidden` class is flipped. With neither
modifier set the handler returns with the state and the event unchanged (no
action, no `preventDefault`). -/
theorem C19_modifier_shortcuts (w : World) (event : KeyEvent)
    (hi : w.app.isInitialized = true) :
    ((event.key = "r" ∨ event.key = "R") → (event.ctrlKey = true ∨ event.metaKey = true) →
      TryzeApp.handleKeyboard w event
        = (TryzeApp.resetView w, { event with defaultPrevented := true })
      ∧ (TryzeApp.handleKeyboard w event).2.defaultPrevented = true
      ∧ (TryzeApp.handleKeyboard w event).1.doc.productEntity
          = w.doc.productEntity.map (fun e => { e with box := e.box.map (fun b =>
              { b with rotation := "0 0 0", position := "0 0.5 0", scale := "0.5 0.5 0.5" }) })
      ∧ (hasStatusLine w = true →
          (TryzeApp.handleKeyboard w event).1.doc.statusText
            = some "View reset to default position"
          ∧ (TryzeApp.handleKeyboard w event).1.timers
              = w.timers ++ [{ due := w.now + 2000, cb := .statusHide }]))
    ∧ ((event.key = "s" ∨ event.key = "S") → (event.ctrlKey = true ∨ event.metaKey = true) →
      TryzeApp.handleKeyboard w event
        = (TryzeApp.captureScreen w, { event with defaultPrevented := true })
      ∧ (TryzeApp.handleKeyboard w event).2.defaultPrevented = true
      ∧ (w.doc.canvas = some false →
          (TryzeApp.handleKeyboard w event).1.downloads = w.downloads ++ [w.now]
          ∧ (hasStatusLine w = true →
              (TryzeApp.handleKeyboard w event).1.doc.statusText
                = some "Screenshot saved successfully! 📸"))
      ∧ (w.doc.canvas = none →
          (TryzeApp.handleKeyboard w event).1.downloads = w.downloads
          ∧ (hasStatusLine w = true →
              (TryzeApp.handleKeyboard w event).1.doc.statusText
                = some "Unable to capture screenshot"))
      ∧ (w.doc.canvas = some true →
          (TryzeApp.handleKeyboard w event).1.downloads = w.downloads
          ∧ (hasStatusLine w = true →
              (TryzeApp.handleKeyboard w event).1.doc.statusText
                = some "Screenshot failed. Please try again.")))
    ∧ ((event.key = "h" ∨ event.key = "H") → (event.ctrlKey = true ∨ event.metaKey = true) →
      TryzeApp.handleKeyboard w event = (toggleHelp w, { event with defaultPrevented := true })
      ∧ (toggleHelp w).doc.helpModal = w.doc.helpModal.map (fun hidden => !hidden))
    ∧ ((event.key = "r" ∨ event.key = "R" ∨ event.key = "s" ∨ event.key = "S"
          ∨ event.key = "h" ∨ event.key = "H") →
        event.ctrlKey = false → event.metaKey = false →
      TryzeApp.handleKeyboard w event = (w, event)) := by
  refine ⟨?_, ?_, ?_, ?_⟩
  · intro hk hmod
    have hm : (event.ctrlKey || event.metaKey) = true := by
      rcases hmod with h | h <;> simp [h]
    have he : TryzeApp.handleKeyboard w event
        = (TryzeApp.resetView w, { event with defaultPrevented := true }) := by
      unfold TryzeApp.handleKeyboard
      rcases hk with h | h <;> simp [hi, h, hm]
    obtain ⟨h1, h2⟩ := resetView_effect w
    rw [he]
    exact ⟨rfl, rfl, h1, fun hs => ⟨(h2 hs).1, (h2 hs).2.2⟩⟩
  · intro hk hmod
    have hm : (event.ctrlKey || event.metaKey) = true := by
      rcases hmod with h | h <;> simp [h]
    have he : TryzeApp.handleKeyboard w event
        = (TryzeApp.captureScreen w, { event with defaultPrevented := true }) := by
      unfold TryzeApp.handleKeyboard
      rcases hk with h | h <;> simp [hi, h, hm]
    obtain ⟨h1, h2, h3⟩ := captureScreen_effect w
    rw [he]
    exact ⟨rfl, rfl, h1, h2, h3⟩
  · intro hk hmod
    have hm : (event.ctrlKey || event.metaKey) = true := by
      rcases hmod with h | h <;> simp [h]
    constructor
    · unfold TryzeApp.handleKeyboard
      rcases hk with h | h <;> simp [hi, h, hm]
    · unfold toggleHelp
      split <;> simp [*]
  · intro hk hc hm
    unfold TryzeApp.handleKeyboard
    rcases hk with h | h | h | h | h | h <;> simp [hi, h, hc, hm]

/-- C19 at concrete inputs on the started sample page: Ctrl+R turns the box's
rotation from `0 45 0` to `0 0 0`, Meta+S starts one download, Ctrl+H shows
the help modal, and a plain `s` does nothing. -/
theorem C19_modifier_shortcuts_witness :
    sampleQuiet.app.isInitialized = true
    ∧ sampleQuiet.doc.productEntity.map (fun e => e.box.map (fun b => b.rotation))
        = some (some "0 45 0")
    ∧ (TryzeApp.handleKeyboard sampleQuiet
        { key := "r", ctrlKey := true, metaKey := false, defaultPrevented := false }
        ).1.doc.productEntity.map (fun e => e.box.map (fun b => b.rotation))
          = some (some "0 0 0")
    ∧ (TryzeApp.handleKeyboard sampleQuiet
        { key := "r", ctrlKey := true, metaKey := false, defaultPrevented := false }
        ).1.doc.statusText = some "View reset to default position"
    ∧ sampleQuiet.downloads = []
    ∧ (TryzeApp.handleKeyboard sampleQuiet
        { key := "S", ctrlKey := false, metaKey := true, defaultPrevented := false }
        ).1.downloads = [sampleQuiet.now]
    ∧ (TryzeApp.handleKeyboard sampleQuiet
        { key := "S", ctrlKey := false, metaKey := true, defaultPrevented := false }
        ).2.defaultPrevented = true
    ∧ TryzeApp.handleKeyboard sampleQuiet
        { key := "h", ctrlKey := true, metaKey := false, defaultPrevented := false }
      = (toggleHelp sampleQuiet,
          { key := "h", ctrlKey := true, metaKey := false, defaultPrevented := true })
    ∧ (toggleHelp sampleQuiet).doc.helpModal = some false
    ∧ TryzeApp.handleKeyboard sampleQuiet
        { key := "s", ctrlKey := false, metaKey := false, defaultPrevented := false }
      = (sampleQuiet, { key := "s", ctrlKey := false, metaKey := false, defaultPrevented := false }) :=
  ⟨by decide, by decide, by decide,
    (((C19_modifier_shortcuts sampleQuiet
      { key := "r", ctrlKey := true, metaKey := false, defaultPrevented := false }
      (by decide)).1 (Or.inl rfl) (Or.inl rfl)).2.2.2 (by decide)).1,
    by decide,
    (((C19_modifier_shortcuts sampleQuiet
      { key := "S", ctrlKey := false, metaKey := true, defaultPrevented := false }
      (by decide)).2.1 (Or.inr rfl) (Or.inr rfl)).2.2.1 (by decide)).1,
    ((C19_modifier_shortcuts sampleQuiet
      { key := "S", ctrlKey := false, metaKey := true, defaultPrevented := false }
      (by decide)).2.1 (Or.inr rfl) (Or.inr rfl)).2.1,
    ((C19_modifier_shortcuts sampleQuiet
      { key := "h", ctrlKey := true, metaKey := false, defaultPrevented := false }
      (by decide)).2.2.1 (Or.inl rfl) (Or.inl rfl)).1,
    by decide,
    (C19_modifier_shortcuts sampleQuiet
      { key := "s", ctrlKey := false, metaKey := false, defaultPrevented := false }
      (by decide)).2.2.2 (Or.inr (Or.inr (Or.inl rfl))) rfl rfl⟩

/-! ## The query surface (C21) -/

/-- C21, counterexample: on the started page without `menu.js`, after
`selectProduct(p)` for a product `p` whose name is the empty string,
`getCurrentProduct()` is `p` but `getAppStatus().currentProduct` is `'None'`,
not the current product's name. -/
theorem C21_empty_name_reads_none :
    sampleUnnamed.app.isInitialized = true
    ∧ TryzeApp.getCurrentProduct sampleUnnamed = .product unnamedProduct
    ∧ unnamedProduct.name = ""
    ∧ (TryzeApp.getAppStatus sampleUnnamed).currentProduct = "None"
    ∧ (TryzeApp.getAppStatus sampleUnnamed).currentProduct ≠ unnamedProduct.name := by
  refine ⟨by decide, rfl, rfl, by decide, by decide⟩

/-- C21, amended: in every state each of the three query methods returns with the
state unchanged; `getCurrentProduct()` returns `currentProduct`,
`isMarkerCurrentlyVisible()` returns `isMarkerVisible`, and `getAppStatus()`
returns `initialized = isInitialized`, `markerVisible = isMarkerVisible`,
`loadingProgress = loadingProgress` and, as `currentProduct`, the name of the
current product when that name is not empty and `'None'` in every other case.
All catalog names are non-empty. -/
theorem C21_queries_are_read_only (w : World) (q : Query) :
    (TryzeApp.query w q).2 = w
    ∧ (TryzeApp.query w .getCurrentProduct).1 = .value w.app.currentProduct
    ∧ (TryzeApp.query w .isMarkerCurrentlyVisible).1 = .flag w.app.isMarkerVisible
    ∧ (TryzeApp.query w .getAppStatus).1
        = .status
            { initialized := w.app.isInitialized,
              markerVisible := w.app.isMarkerVisible,
              currentProduct :=
                match w.app.currentProduct with
                | .product p => if p.name = "" then "None" else p.name
                | _ => "None",
              loadingProgress := w.app.loadingProgress }
    ∧ (∀ p ∈ products, p.name ≠ "") := by
  refine ⟨by cases q <;> rfl, rfl, rfl, ?_, by decide⟩
  show Answer.status (TryzeApp.getAppStatus w) = _
  unfold TryzeApp.getAppStatus
  cases hc : w.app.currentProduct <;> simp [Value.optName, orDefault]

/-- C21 (amended) at concrete inputs: the status snapshot of the started sample
page, and of the sample page before `init` has resumed. -/
theorem C21_queries_witness :
    (TryzeApp.query sampleStarted .getAppStatus).2 = sampleStarted
    ∧ (TryzeApp.query sampleStarted .getAppStatus).1
        = .status { initialized := true, markerVisible := false,
                    currentProduct := "Modern Office Chair", loadingProgress := .fin 100 }
    ∧ (TryzeApp.query (TryzeApp.construct samplePage none) .getAppStatus).1
        = .status { initialized := false, markerVisible := false,
                    currentProduct := "None", loadingProgress := .fin 10 } := by
  refine ⟨(C21_queries_are_read_only sampleStarted .getAppStatus).1, ?_, ?_⟩
  · decide
  · decide

/-! ## Sharing (C22) -/

/-- C22, counterexample: with `navigator.share` available, `shareProduct()` on a
panel that holds a catalog product calls `navigator.share` and puts no toast on
the page, whatever the clipboard would do; and without `navigator.share`, when
the promise of `clipboard.writeText` is rejected, no toast is shown either. -/
theorem C22_platform_share_shows_no_confirmation :
    (∀ p ∈ products, ∀ fulfilled,
      (ProductOverlay.shareProduct { isVisible := true, currentProduct := .product p }
        { share := true, clipboard := fulfilled, href := "https://tryze.example/" }).shared
          = [{ title := some p.name, text := some p.description,
               url := "https://tryze.example/" }]
      ∧ (ProductOverlay.shareProduct { isVisible := true, currentProduct := .product p }
        { share := true, clipboard := fulfilled, href := "https://tryze.example/" }).toasts = [])
    ∧ (∀ p ∈ products,
      (ProductOverlay.shareProduct { isVisible := true, currentProduct := .product p }
        { share := false, clipboard := some false, href := "https://tryze.example/" }).toasts
          = []) := by
  constructor
  · intro p _ f
    exact ⟨rfl, rfl⟩
  · intro p _
    rfl

/-- C22, amended: for a panel whose current product is the product `p`,
`shareProduct()` calls `navigator.share({title: p.name, text: p.description,
url: location.href})` when `navigator.share` is defined, writing nothing to the
clipboard and showing no toast; otherwise, where `navigator.clipboard` is
available, it calls `clipboard.writeText` with `Check out <name>: <url>` and
shows the toast `Link copied to clipboard!` (removed after 3000 ms) only when
that promise is fulfilled. With no current product it does nothing. (Where
neither `navigator.share` nor `navigator.clipboard` exists, the read of
`navigator.clipboard.writeText` throws a TypeError and nothing is written.) -/
theorem C22_share_or_copy (o : ProductOverlay) (nav : Navigator) (p : Product)
    (hp : o.currentProduct = .product p) :
    (nav.share = true →
      ProductOverlay.shareProduct o nav
        = { shared := [{ title := some p.name, text := some p.description, url := nav.href }],
            written := [], toasts := [], error := none })
    ∧ (nav.share = false → nav.clipboard = some true →
      ProductOverlay.shareProduct o nav
        = { shared := [], written := ["Check out " ++ p.name ++ ": " ++ nav.href],
            toasts := [("Link copied to clipboard!", 3000)], error := none })
    ∧ (nav.share = false → nav.clipboard = some false →
      ProductOverlay.shareProduct o nav
        = { shared := [], written := ["Check out " ++ p.name ++ ": " ++ nav.href],
            toasts := [], error := none })
    ∧ (nav.share = false → nav.clipboard = none →
      ProductOverlay.shareProduct o nav
        = { shared := [], written := [], toasts := [], error := some .typeError })
    ∧ (∀ (o2 : ProductOverlay), o2.currentProduct = .null →
      ProductOverlay.shareProduct o2 nav
        = { shared := [], written := [], toasts := [], error := none }) := by
  refine ⟨?_, ?_, ?_, ?_, ?_⟩
  · intro hs
    simp [ProductOverlay.shareProduct, hp, hs, Value.truthy, Value.optName, Value.optDescription]
  · intro hs hc
    simp [ProductOverlay.shareProduct, hp, hs, hc, Value.truthy, Value.nameString,
      ProductOverlay.showToast]
  · intro hs hc
    simp [ProductOverlay.shareProduct, hp, hs, hc, Value.truthy, Value.nameString]
  · intro hs hc
    simp [ProductOverlay.shareProduct, hp, hs, hc, Value.truthy]
  · intro o2 h2
    simp [ProductOverlay.shareProduct, h2, Value.truthy]

/-- C22 (amended) at a concrete input: the clipboard path for the first catalog
product. -/
theorem C22_share_or_copy_witness :
    ProductOverlay.shareProduct
        { isVisible := true,
          currentProduct := .product (products.head (by decide)) }
        { share := false, clipboard := some true, href := "https://tryze.example/" }
      = { shared := [],
          written := ["Check out Modern Office Chair: https://tryze.example/"],
          toasts := [("Link copied to clipboard!", 3000)], error := none } :=
  (C22_share_or_copy
    { isVisible := true, currentProduct := .product (products.head (by decide)) }
    { share := false, clipboard := some true, href := "https://tryze.example/" }
    (products.head (by decide)) rfl).2.1 rfl rfl

/-! ## Star ratings (C30) -/

/-- The ceiling is the floor, plus one when there is a fractional part. -/
theorem ceil_eq_floor_add (r : ℚ) :
    ⌈r⌉ = ⌊r⌋ + (if Int.fract r = 0 then 0 else 1) := by
  split
  · rename_i h
    have : r = ((⌊r⌋ : ℤ) : ℚ) := by
      have := Int.floor_add_fract r
      rw [h, add_zero] at this
      exact this.symm
    rw [add_zero]
    conv_lhs => rw [this]
    exact Int.ceil_intCast _
  · rename_i h
    have h1 := Int.ceil_eq_add_one_sub_fract h
    have h2 := Int.floor_add_fract r
    have : ((⌈r⌉ : ℤ) : ℚ) = ((⌊r⌋ + 1 : ℤ) : ℚ) := by
      push_cast
      linarith
    exact_mod_cast this

/-- For a non-negative number `x % 1` is its fractional part. -/
theorem remainderOne_of_nonneg (r : ℚ) (h0 : 0 ≤ r) : remainderOne r = Int.fract r := by
  unfold remainderOne
  rw [if_pos h0]
  exact Int.self_sub_floor r

/-- The fractional part vanishes exactly on the integers. -/
theorem fract_eq_zero_iff_int (r : ℚ) : Int.fract r = 0 ↔ ∃ n : ℤ, r = n := by
  constructor
  · intro h
    refine ⟨⌊r⌋, ?_⟩
    have := Int.floor_add_fract r
    rw [h, add_zero] at this
    exact this.symm
  · rintro ⟨n, rfl⟩
    exact Int.fract_intCast n

/-- The three spans of the menu differ from each other. -/
theorem menu_spans_differ :
    MenuComponent.fullStar ≠ MenuComponent.halfStar
    ∧ MenuComponent.fullStar ≠ MenuComponent.emptyStar
    ∧ MenuComponent.halfStar ≠ MenuComponent.emptyStar := by
  decide

/-- In the panel the half star is the full star, and both differ from the empty
one. -/
theorem overlay_spans :
    ProductOverlay.halfStar = ProductOverlay.fullStar
    ∧ ProductOverlay.fullStar ≠ ProductOverlay.emptyStar := by
  decide

/-- The spans of the menu, by floor and ceiling. -/
theorem menu_stars_eq (r : ℚ) (h0 : 0 ≤ r) :
    MenuComponent.renderStarRating r
      = List.replicate ⌊r⌋.toNat MenuComponent.fullStar
        ++ (if Int.fract r = 0 then [] else [MenuComponent.halfStar])
        ++ List.replicate (5 - ⌈r⌉).toNat MenuComponent.emptyStar := by
  unfold MenuComponent.renderStarRating appendSpans
  rw [remainderOne_of_nonneg r h0]
  by_cases hz : Int.fract r = 0 <;> simp [hz]

/-- The spans of the panel, by the ceiling alone. -/
theorem overlay_stars_eq (r : ℚ) (h0 : 0 ≤ r) :
    ProductOverlay.renderStarRating r
      = List.replicate ⌈r⌉.toNat ProductOverlay.fullStar
        ++ List.replicate (5 - ⌈r⌉).toNat ProductOverlay.emptyStar := by
  have hf0 : 0 ≤ ⌊r⌋ := Int.floor_nonneg.mpr h0
  have hce := ceil_eq_floor_add r
  unfold ProductOverlay.renderStarRating appendSpans
  rw [remainderOne_of_nonneg r h0]
  by_cases hz : Int.fract r = 0
  · rw [if_pos hz] at hce
    simp [hz, hce]
  · rw [if_neg hz] at hce
    have e : ⌈r⌉.toNat = ⌊r⌋.toNat + 1 := by omega
    simp only [hz, ne_eq, not_false_eq_true, decide_True, if_true, overlay_spans.1, e]
    rw [List.replicate_succ', List.append_assoc]

/-- C30 fails on the code for the panel: for every rating `r` with `0 ≤ r ≤ 5`
both methods append 5 spans with `5 - ceil(r)` empty stars, and the menu's has
`floor(r)` full stars and one half star exactly when `r` is not an integer; but
in `ProductOverlay.renderStarRating` the `hasHalfStar` branch appends the span of
a full star, so its output has `ceil(r)` full stars (`floor(r) + 1` for a
non-integer `r`), no half star, and is the output for the rating `ceil(r)`. -/
theorem C30_panel_half_star_is_a_full_star (r : ℚ) (h0 : 0 ≤ r) (h5 : r ≤ 5) :
    (MenuComponent.renderStarRating r).length = 5
    ∧ (((MenuComponent.renderStarRating r).count MenuComponent.fullStar : ℕ) : ℤ) = ⌊r⌋
    ∧ ((∀ n : ℤ, r ≠ n) →
        (MenuComponent.renderStarRating r).count MenuComponent.halfStar = 1)
    ∧ (∀ n : ℤ, r = n → (MenuComponent.renderStarRating r).count MenuComponent.halfStar = 0)
    ∧ (((MenuComponent.renderStarRating r).count MenuComponent.emptyStar : ℕ) : ℤ) = 5 - ⌈r⌉
    ∧ (ProductOverlay.renderStarRating r).length = 5
    ∧ (((ProductOverlay.renderStarRating r).count ProductOverlay.emptyStar : ℕ) : ℤ) = 5 - ⌈r⌉
    ∧ (((ProductOverlay.renderStarRating r).count ProductOverlay.fullStar : ℕ) : ℤ) = ⌈r⌉
    ∧ ((∀ n : ℤ, r ≠ n) →
        (((ProductOverlay.renderStarRating r).count ProductOverlay.fullStar : ℕ) : ℤ) = ⌊r⌋ + 1)
    ∧ ProductOverlay.renderStarRating r = ProductOverlay.renderStarRating ((⌈r⌉ : ℤ) : ℚ) := by
  have hf0 : 0 ≤ ⌊r⌋ := Int.floor_nonneg.mpr h0
  have hc0 : 0 ≤ ⌈r⌉ := Int.ceil_nonneg h0
  have hc5 : ⌈r⌉ ≤ 5 := Int.ceil_le.mpr (by exact_mod_cast h5)
  have hce := ceil_eq_floor_add r
  have hfull : ((⌊r⌋.toNat : ℕ) : ℤ) = ⌊r⌋ := Int.toNat_of_nonneg hf0
  have hceil : ((⌈r⌉.toNat : ℕ) : ℤ) = ⌈r⌉ := Int.toNat_of_nonneg hc0
  have hempty : (((5 - ⌈r⌉).toNat : ℕ) : ℤ) = 5 - ⌈r⌉ := Int.toNat_of_nonneg (by omega)
  obtain ⟨m1, m2, m3⟩ := menu_spans_differ
  obtain ⟨o1, o2⟩ := overlay_spans
  have hint : Int.fract r = 0 ↔ ∃ n : ℤ, r = n := fract_eq_zero_iff_int r
  have hov := overlay_stars_eq r h0
  have hov2 : ProductOverlay.renderStarRating ((⌈r⌉ : ℤ) : ℚ)
      = List.replicate ⌈r⌉.toNat ProductOverlay.fullStar
        ++ List.replicate (5 - ⌈r⌉).toNat ProductOverlay.emptyStar := by
    have := overlay_stars_eq ((⌈r⌉ : ℤ) : ℚ) (by exact_mod_cast hc0)
    rw [Int.ceil_intCast] at this
    exact this
  have hmenu := menu_stars_eq r h0
  refine ⟨?_, ?_, ?_, ?_, ?_, ?_, ?_, ?_, ?_, ?_⟩
  · rw [hmenu]
    by_cases hz : Int.fract r = 0
    · rw [if_pos hz] at hce; simp [hz]; omega
    · rw [if_neg hz] at hce; simp [hz]; omega
  · rw [hmenu]
    by_cases hz : Int.fract r = 0 <;>
      simp [hz, List.count_replicate, List.count_append, m1, m2, m1.symm, m2.symm, hfull]
  · intro hn
    have hz : Int.fract r ≠ 0 := fun h => by
      obtain ⟨n, hn2⟩ := hint.mp h
      exact hn n hn2
    rw [hmenu]
    simp [hz, List.count_replicate, List.count_append, m1, m3, m1.symm, m3.symm]
  · intro n hn
    have hz : Int.fract r = 0 := hint.mpr ⟨n, hn⟩
    rw [hmenu]
    simp [hz, List.count_replicate, List.count_append, m1, m3, m1.symm, m3.symm]
  · rw [hmenu]
    by_cases hz : Int.fract r = 0 <;>
      simp [hz, List.count_replicate, List.count_append, m2, m3, m2.symm, m3.symm, hempty]
  · rw [hov]; simp; omega
  · rw [hov]
    simp [List.count_replicate, List.count_append, o2, o2.symm, hempty]
  · rw [hov]
    simp [List.count_replicate, List.count_append, o2, o2.symm, hceil]
  · intro hn
    have hz : Int.fract r ≠ 0 := fun h => by
      obtain ⟨n, hn2⟩ := hint.mp h
      exact hn n hn2
    rw [if_neg hz] at hce
    rw [hov]
    simp [List.count_replicate, List.count_append, o2, o2.symm, hceil, hce]
    omega
  · rw [hov, hov2]

/-- The ceiling of 4.5. -/
theorem ceil_nine_halves : ⌈(9 / 2 : ℚ)⌉ = 5 := by
  rw [Int.ceil_eq_iff]; norm_num

/-- The rating 4.5 is not an integer. -/
theorem nine_halves_not_int (n : ℤ) : (9 / 2 : ℚ) ≠ n := by
  intro h
  have h2 : (9 : ℚ) = 2 * (n : ℚ) := by linarith
  have h3 : (9 : ℤ) = 2 * n := by exact_mod_cast h2
  omega

/-- C30 at a concrete input: for the rating 4.5 the menu has one half star, the
panel has five full stars, the same spans as for the rating 5. -/
theorem C30_panel_half_star_witness :
    (MenuComponent.renderStarRating (9 / 2)).count MenuComponent.halfStar = 1
    ∧ (((ProductOverlay.renderStarRating (9 / 2)).count ProductOverlay.fullStar : ℕ) : ℤ) = 5
    ∧ ProductOverlay.renderStarRating (9 / 2) = ProductOverlay.renderStarRating 5
    ∧ (((ProductOverlay.renderStarRating 5).count ProductOverlay.fullStar : ℕ) : ℤ) = 5 := by
  have h := C30_panel_half_star_is_a_full_star (9 / 2) (by norm_num) (by norm_num)
  have h5 := C30_panel_half_star_is_a_full_star 5 (by norm_num) (by norm_num)
  have c5 : ⌈(5 : ℚ)⌉ = 5 := by
    rw [Int.ceil_eq_iff]; norm_num
  refine ⟨h.2.2.1 nine_halves_not_int, ?_, ?_, ?_⟩
  · rw [h.2.2.2.2.2.2.2.1, ceil_nine_halves]
  · have := h.2.2.2.2.2.2.2.2.2
    rw [ceil_nine_halves] at this
    simpa using this
  · rw [h5.2.2.2.2.2.2.2.1, c5]

end Tryze
